import Mathlib

/-!
SimpleLink socket offload shim.

A shallow embedding of `drivers/wifi/simplelink/simplelink_sockets.c`:
the address translator (`translate_z_to_sl_addrlen`, `translate_z_to_sl_addrs`,
`translate_sl_to_z_addr`), the status translator (`getErrno`) and the descriptor
table (`simplelink_offload_fd`, `simplelink_socket_create`,
`simplelink_socket_accept`, `simplelink_ioctl`), the multiplexed wait
(`simplelink_poll`), the receive path with flags (`handle_recv_flags`,
`simplelink_recvfrom`), `simplelink_bind`, `simplelink_connect`,
`simplelink_sendto`, and the socket options (`map_credentials`,
`simplelink_setsockopt`, `simplelink_getsockopt`).

Conventions.
* C objects are records of their fields; unsigned fields are `Nat`, statuses and
  descriptors are `Int`.
* Constants, `sizeof` values and type declarations that live in headers outside
  the driver are fields of a header record that every definition takes as a
  parameter.
* Out-parameters and the module-level table are passed in and returned
  explicitly; calls into the native stack and into the host descriptor table are
  appended to a trace, and their results come from an environment record.
-/

set_option autoImplicit false

namespace Simplelink

/-! ## Address translator: data -/

/-- Zephyr `struct sockaddr_in`; `sin_addr` is `sin_addr.s_addr`. -/
structure sockaddr_in where
  sin_family : Nat
  sin_port : Nat
  sin_addr : Nat
deriving DecidableEq

/-- Zephyr `struct sockaddr_in6`; `sin6_addr` is the 16-byte array
`sin6_addr.s6_addr`, `sin6_scope_id` is a `u8_t`. -/
structure sockaddr_in6 where
  sin6_family : Nat
  sin6_port : Nat
  sin6_addr : Fin 16 → Nat
  sin6_scope_id : Nat
deriving DecidableEq

/-- SimpleLink `SlSockAddrIn_t`; `sin_addr` is `sin_addr.s_addr`. -/
structure SlSockAddrIn_t where
  sin_family : Nat
  sin_port : Nat
  sin_addr : Nat
deriving DecidableEq

/-- SimpleLink `SlSockAddrIn6_t`; `sin6_addr` is the 16 bytes of the union
`sin6_addr._S6_un` (whose member `_S6_u32` is an array of four 32-bit words),
`sin6_scope_id` is a 32-bit field. -/
structure SlSockAddrIn6_t where
  sin6_family : Nat
  sin6_port : Nat
  sin6_flowinfo : Nat
  sin6_addr : Fin 16 → Nat
  sin6_scope_id : Nat
deriving DecidableEq

/-- The object behind a `struct sockaddr *`: either a `struct sockaddr_in` or a
`struct sockaddr_in6`. -/
inductive sockaddr where
  | of_in (a : sockaddr_in)
  | of_in6 (a : sockaddr_in6)
deriving DecidableEq

/-- The object behind a non-null `SlSockAddr_t *`. -/
inductive SlSockAddr_t where
  | of_in (a : SlSockAddrIn_t)
  | of_in6 (a : SlSockAddrIn6_t)
deriving DecidableEq

/-- What the address translator takes from the headers: the four `sizeof`
values, the family tags of both layers, and what a pointer cast reads when the
object behind the pointer has the other structure type (fixed by the memory
layout of the structures, which the driver does not declare). -/
structure AddrHdr where
  sizeof_sockaddr_in : Nat
  sizeof_sockaddr_in6 : Nat
  sizeof_SlSockAddrIn_t : Nat
  sizeof_SlSockAddrIn6_t : Nat
  AF_INET : Nat
  AF_INET6 : Nat
  SL_AF_INET : Nat
  SL_AF_INET6 : Nat
  z_in6_as_in : sockaddr_in6 → sockaddr_in
  z_in_as_in6 : sockaddr_in → sockaddr_in6
  sl_in6_as_in : SlSockAddrIn6_t → SlSockAddrIn_t
  sl_in_as_in6 : SlSockAddrIn_t → SlSockAddrIn6_t

/-- The cast `(struct sockaddr_in *)addr`, dereferenced. -/
def sockaddr.as_in (H : AddrHdr) : sockaddr → sockaddr_in
  | .of_in a => a
  | .of_in6 a => H.z_in6_as_in a

/-- The cast `(struct sockaddr_in6 *)addr`, dereferenced. -/
def sockaddr.as_in6 (H : AddrHdr) : sockaddr → sockaddr_in6
  | .of_in a => H.z_in_as_in6 a
  | .of_in6 a => a

/-- The field `sl_addr->sa_family`: the leading family tag of either structure. -/
def SlSockAddr_t.sa_family : SlSockAddr_t → Nat
  | .of_in a => a.sin_family
  | .of_in6 a => a.sin6_family

/-- The cast `(SlSockAddrIn_t *)sl_addr`, dereferenced. -/
def SlSockAddr_t.as_in (H : AddrHdr) : SlSockAddr_t → SlSockAddrIn_t
  | .of_in a => a
  | .of_in6 a => H.sl_in6_as_in a

/-- The cast `(SlSockAddrIn6_t *)sl_addr`, dereferenced. -/
def SlSockAddr_t.as_in6 (H : AddrHdr) : SlSockAddr_t → SlSockAddrIn6_t
  | .of_in a => H.sl_in_as_in6 a
  | .of_in6 a => a

/-- The value of a `SlSockAddr_t *` inside the driver: `NULL`, or the address of
one of the caller's two native buffers. -/
inductive SlAddrPtr where
  | NULL
  | sl_addr_in
  | sl_addr_in6
deriving DecidableEq

/-- The three native out-parameters of the encoders: `*sl_addr_in`,
`*sl_addr_in6` and `*sl_addrlen`. -/
structure SlBufs where
  sl_addr_in : SlSockAddrIn_t
  sl_addr_in6 : SlSockAddrIn6_t
  sl_addrlen : Nat
deriving DecidableEq

/-- Dereference of a `SlSockAddr_t *` returned by an encoder. -/
def SlBufs.deref (b : SlBufs) : SlAddrPtr → Option SlSockAddr_t
  | .NULL => none
  | .sl_addr_in => some (.of_in b.sl_addr_in)
  | .sl_addr_in6 => some (.of_in6 b.sl_addr_in6)

/-- The value of `sizeof(sl_addr_in6->sin6_addr._S6_un._S6_u32)`: four 32-bit
words. -/
def sizeof_S6_u32 : Nat := 4 * 4

/-- The value of `sizeof(z_sockaddr_in6->sin6_addr.s6_addr)`: sixteen bytes. -/
def sizeof_s6_addr : Nat := 16

/-- The call `memcpy(dst, src, n)` on 16-byte objects: the first `n` bytes of `dst`
become those of `src`, the others stay. -/
def memcpy (dst src : Fin 16 → Nat) (n : Nat) : Fin 16 → Nat :=
  fun i => if i.val < n then src i else dst i

/-! ## Address translator: operations -/

/-- Function `translate_z_to_sl_addrlen`: returns `sl_addr` and the
out-parameters. -/
def translate_z_to_sl_addrlen (H : AddrHdr) (addrlen : Nat) (b : SlBufs) :
    SlAddrPtr × SlBufs :=
  if addrlen = H.sizeof_sockaddr_in then
    (.sl_addr_in, { b with sl_addrlen := H.sizeof_SlSockAddrIn_t })
  else if addrlen = H.sizeof_sockaddr_in6 then
    (.sl_addr_in6, { b with sl_addrlen := H.sizeof_SlSockAddrIn6_t })
  else
    (.NULL, b)

/-- Function `translate_z_to_sl_addrs`: returns `sl_addr` and the out-parameters.
The fields `sin6_flowinfo` and `sin6_scope_id` of `*sl_addr_in6` are not
assigned and keep what the buffer held. -/
def translate_z_to_sl_addrs (H : AddrHdr) (addr : sockaddr) (addrlen : Nat)
    (b : SlBufs) : SlAddrPtr × SlBufs :=
  if addrlen = H.sizeof_sockaddr_in then
    let z_sockaddr_in := addr.as_in H
    (.sl_addr_in,
      { b with
        sl_addrlen := H.sizeof_SlSockAddrIn_t
        sl_addr_in :=
          { b.sl_addr_in with
            sin_family := H.SL_AF_INET
            sin_port := z_sockaddr_in.sin_port
            sin_addr := z_sockaddr_in.sin_addr } })
  else if addrlen = H.sizeof_sockaddr_in6 then
    let z_sockaddr_in6 := addr.as_in6 H
    (.sl_addr_in6,
      { b with
        sl_addrlen := H.sizeof_SlSockAddrIn6_t
        sl_addr_in6 :=
          { b.sl_addr_in6 with
            sin6_family := H.SL_AF_INET6
            sin6_port := z_sockaddr_in6.sin6_port
            sin6_addr :=
              memcpy b.sl_addr_in6.sin6_addr z_sockaddr_in6.sin6_addr sizeof_S6_u32 } })
  else
    (.NULL, b)

/-- Function `translate_sl_to_z_addr`: returns `*addr` and `*addrlen` after the
call; `(u8_t)` is reduction modulo 2^8. -/
def translate_sl_to_z_addr (H : AddrHdr) (sl_addr : SlSockAddr_t) (sl_addrlen : Nat)
    (addr : sockaddr) (addrlen : Nat) : sockaddr × Nat :=
  if sl_addr.sa_family = H.SL_AF_INET then
    if sl_addrlen = H.sizeof_SlSockAddrIn_t then
      let z_sockaddr_in := addr.as_in H
      let sl_addr_in := sl_addr.as_in H
      (.of_in
        { z_sockaddr_in with
          sin_family := H.AF_INET
          sin_port := sl_addr_in.sin_port
          sin_addr := sl_addr_in.sin_addr },
        H.sizeof_sockaddr_in)
    else
      (addr, sl_addrlen)
  else if sl_addr.sa_family = H.SL_AF_INET6 then
    if sl_addrlen = H.sizeof_SlSockAddrIn6_t then
      let z_sockaddr_in6 := addr.as_in6 H
      let sl_addr_in6 := sl_addr.as_in6 H
      (.of_in6
        { z_sockaddr_in6 with
          sin6_family := H.AF_INET6
          sin6_port := sl_addr_in6.sin6_port
          sin6_scope_id := sl_addr_in6.sin6_scope_id % 2 ^ 8
          sin6_addr :=
            memcpy z_sockaddr_in6.sin6_addr sl_addr_in6.sin6_addr sizeof_s6_addr },
        H.sizeof_sockaddr_in6)
    else
      (addr, sl_addrlen)
  else
    (addr, addrlen)

/-- Encode `addr` with `translate_z_to_sl_addrs`, then decode the native address
and native length it produced with `translate_sl_to_z_addr` into the generic
buffer `z`, `zlen`; `none` when the encoder returned `NULL`. -/
def encode_then_decode (H : AddrHdr) (addr : sockaddr) (addrlen : Nat) (b : SlBufs)
    (z : sockaddr) (zlen : Nat) : Option (sockaddr × Nat) :=
  let e := translate_z_to_sl_addrs H addr addrlen b
  match e.2.deref e.1 with
  | none => none
  | some sl_addr => some (translate_sl_to_z_addr H sl_addr e.2.sl_addrlen z zlen)

/-- One admissible assignment of the header values: 8- and 24-byte generic
structures, 16- and 28-byte native ones, distinct family tags, and casts that
read the leading fields the two structure types share. -/
def AddrHdr.cc32xx : AddrHdr where
  sizeof_sockaddr_in := 8
  sizeof_sockaddr_in6 := 24
  sizeof_SlSockAddrIn_t := 16
  sizeof_SlSockAddrIn6_t := 28
  AF_INET := 1
  AF_INET6 := 2
  SL_AF_INET := 2
  SL_AF_INET6 := 3
  z_in6_as_in := fun a => ⟨a.sin6_family, a.sin6_port, 0⟩
  z_in_as_in6 := fun a => ⟨a.sin_family, a.sin_port, fun _ => 0, 0⟩
  sl_in6_as_in := fun a => ⟨a.sin6_family, a.sin6_port, a.sin6_flowinfo⟩
  sl_in_as_in6 := fun a => ⟨a.sin_family, a.sin_port, a.sin_addr, fun _ => 0, 0⟩

/-! ## Status translator -/

/-- The `errno` values and the SimpleLink status constants named by the driver;
their numeric values come from `errno.h` and from SimpleLink's `errors.h`. -/
structure ErrHdr where
  EBADF : Int
  ENSOCK : Int
  EAGAIN : Int
  ENOMEM : Int
  EACCES : Int
  EFAULT : Int
  EINVAL : Int
  EDESTADDRREQ : Int
  EPROTOTYPE : Int
  ENOPROTOOPT : Int
  EPROTONOSUPPORT : Int
  EOPNOTSUPP : Int
  EAFNOSUPPORT : Int
  EADDRINUSE : Int
  EADDRNOTAVAIL : Int
  ENETUNREACH : Int
  ENOBUFS : Int
  EISCONN : Int
  ENOTCONN : Int
  ETIMEDOUT : Int
  ECONNREFUSED : Int
  ESOCKTNOSUPPORT : Int
  EISDIR : Int
  ENOTSUP : Int
  SL_ERROR_BSD_EBADF : Int
  SL_ERROR_BSD_ENSOCK : Int
  SL_ERROR_BSD_EAGAIN : Int
  SL_ERROR_BSD_ENOMEM : Int
  SL_ERROR_BSD_EACCES : Int
  SL_ERROR_BSD_EFAULT : Int
  SL_ERROR_BSD_EINVAL : Int
  SL_ERROR_BSD_EDESTADDRREQ : Int
  SL_ERROR_BSD_EPROTOTYPE : Int
  SL_ERROR_BSD_ENOPROTOOPT : Int
  SL_ERROR_BSD_EPROTONOSUPPORT : Int
  SL_ERROR_BSD_EOPNOTSUPP : Int
  SL_ERROR_BSD_EAFNOSUPPORT : Int
  SL_ERROR_BSD_EADDRINUSE : Int
  SL_ERROR_BSD_EADDRNOTAVAIL : Int
  SL_ERROR_BSD_ENETUNREACH : Int
  SL_ERROR_BSD_ENOBUFS : Int
  SL_ERROR_BSD_EISCONN : Int
  SL_ERROR_BSD_ENOTCONN : Int
  SL_ERROR_BSD_ETIMEDOUT : Int
  SL_ERROR_BSD_ECONNREFUSED : Int
  SL_POOL_IS_EMPTY : Int
  SL_RET_CODE_NO_FREE_ASYNC_BUFFERS_ERROR : Int
  SL_RET_CODE_MALLOC_ERROR : Int
  SL_RET_CODE_INVALID_INPUT : Int
  SL_EZEROLEN : Int
  SL_ESMALLBUF : Int
  SL_INVALPARAM : Int

/-- One `case` of the `switch` in `getErrno`: whether the preprocessor keeps it
(the `#if` around it), its label, and the value it assigns to `error`. -/
structure SwitchCase where
  compiled : Bool
  label : Int
  value : Int
deriving DecidableEq

/-- The `case` labels of the `switch` in `getErrno`, in source order. A BSD case
is compiled only when the two constants differ; the proprietary driver errors
are always compiled. -/
def getErrno_cases (E : ErrHdr) : List SwitchCase :=
  [ ⟨decide (E.EBADF ≠ E.SL_ERROR_BSD_EBADF), E.SL_ERROR_BSD_EBADF, E.EBADF⟩,
    ⟨decide (E.ENSOCK ≠ E.SL_ERROR_BSD_ENSOCK), E.SL_ERROR_BSD_ENSOCK, E.ENSOCK⟩,
    ⟨decide (E.EAGAIN ≠ E.SL_ERROR_BSD_EAGAIN), E.SL_ERROR_BSD_EAGAIN, E.EAGAIN⟩,
    ⟨decide (E.ENOMEM ≠ E.SL_ERROR_BSD_ENOMEM), E.SL_ERROR_BSD_ENOMEM, E.ENOMEM⟩,
    ⟨decide (E.EACCES ≠ E.SL_ERROR_BSD_EACCES), E.SL_ERROR_BSD_EACCES, E.EACCES⟩,
    ⟨decide (E.EFAULT ≠ E.SL_ERROR_BSD_EFAULT), E.SL_ERROR_BSD_EFAULT, E.EFAULT⟩,
    ⟨decide (E.EINVAL ≠ E.SL_ERROR_BSD_EINVAL), E.SL_ERROR_BSD_EINVAL, E.EINVAL⟩,
    ⟨decide (E.EDESTADDRREQ ≠ E.SL_ERROR_BSD_EDESTADDRREQ), E.SL_ERROR_BSD_EDESTADDRREQ, E.EDESTADDRREQ⟩,
    ⟨decide (E.EPROTOTYPE ≠ E.SL_ERROR_BSD_EPROTOTYPE), E.SL_ERROR_BSD_EPROTOTYPE, E.EPROTOTYPE⟩,
    ⟨decide (E.ENOPROTOOPT ≠ E.SL_ERROR_BSD_ENOPROTOOPT), E.SL_ERROR_BSD_ENOPROTOOPT, E.ENOPROTOOPT⟩,
    ⟨decide (E.EPROTONOSUPPORT ≠ E.SL_ERROR_BSD_EPROTONOSUPPORT), E.SL_ERROR_BSD_EPROTONOSUPPORT, E.EPROTONOSUPPORT⟩,
    ⟨decide (E.EOPNOTSUPP ≠ E.SL_ERROR_BSD_EOPNOTSUPP), E.SL_ERROR_BSD_EOPNOTSUPP, E.EOPNOTSUPP⟩,
    ⟨decide (E.EAFNOSUPPORT ≠ E.SL_ERROR_BSD_EAFNOSUPPORT), E.SL_ERROR_BSD_EAFNOSUPPORT, E.EAFNOSUPPORT⟩,
    ⟨decide (E.EADDRINUSE ≠ E.SL_ERROR_BSD_EADDRINUSE), E.SL_ERROR_BSD_EADDRINUSE, E.EADDRINUSE⟩,
    ⟨decide (E.EADDRNOTAVAIL ≠ E.SL_ERROR_BSD_EADDRNOTAVAIL), E.SL_ERROR_BSD_EADDRNOTAVAIL, E.EADDRNOTAVAIL⟩,
    ⟨decide (E.ENETUNREACH ≠ E.SL_ERROR_BSD_ENETUNREACH), E.SL_ERROR_BSD_ENETUNREACH, E.ENETUNREACH⟩,
    ⟨decide (E.ENOBUFS ≠ E.SL_ERROR_BSD_ENOBUFS), E.SL_ERROR_BSD_ENOBUFS, E.ENOBUFS⟩,
    ⟨decide (E.EISCONN ≠ E.SL_ERROR_BSD_EISCONN), E.SL_ERROR_BSD_EISCONN, E.EISCONN⟩,
    ⟨decide (E.ENOTCONN ≠ E.SL_ERROR_BSD_ENOTCONN), E.SL_ERROR_BSD_ENOTCONN, E.ENOTCONN⟩,
    ⟨decide (E.ETIMEDOUT ≠ E.SL_ERROR_BSD_ETIMEDOUT), E.SL_ERROR_BSD_ETIMEDOUT, E.ETIMEDOUT⟩,
    ⟨decide (E.ECONNREFUSED ≠ E.SL_ERROR_BSD_ECONNREFUSED), E.SL_ERROR_BSD_ECONNREFUSED, E.ECONNREFUSED⟩,
    ⟨true, E.SL_POOL_IS_EMPTY, E.ENOMEM⟩,
    ⟨true, E.SL_RET_CODE_NO_FREE_ASYNC_BUFFERS_ERROR, E.ENOMEM⟩,
    ⟨true, E.SL_RET_CODE_MALLOC_ERROR, E.ENOMEM⟩,
    ⟨true, E.SL_RET_CODE_INVALID_INPUT, E.EINVAL⟩,
    ⟨true, E.SL_EZEROLEN, E.EINVAL⟩,
    ⟨true, E.SL_ESMALLBUF, E.EINVAL⟩,
    ⟨true, E.SL_INVALPARAM, E.EINVAL⟩ ]

/-- Function `getErrno`: non-negative statuses are returned as they are; a negative status
selects the compiled `case` carrying it as label, and the `default` leaves it
unchanged. -/
def getErrno (E : ErrHdr) (error : Int) : Int :=
  if error ≥ 0 then
    error
  else
    match (getErrno_cases E).find? (fun c => c.compiled && decide (c.label = error)) with
    | some c => c.value
    | none => error

/-- The labels of the `switch` in `getErrno`, in source order. -/
def getErrno_labels (E : ErrHdr) : List Int :=
  (getErrno_cases E).map (fun d => d.label)

/-- One admissible assignment of the constants: positive `errno` values,
negative and pairwise distinct SimpleLink statuses. -/
def ErrHdr.cc32xx : ErrHdr where
  EBADF := 9
  ENSOCK := 10
  EAGAIN := 11
  ENOMEM := 12
  EACCES := 13
  EFAULT := 14
  EINVAL := 22
  EDESTADDRREQ := 121
  EPROTOTYPE := 107
  ENOPROTOOPT := 109
  EPROTONOSUPPORT := 123
  EOPNOTSUPP := 95
  EAFNOSUPPORT := 106
  EADDRINUSE := 112
  EADDRNOTAVAIL := 125
  ENETUNREACH := 114
  ENOBUFS := 105
  EISCONN := 127
  ENOTCONN := 128
  ETIMEDOUT := 116
  ECONNREFUSED := 111
  ESOCKTNOSUPPORT := 124
  EISDIR := 21
  ENOTSUP := 134
  SL_ERROR_BSD_EBADF := -9
  SL_ERROR_BSD_ENSOCK := -10
  SL_ERROR_BSD_EAGAIN := -11
  SL_ERROR_BSD_ENOMEM := -12
  SL_ERROR_BSD_EACCES := -13
  SL_ERROR_BSD_EFAULT := -14
  SL_ERROR_BSD_EINVAL := -22
  SL_ERROR_BSD_EDESTADDRREQ := -89
  SL_ERROR_BSD_EPROTOTYPE := -91
  SL_ERROR_BSD_ENOPROTOOPT := -92
  SL_ERROR_BSD_EPROTONOSUPPORT := -93
  SL_ERROR_BSD_EOPNOTSUPP := -95
  SL_ERROR_BSD_EAFNOSUPPORT := -97
  SL_ERROR_BSD_EADDRINUSE := -98
  SL_ERROR_BSD_EADDRNOTAVAIL := -99
  SL_ERROR_BSD_ENETUNREACH := -101
  SL_ERROR_BSD_ENOBUFS := -105
  SL_ERROR_BSD_EISCONN := -106
  SL_ERROR_BSD_ENOTCONN := -107
  SL_ERROR_BSD_ETIMEDOUT := -110
  SL_ERROR_BSD_ECONNREFUSED := -111
  SL_POOL_IS_EMPTY := -2000
  SL_RET_CODE_NO_FREE_ASYNC_BUFFERS_ERROR := -2012
  SL_RET_CODE_MALLOC_ERROR := -2006
  SL_RET_CODE_INVALID_INPUT := -2005
  SL_EZEROLEN := -2002
  SL_ESMALLBUF := -2001
  SL_INVALPARAM := -2003

/-! ## Descriptor table and the calls around it -/

/-- Constants of the socket, `fcntl` and descriptor-table headers named by
`simplelink_socket`, `simplelink_fcntl`, `simplelink_ioctl` and the table
declaration, with the build option `CONFIG_NET_SOCKETS_SOCKOPT_TLS`. -/
structure SockHdr where
  CONFIG_POSIX_MAX_FDS : Nat
  CONFIG_NET_SOCKETS_SOCKOPT_TLS : Bool
  SOCK_STREAM : Int
  SOCK_DGRAM : Int
  SOCK_RAW : Int
  SL_SOCK_STREAM : Int
  SL_SOCK_DGRAM : Int
  SL_SOCK_RAW : Int
  IPPROTO_TCP : Int
  IPPROTO_UDP : Int
  IPPROTO_TLS_1_0 : Int
  IPPROTO_TLS_1_2 : Int
  IPPROTO_DTLS_1_0 : Int
  IPPROTO_DTLS_1_2 : Int
  SL_IPPROTO_TCP : Int
  SL_IPPROTO_UDP : Int
  SL_SEC_SOCKET : Int
  SL_SOL_SOCKET : Int
  SL_SO_SECMETHOD : Int
  SL_SO_SEC_METHOD_TLSV1 : Int
  SL_SO_NONBLOCKING : Int
  sizeof_SlSockNonblocking_t : Nat
  F_GETFL : Int
  F_SETFL : Int
  O_NONBLOCK : Int
  ZFD_IOCTL_CLOSE : Int

/-- Constants named by `simplelink_poll`: the capacity of a native descriptor
set, the kernel's "wait forever" timeout, and the two event flags. -/
structure PollHdr where
  SL_FD_SETSIZE : Int
  K_FOREVER : Int
  POLLIN : Nat
  POLLOUT : Nat

/-- Constants named by the receive, connect and socket-option paths: the receive
flags, the two native security statuses that `simplelink_connect` lets pass,
the TLS option level and names, the plain option names declared outside the
driver, the native option names for credentials, the credential types, and
`sizeof(sec_tag_t)`. -/
structure OptHdr where
  MSG_PEEK : Int
  MSG_DONTWAIT : Int
  SL_ERROR_BSD_ESECDATEERROR : Int
  SL_ERROR_BSD_ESECUNKNOWNROOTCA : Int
  SOL_TLS : Int
  TLS_SEC_TAG_LIST : Int
  TLS_HOSTNAME : Int
  TLS_CIPHERSUITE_LIST : Int
  TLS_CIPHERSUITE_USED : Int
  TLS_PEER_VERIFY : Int
  TLS_DTLS_ROLE : Int
  TCP_NODELAY : Int
  SO_REUSEADDR : Int
  SL_SO_SECURE_DOMAIN_NAME_VERIFICATION : Int
  SL_SO_SECURE_FILES_CA_FILE_NAME : Int
  SL_SO_SECURE_FILES_CERTIFICATE_FILE_NAME : Int
  SL_SO_SECURE_FILES_PRIVATE_KEY_FILE_NAME : Int
  TLS_CREDENTIAL_CA_CERTIFICATE : Int
  TLS_CREDENTIAL_SERVER_CERTIFICATE : Int
  TLS_CREDENTIAL_PRIVATE_KEY : Int
  sizeof_sec_tag_t : Nat

/-- All header values the driver depends on. -/
structure Hdr where
  addr : AddrHdr
  err : ErrHdr
  sock : SockHdr
  poll : PollHdr
  opt : OptHdr

/-- A call that leaves the driver, with its arguments and the value it returned:
the host descriptor table (`z_reserve_fd`, `z_free_fd`, `z_finalize_fd`) and
the native stack (`sl_*`). A pointer to an entry of `simplelink_offload_fd` is
the index of the entry; an option value passed by pointer is the value. -/
inductive Call where
  | z_reserve_fd (ret : Int)
  | z_free_fd (fd : Int)
  | z_finalize_fd (fd : Int) (obj : Nat)
  | sl_Socket (family type proto : Int) (ret : Int)
  | sl_Close (sd : Int) (ret : Int)
  | sl_SetSockOpt (sd level optname optval : Int) (optlen : Nat) (ret : Int)
  | sl_GetSockOpt (sd level optname : Int) (optlen : Nat) (ret : Int) (optval : Int)
  | sl_Accept (sd : Int) (sl_addr : SlAddrPtr) (sl_addrlen : Nat) (ret : Int)
  | sl_Select (nfds : Int) (rfds wfds : List Int) (timeout : Option (Int × Int)) (ret : Int)
      (rfds_out wfds_out : List Int)
  | sl_Recv (sd : Int) (len : Nat) (flags : Int) (ret : Int)
  | sl_RecvFrom (sd : Int) (len : Nat) (flags : Int) (sl_addr : SlAddrPtr) (sl_addrlen : Nat)
      (ret : Int)
  | sl_Bind (sd : Int) (sl_addr : SlSockAddr_t) (sl_addrlen : Nat) (ret : Int)
  | sl_Connect (sd : Int) (sl_addr : SlSockAddr_t) (sl_addrlen : Nat) (ret : Int)
  | sl_SendTo (sd : Int) (len : Nat) (flags : Int) (sl_addr : SlSockAddr_t) (sl_addrlen : Nat)
      (ret : Int)
  | sl_Send (sd : Int) (len : Nat) (flags : Int) (ret : Int)
  | sl_SetSockOpt_buf (sd level optname : Int) (optval : Option (List Int)) (optlen : Nat)
      (ret : Int)
  | sl_GetSockOpt_buf (sd level optname : Int) (optval : Option (List Int))
      (optlen : Option Nat) (ret : Int)
deriving DecidableEq

/-- Zephyr `struct tls_credential`, as far as `map_credentials` reads it: the
type, the value buffer and its length. -/
structure tls_credential where
  type : Int
  buf : List Int
  len : Nat
deriving DecidableEq

/-- What the collaborators answer: each result is a function of the calls made
so far and of the arguments. `sl_GetSockOpt` also yields the option value it
stores; `sl_Accept` also yields the native address and length it leaves behind
`sl_addr` and `sl_addrlen`. `sl_Select` yields the count and the two descriptor
sets it leaves; `sl_RecvFrom` takes the object behind `sl_addr` (`none` for a
null pointer) and yields what it leaves behind a non-null `sl_addr` and
`sl_addrlen`. The `_buf` option calls are `sl_SetSockOpt` and `sl_GetSockOpt`
on a caller's buffer (`none` for a null pointer): the second yields the buffer
and the length it leaves. `credentials` lists, for a security tag, the entries
that `credential_next_get` walks through. -/
structure Env where
  z_reserve_fd : List Call → Int
  sl_Socket : List Call → Int → Int → Int → Int
  sl_Close : List Call → Int → Int
  sl_SetSockOpt : List Call → Int → Int → Int → Int → Nat → Int
  sl_GetSockOpt : List Call → Int → Int → Int → Nat → Int × Int
  sl_Accept : List Call → Int → SlSockAddr_t → Nat → Int × SlSockAddr_t × Nat
  sl_Select : List Call → Int → List Int → List Int → Option (Int × Int) →
    Int × List Int × List Int
  sl_Recv : List Call → Int → Nat → Int → Int
  sl_RecvFrom : List Call → Int → Nat → Int → Option SlSockAddr_t → Nat →
    Int × SlSockAddr_t × Nat
  sl_Bind : List Call → Int → SlSockAddr_t → Nat → Int
  sl_Connect : List Call → Int → SlSockAddr_t → Nat → Int
  sl_SendTo : List Call → Int → Nat → Int → SlSockAddr_t → Nat → Int
  sl_Send : List Call → Int → Nat → Int → Int
  sl_SetSockOpt_buf : List Call → Int → Int → Int → Option (List Int) → Nat → Int
  sl_GetSockOpt_buf : List Call → Int → Int → Int → Option (List Int) → Option Nat →
    Int × Option (List Int) × Option Nat
  credentials : Int → List tls_credential

/-- The state the driver reads and writes: the table `simplelink_offload_fd`,
the ambient `errno`, and the calls made so far. -/
structure World where
  simplelink_offload_fd : List Int
  errno : Int
  trace : List Call
deriving DecidableEq

/-- The initializer of `simplelink_offload_fd`:
`[0 ... CONFIG_POSIX_MAX_FDS - 1] = -1`. -/
def simplelink_offload_fd_init (H : Hdr) : List Int :=
  List.replicate H.sock.CONFIG_POSIX_MAX_FDS (-1)

/-- Append a call to the trace. -/
def World.call (w : World) (c : Call) : World :=
  { w with trace := w.trace ++ [c] }

/-- Modelled from the spec: `slcb_SetErrno`, declared outside the driver; it
sets the ambient last-error slot and returns the sentinel -1. -/
def slcb_SetErrno (w : World) (e : Int) : Int × World :=
  (-1, { w with errno := e })

/-- The host call `z_reserve_fd()`. -/
def z_reserve_fd (N : Env) (w : World) : Int × World :=
  let ret := N.z_reserve_fd w.trace
  (ret, w.call (.z_reserve_fd ret))

/-- The host call `z_free_fd(fd)`. -/
def z_free_fd (w : World) (fd : Int) : World :=
  w.call (.z_free_fd fd)

/-- The host call `z_finalize_fd(fd, obj, vtable)`; the vtable is always
`simplelink_socket_fd_op_vtable`. -/
def z_finalize_fd (w : World) (fd : Int) (obj : Nat) : World :=
  w.call (.z_finalize_fd fd obj)

/-- The native call `sl_Socket`. -/
def sl_Socket (N : Env) (w : World) (family type proto : Int) : Int × World :=
  let ret := N.sl_Socket w.trace family type proto
  (ret, w.call (.sl_Socket family type proto ret))

/-- The native call `sl_Close`. -/
def sl_Close (N : Env) (w : World) (sd : Int) : Int × World :=
  let ret := N.sl_Close w.trace sd
  (ret, w.call (.sl_Close sd ret))

/-- The native call `sl_SetSockOpt`. -/
def sl_SetSockOpt (N : Env) (w : World) (sd level optname optval : Int) (optlen : Nat) :
    Int × World :=
  let ret := N.sl_SetSockOpt w.trace sd level optname optval optlen
  (ret, w.call (.sl_SetSockOpt sd level optname optval optlen ret))

/-- The native call `sl_GetSockOpt`: the status, the option value stored through
`optval`, and the state. -/
def sl_GetSockOpt (N : Env) (w : World) (sd level optname : Int) (optlen : Nat) :
    Int × Int × World :=
  let r := N.sl_GetSockOpt w.trace sd level optname optlen
  (r.1, r.2, w.call (.sl_GetSockOpt sd level optname optlen r.1 r.2))

/-- The native call `sl_Accept(sd, sl_addr, &sl_addrlen)` with `sl_addr` non-null
and pointing to `pointee`: the status, the object behind `sl_addr` and the value
of `sl_addrlen` after the call, and the state. -/
def sl_Accept (N : Env) (w : World) (sd : Int) (sl_addr : SlAddrPtr)
    (pointee : SlSockAddr_t) (sl_addrlen : Nat) : Int × SlSockAddr_t × Nat × World :=
  let r := N.sl_Accept w.trace sd pointee sl_addrlen
  (r.1, r.2.1, r.2.2, w.call (.sl_Accept sd sl_addr sl_addrlen r.1))

/-- The common epilogue
`if (retval < 0) { retval = slcb_SetErrno(getErrno(retval)); } return retval;`. -/
def exit_errno (H : Hdr) (w : World) (retval : Int) : Int × World :=
  if retval < 0 then slcb_SetErrno w (getErrno H.err retval) else (retval, w)

/-- The read `*((int *)obj)`, where `obj` points to entry `obj` of
`simplelink_offload_fd`. -/
def World.obj_sd (w : World) (obj : Nat) : Int :=
  w.simplelink_offload_fd.getD obj (-1)

/-- The `switch (family)` of `simplelink_socket`; `none` is its `default`. -/
def sl_family_of (H : Hdr) (family : Int) : Option Int :=
  if family = H.addr.AF_INET then some H.addr.SL_AF_INET
  else if family = H.addr.AF_INET6 then some H.addr.SL_AF_INET6
  else none

/-- The `switch (type)` of `simplelink_socket`; `none` is its `default`. -/
def sl_type_of (H : Hdr) (type : Int) : Option Int :=
  if type = H.sock.SOCK_STREAM then some H.sock.SL_SOCK_STREAM
  else if type = H.sock.SOCK_DGRAM then some H.sock.SL_SOCK_DGRAM
  else if type = H.sock.SOCK_RAW then some H.sock.SL_SOCK_RAW
  else none

/-- The protocol mapping of `simplelink_socket`; `none` stands for the two
branches that fail with `EPROTONOSUPPORT`. -/
def sl_proto_of (H : Hdr) (proto : Int) : Option Int :=
  if proto ≥ H.sock.IPPROTO_TLS_1_0 ∧ proto ≤ H.sock.IPPROTO_TLS_1_2 then
    some H.sock.SL_SEC_SOCKET
  else if proto ≥ H.sock.IPPROTO_DTLS_1_0 ∧ proto ≤ H.sock.IPPROTO_DTLS_1_2 then
    none
  else if proto = H.sock.IPPROTO_TCP then some H.sock.SL_IPPROTO_TCP
  else if proto = H.sock.IPPROTO_UDP then some H.sock.SL_IPPROTO_UDP
  else none

/-- Function `simplelink_socket`: the return value and the state. `sec_method` is
a `uint8_t`, passed with `sizeof(sec_method)` = 1. -/
def simplelink_socket (H : Hdr) (N : Env) (w : World) (family type proto : Int) :
    Int × World :=
  match sl_family_of H family with
  | none => slcb_SetErrno w H.err.EAFNOSUPPORT
  | some sl_family =>
    match sl_type_of H type with
    | none => slcb_SetErrno w H.err.ESOCKTNOSUPPORT
    | some sl_type =>
      match sl_proto_of H proto with
      | none => slcb_SetErrno w H.err.EPROTONOSUPPORT
      | some sl_proto =>
        let s := sl_Socket N w sl_family sl_type sl_proto
        let sd := s.1
        if sd ≥ 0 ∧ H.sock.CONFIG_NET_SOCKETS_SOCKOPT_TLS = true
            ∧ sl_proto = H.sock.SL_SEC_SOCKET then
          let sec_method : Int :=
            ((proto - H.sock.IPPROTO_TLS_1_0) + H.sock.SL_SO_SEC_METHOD_TLSV1) % 2 ^ 8
          let o := sl_SetSockOpt N s.2 sd H.sock.SL_SOL_SOCKET H.sock.SL_SO_SECMETHOD
            sec_method 1
          if o.1 < 0 then
            let r := slcb_SetErrno o.2 H.err.EPROTONOSUPPORT
            let c := sl_Close N r.2 sd
            (r.1, c.2)
          else
            exit_errno H o.2 sd
        else
          exit_errno H s.2 sd

/-- Function `simplelink_close`. -/
def simplelink_close (H : Hdr) (N : Env) (w : World) (sd : Int) : Int × World :=
  let c := sl_Close N w sd
  exit_errno H c.2 c.1

/-- Function `simplelink_accept`: the return value, `*addr` and `*addrlen` after the call
(`none` for a null pointer), and the state. `b` holds the uninitialised locals
`sl_addr_in`, `sl_addr_in6`, `sl_addrlen`. -/
def simplelink_accept (H : Hdr) (N : Env) (w : World) (obj : Nat)
    (addr : Option sockaddr) (addrlen : Option Nat) (b : SlBufs) :
    Int × Option sockaddr × Option Nat × World :=
  let sd := w.obj_sd obj
  match addr, addrlen with
  | some a, some len =>
    let e := translate_z_to_sl_addrlen H.addr len b
    match e.2.deref e.1 with
    | none =>
      let x := exit_errno H w H.err.SL_RET_CODE_INVALID_INPUT
      (x.1, addr, addrlen, x.2)
    | some pointee =>
      let r := sl_Accept N w sd e.1 pointee e.2.sl_addrlen
      if r.1 < 0 then
        let x := exit_errno H r.2.2.2 r.1
        (x.1, addr, addrlen, x.2)
      else
        let d := translate_sl_to_z_addr H.addr r.2.1 r.2.2.1 a len
        let x := exit_errno H r.2.2.2 r.1
        (x.1, some d.1, some d.2, x.2)
  | _, _ =>
    let x := exit_errno H w H.err.SL_RET_CODE_INVALID_INPUT
    (x.1, addr, addrlen, x.2)

/-- Function `simplelink_fcntl`; `args` is the `va_list`, read with `va_arg(args, int)`. -/
def simplelink_fcntl (H : Hdr) (N : Env) (w : World) (sd cmd : Int) (args : List Int) :
    Int × World :=
  if cmd = H.sock.F_GETFL then
    let g := sl_GetSockOpt N w sd H.sock.SL_SOL_SOCKET H.sock.SL_SO_NONBLOCKING
      H.sock.sizeof_SlSockNonblocking_t
    let retval :=
      if g.1 = 0 then
        if g.2.1 ≠ 0 then Int.lor g.1 H.sock.O_NONBLOCK else g.1
      else g.1
    exit_errno H g.2.2 retval
  else if cmd = H.sock.F_SETFL then
    let NonBlockingEnabled : Int :=
      if Int.land (args.headD 0) H.sock.O_NONBLOCK ≠ 0 then 1 else 0
    let o := sl_SetSockOpt N w sd H.sock.SL_SOL_SOCKET H.sock.SL_SO_NONBLOCKING
      NonBlockingEnabled H.sock.sizeof_SlSockNonblocking_t
    exit_errno H o.2 o.1
  else
    slcb_SetErrno w H.err.EINVAL

/-- Function `simplelink_ioctl`; `obj` points to entry `obj` of
`simplelink_offload_fd`. On `ZFD_IOCTL_CLOSE` the value read from the slot, `sd`,
is passed both to `z_free_fd` and to `simplelink_close`. -/
def simplelink_ioctl (H : Hdr) (N : Env) (w : World) (obj : Nat) (request : Int)
    (args : List Int) : Int × World :=
  let sd := w.obj_sd obj
  if request = H.sock.ZFD_IOCTL_CLOSE then
    let w1 := { w with simplelink_offload_fd := w.simplelink_offload_fd.set obj (-1) }
    let w2 := z_free_fd w1 sd
    simplelink_close H N w2 sd
  else
    simplelink_fcntl H N w sd request args

/-- Function `simplelink_socket_create`. The store `simplelink_offload_fd[fd] =
sock` relies on the host returning `fd` below `CONFIG_POSIX_MAX_FDS`; a store
beyond the table is dropped here. -/
def simplelink_socket_create (H : Hdr) (N : Env) (w : World) (family type proto : Int) :
    Int × World :=
  let f := z_reserve_fd N w
  let fd := f.1
  if fd < 0 then
    (-1, f.2)
  else
    let s := simplelink_socket H N f.2 family type proto
    let sock := s.1
    if sock < 0 then
      (-1, z_free_fd s.2 fd)
    else
      let w1 :=
        { s.2 with simplelink_offload_fd := s.2.simplelink_offload_fd.set fd.toNat sock }
      (fd, z_finalize_fd w1 fd fd.toNat)

/-- Function `simplelink_socket_accept`: the return value, `*addr` and `*addrlen` after the
call, and the state. -/
def simplelink_socket_accept (H : Hdr) (N : Env) (w : World) (obj : Nat)
    (addr : Option sockaddr) (addrlen : Option Nat) (b : SlBufs) :
    Int × Option sockaddr × Option Nat × World :=
  let f := z_reserve_fd N w
  let fd := f.1
  if fd < 0 then
    (-1, addr, addrlen, f.2)
  else
    let a := simplelink_accept H N f.2 obj addr addrlen b
    let sock := a.1
    if sock < 0 then
      (-1, a.2.1, a.2.2.1, z_free_fd a.2.2.2 fd)
    else
      let w1 :=
        { a.2.2.2 with
          simplelink_offload_fd := a.2.2.2.simplelink_offload_fd.set fd.toNat sock }
      (fd, a.2.1, a.2.2.1, z_finalize_fd w1 fd fd.toNat)

/-- The calls made on the way from state `w` to the later state `w1`. -/
def calls_since (w w1 : World) : List Call :=
  w1.trace.drop w.trace.length

/-- The state before any call: the table as initialized, no error, no calls. -/
def World.boot (H : Hdr) : World where
  simplelink_offload_fd := simplelink_offload_fd_init H
  errno := 0
  trace := []

/-! ## Multiplexed wait -/

/-- Zephyr `struct pollfd`. -/
structure pollfd where
  fd : Int
  events : Nat
  revents : Nat
deriving DecidableEq

/-- The macro `ONE_THOUSAND`. -/
def ONE_THOUSAND : Int := 1000

/-- The timeout conversion of `simplelink_poll`: `ptv`, that is `none` for the
null pointer and otherwise the pair `tv_sec`, `tv_usec`. The operators `/` and
`%` of C truncate towards zero. -/
def poll_timeout (H : Hdr) (msecs : Int) : Option (Int × Int) :=
  if msecs = H.poll.K_FOREVER then
    none
  else
    some (Int.tdiv msecs ONE_THOUSAND, Int.tmod msecs ONE_THOUSAND * ONE_THOUSAND)

/-- Modelled from the spec: the native readiness set `SlFdSet_t`, declared
outside the driver, as the list of the native handles placed in it. -/
abbrev SlFdSet_t := List Int

/-- Modelled from the spec: the macro `SL_SOCKET_FD_ZERO`, the empty set. -/
def SL_SOCKET_FD_ZERO : SlFdSet_t := []

/-- Modelled from the spec: the macro `SL_SOCKET_FD_SET`, which places a handle
in a set. -/
def SL_SOCKET_FD_SET (fd : Int) (set : SlFdSet_t) : SlFdSet_t := fd :: set

/-- Modelled from the spec: the macro `SL_SOCKET_FD_ISSET`, which tests a set
for a handle. -/
def SL_SOCKET_FD_ISSET (fd : Int) (set : SlFdSet_t) : Bool := decide (fd ∈ set)

/-- The locals `rfds`, `wfds` and `max_fd` of `simplelink_poll`. -/
structure PollSets where
  rfds : SlFdSet_t
  wfds : SlFdSet_t
  max_fd : Int
deriving DecidableEq

/-- The first loop of `simplelink_poll` over the entries from index `i` on:
the sets and `max_fd` when every entry passes (`none` when an entry is a
non-offloaded socket and the loop leaves through `goto exit`), and the entries
as the loop leaves them. -/
def poll_setup (H : Hdr) (table : List Int) : List pollfd → PollSets →
    Option PollSets × List pollfd
  | [], s => (some s, [])
  | p :: ps, s =>
    let p0 := { p with revents := 0 }
    if p.fd < 0 then
      let r := poll_setup H table ps s
      (r.1, p0 :: r.2)
    else if p.fd.toNat ≥ table.length ∨ table.getD p.fd.toNat (-1) = -1 then
      (none, p0 :: ps)
    else
      let fd := table.getD p.fd.toNat (-1)
      let rfds := if p.events &&& H.poll.POLLIN ≠ 0 then SL_SOCKET_FD_SET fd s.rfds else s.rfds
      let wfds := if p.events &&& H.poll.POLLOUT ≠ 0 then SL_SOCKET_FD_SET fd s.wfds else s.wfds
      let max_fd := if fd > s.max_fd then fd else s.max_fd
      let r := poll_setup H table ps { rfds := rfds, wfds := wfds, max_fd := max_fd }
      (r.1, p0 :: r.2)

/-- The body of the second loop of `simplelink_poll` for one entry. -/
def poll_result (H : Hdr) (table : List Int) (rfds wfds : SlFdSet_t) (p : pollfd) : pollfd :=
  if p.fd ≥ 0 then
    let fd := table.getD p.fd.toNat (-1)
    let p1 := if SL_SOCKET_FD_ISSET fd rfds then { p with revents := p.revents ||| H.poll.POLLIN }
      else p
    if SL_SOCKET_FD_ISSET fd wfds then { p1 with revents := p1.revents ||| H.poll.POLLOUT }
    else p1
  else
    p

/-- The native call `sl_Select(nfds, &rfds, &wfds, NULL, ptv)`: the count, the
two sets it leaves, and the state. -/
def sl_Select (N : Env) (w : World) (nfds : Int) (rfds wfds : SlFdSet_t)
    (ptv : Option (Int × Int)) : Int × SlFdSet_t × SlFdSet_t × World :=
  let r := N.sl_Select w.trace nfds rfds wfds ptv
  (r.1, r.2.1, r.2.2, w.call (.sl_Select nfds rfds wfds ptv r.1 r.2.1 r.2.2))

/-- Function `simplelink_poll`: the return value, the entries after the call, and
the state. The array `fds` of `nfds` entries is the list `fds`. -/
def simplelink_poll (H : Hdr) (N : Env) (w : World) (fds : List pollfd) (msecs : Int) :
    Int × List pollfd × World :=
  if (fds.length : Int) > H.poll.SL_FD_SETSIZE then
    let r := slcb_SetErrno w H.err.EINVAL
    (r.1, fds, r.2)
  else
    let ptv := poll_timeout H msecs
    let setup := poll_setup H w.simplelink_offload_fd fds
      { rfds := SL_SOCKET_FD_ZERO, wfds := SL_SOCKET_FD_ZERO, max_fd := 0 }
    match setup.1 with
    | none =>
      let r := slcb_SetErrno w H.err.EINVAL
      (r.1, setup.2, r.2)
    | some sets =>
      let sel := sl_Select N w (sets.max_fd + 1) sets.rfds sets.wfds ptv
      let retval := sel.1
      let fds2 :=
        if retval > 0 then
          setup.2.map (poll_result H w.simplelink_offload_fd sel.2.1 sel.2.2.1)
        else setup.2
      let x := exit_errno H sel.2.2.2 retval
      (x.1, fds2, x.2)

/-! ## Receive with flags -/

/-- The native call `sl_Recv(sd, buf, len, flags)`. The bytes the native stack
stores in `buf` are not touched by the driver and are left out. -/
def sl_Recv (N : Env) (w : World) (sd : Int) (len : Nat) (flags : Int) : Int × World :=
  let ret := N.sl_Recv w.trace sd len flags
  (ret, w.call (.sl_Recv sd len flags ret))

/-- The native call `sl_RecvFrom(sd, buf, len, flags, sl_addr, &sl_addrlen)`,
where `pointee` is the object behind `sl_addr` (`none` for a null `sl_addr`):
the status, the object behind a non-null `sl_addr` and the value of
`sl_addrlen` after the call, and the state. -/
def sl_RecvFrom (N : Env) (w : World) (sd : Int) (len : Nat) (flags : Int)
    (sl_addr : SlAddrPtr) (pointee : Option SlSockAddr_t) (sl_addrlen : Nat) :
    Int × Option SlSockAddr_t × Nat × World :=
  let r := N.sl_RecvFrom w.trace sd len flags pointee sl_addrlen
  (r.1, pointee.map (fun _ => r.2.1), r.2.2,
    w.call (.sl_RecvFrom sd len flags sl_addr sl_addrlen r.1))

/-- Function `handle_recv_flags`: the return value, `*nb_enabled` after the call,
and the state. The status of the option calls is not looked at. -/
def handle_recv_flags (H : Hdr) (N : Env) (w : World) (sd flags : Int) (set : Bool)
    (nb_enabled : Int) : Int × Int × World :=
  if Int.land flags H.opt.MSG_PEEK ≠ 0 then
    (H.err.ENOTSUP, nb_enabled, w)
  else if Int.land flags H.opt.MSG_DONTWAIT ≠ 0 then
    if set = true then
      let g := sl_GetSockOpt N w sd H.sock.SL_SOL_SOCKET H.sock.SL_SO_NONBLOCKING
        H.sock.sizeof_SlSockNonblocking_t
      let nb_enabled := g.2.1
      if nb_enabled = 0 then
        let o := sl_SetSockOpt N g.2.2 sd H.sock.SL_SOL_SOCKET H.sock.SL_SO_NONBLOCKING 1
          H.sock.sizeof_SlSockNonblocking_t
        (0, nb_enabled, o.2)
      else
        (0, nb_enabled, g.2.2)
    else
      let o := sl_SetSockOpt N w sd H.sock.SL_SOL_SOCKET H.sock.SL_SO_NONBLOCKING nb_enabled
        H.sock.sizeof_SlSockNonblocking_t
      (0, nb_enabled, o.2)
  else
    (0, nb_enabled, w)

/-- The call `translate_sl_to_z_addr(sl_addr, sl_addrlen, addr, addrlen)` with
pointers `sl_addr` and `addr` that may be null: `*addr` and `*addrlen` after the
call, or `none` when the call reads `sl_addr->sa_family` through a null
`sl_addr` or stores the address fields through a null `addr`. -/
def translate_sl_to_z_addr_nullable (H : AddrHdr) (sl_addr : Option SlSockAddr_t)
    (sl_addrlen : Nat) (addr : Option sockaddr) (addrlen : Nat) :
    Option (Option sockaddr × Nat) :=
  match sl_addr, addr with
  | none, _ => none
  | some sl, some a =>
    let d := translate_sl_to_z_addr H sl sl_addrlen a addrlen
    some (some d.1, d.2)
  | some sl, none =>
    if sl.sa_family = H.SL_AF_INET then
      if sl_addrlen = H.sizeof_SlSockAddrIn_t then none else some (none, sl_addrlen)
    else if sl.sa_family = H.SL_AF_INET6 then
      if sl_addrlen = H.sizeof_SlSockAddrIn6_t then none else some (none, sl_addrlen)
    else
      some (none, addrlen)

/-- What `simplelink_recvfrom` leaves: the return value, `*from` and `*fromlen`
(`none` for a null pointer), the state, and `fault`, which is set when the call
went through a null pointer; the other fields then hold what they held when it
did. -/
structure RecvResult where
  retval : Int
  from_addr : Option sockaddr
  fromlen : Option Nat
  fault : Bool
  world : World
deriving DecidableEq

/-- Function `simplelink_recvfrom`. `b` and `nb_enabled` are the uninitialised
locals `sl_addr_in`, `sl_addr_in6`, `sl_addrlen` and `nb_enabled`. The result
of `translate_z_to_sl_addrlen` is passed to `sl_RecvFrom` unchecked. -/
def simplelink_recvfrom (H : Hdr) (N : Env) (w : World) (obj : Nat) (len : Nat)
    (flags : Int) (from_addr : Option sockaddr) (fromlen : Option Nat) (b : SlBufs)
    (nb_enabled : Int) : RecvResult :=
  let sd := w.obj_sd obj
  let h := handle_recv_flags H N w sd flags true nb_enabled
  if h.1 = 0 then
    match fromlen with
    | some flen =>
      let e := translate_z_to_sl_addrlen H.addr flen b
      let r := sl_RecvFrom N h.2.2 sd len 0 e.1 (e.2.deref e.1) e.2.sl_addrlen
      let h2 := handle_recv_flags H N r.2.2.2 sd flags false h.2.1
      if r.1 ≥ 0 then
        match translate_sl_to_z_addr_nullable H.addr r.2.1 r.2.2.1 from_addr flen with
        | none =>
          { retval := r.1, from_addr := from_addr, fromlen := fromlen, fault := true,
            world := h2.2.2 }
        | some d =>
          { retval := r.1, from_addr := d.1, fromlen := some d.2, fault := false,
            world := h2.2.2 }
      else
        let x := slcb_SetErrno h2.2.2 (getErrno H.err r.1)
        { retval := x.1, from_addr := from_addr, fromlen := fromlen, fault := false,
          world := x.2 }
    | none =>
      let r := sl_Recv N h.2.2 sd len 0
      let h2 := handle_recv_flags H N r.2 sd flags false h.2.1
      if r.1 ≥ 0 then
        { retval := r.1, from_addr := from_addr, fromlen := fromlen, fault := false,
          world := h2.2.2 }
      else
        let x := slcb_SetErrno h2.2.2 (getErrno H.err r.1)
        { retval := x.1, from_addr := from_addr, fromlen := fromlen, fault := false,
          world := x.2 }
  else
    let x := slcb_SetErrno h.2.2 h.1
    { retval := x.1, from_addr := from_addr, fromlen := fromlen, fault := false,
      world := x.2 }

/-- The effect of one call on the non-blocking option of socket `sd`, held as a
stored value `v`: a `sl_SetSockOpt` of `SL_SO_NONBLOCKING` on `sd` stores the
value passed, every other call leaves `v`. -/
def nonblocking_step (H : Hdr) (sd : Int) (v : Int) : Call → Int
  | .sl_SetSockOpt sd1 level optname optval _ _ =>
    if sd1 = sd ∧ level = H.sock.SL_SOL_SOCKET ∧ optname = H.sock.SL_SO_NONBLOCKING then optval
    else v
  | .sl_SetSockOpt_buf sd1 level optname (some (x :: _)) _ _ =>
    if sd1 = sd ∧ level = H.sock.SL_SOL_SOCKET ∧ optname = H.sock.SL_SO_NONBLOCKING then x
    else v
  | _ => v

/-- The non-blocking option of socket `sd`, held as a stored value that starts
as `init`, after the calls of `trace`. -/
def nonblocking_after (H : Hdr) (sd : Int) (init : Int) (trace : List Call) : Int :=
  trace.foldl (nonblocking_step H sd) init

/-- The receive calls on socket `sd`. -/
def is_receive (sd : Int) : Call → Bool
  | .sl_Recv sd1 _ _ _ => decide (sd1 = sd)
  | .sl_RecvFrom sd1 _ _ _ _ _ => decide (sd1 = sd)
  | _ => false

/-- The calls that write a socket option. -/
def is_set_option : Call → Bool
  | .sl_SetSockOpt _ _ _ _ _ _ => true
  | .sl_SetSockOpt_buf _ _ _ _ _ _ => true
  | _ => false

/-! ## Bind, connect and send -/

/-- The native call `sl_Bind(sd, sl_addr, sl_addrlen)` with `sl_addr` non-null and
pointing to `pointee`. -/
def sl_Bind (N : Env) (w : World) (sd : Int) (pointee : SlSockAddr_t) (sl_addrlen : Nat) :
    Int × World :=
  let ret := N.sl_Bind w.trace sd pointee sl_addrlen
  (ret, w.call (.sl_Bind sd pointee sl_addrlen ret))

/-- The native call `sl_Connect(sd, sl_addr, sl_addrlen)` with `sl_addr` non-null
and pointing to `pointee`. -/
def sl_Connect (N : Env) (w : World) (sd : Int) (pointee : SlSockAddr_t) (sl_addrlen : Nat) :
    Int × World :=
  let ret := N.sl_Connect w.trace sd pointee sl_addrlen
  (ret, w.call (.sl_Connect sd pointee sl_addrlen ret))

/-- The native call `sl_SendTo(sd, buf, len, flags, sl_addr, sl_addrlen)` with
`sl_addr` non-null and pointing to `pointee`. The bytes of `buf` are passed on
untouched and are left out. -/
def sl_SendTo (N : Env) (w : World) (sd : Int) (len : Nat) (flags : Int)
    (pointee : SlSockAddr_t) (sl_addrlen : Nat) : Int × World :=
  let ret := N.sl_SendTo w.trace sd len flags pointee sl_addrlen
  (ret, w.call (.sl_SendTo sd len flags pointee sl_addrlen ret))

/-- The native call `sl_Send(sd, buf, len, flags)`. -/
def sl_Send (N : Env) (w : World) (sd : Int) (len : Nat) (flags : Int) : Int × World :=
  let ret := N.sl_Send w.trace sd len flags
  (ret, w.call (.sl_Send sd len flags ret))

/-- Function `simplelink_bind`; `addr` is `none` for a null pointer, and `b` holds
the uninitialised locals `sl_addr_in`, `sl_addr_in6`, `sl_addrlen`. -/
def simplelink_bind (H : Hdr) (N : Env) (w : World) (obj : Nat) (addr : Option sockaddr)
    (addrlen : Nat) (b : SlBufs) : Int × World :=
  let sd := w.obj_sd obj
  match addr with
  | none => slcb_SetErrno w H.err.EISDIR
  | some a =>
    let e := translate_z_to_sl_addrs H.addr a addrlen b
    match e.2.deref e.1 with
    | none => exit_errno H w H.err.SL_RET_CODE_INVALID_INPUT
    | some pointee =>
      let r := sl_Bind N w sd pointee e.2.sl_addrlen
      exit_errno H r.2 r.1

/-- Function `simplelink_connect`; `addr` is non-null, as `__ASSERT_NO_MSG(addr)`
states, and `b` holds the uninitialised locals. -/
def simplelink_connect (H : Hdr) (N : Env) (w : World) (obj : Nat) (addr : sockaddr)
    (addrlen : Nat) (b : SlBufs) : Int × World :=
  let sd := w.obj_sd obj
  let e := translate_z_to_sl_addrs H.addr addr addrlen b
  match e.2.deref e.1 with
  | none => exit_errno H w H.err.SL_RET_CODE_INVALID_INPUT
  | some pointee =>
    let r := sl_Connect N w sd pointee e.2.sl_addrlen
    let retval := r.1
    let retval := if retval = H.opt.SL_ERROR_BSD_ESECDATEERROR then 0 else retval
    let retval := if retval = H.opt.SL_ERROR_BSD_ESECUNKNOWNROOTCA then 0 else retval
    exit_errno H r.2 retval

/-- Function `simplelink_sendto`; `to_addr` is the parameter `to`, `none` for a
null pointer, `(u16_t)len` is reduction modulo 2^16, and `b` holds the
uninitialised locals. -/
def simplelink_sendto (H : Hdr) (N : Env) (w : World) (obj : Nat) (len : Nat) (flags : Int)
    (to_addr : Option sockaddr) (tolen : Nat) (b : SlBufs) : Int × World :=
  let sd := w.obj_sd obj
  match to_addr with
  | some a =>
    let e := translate_z_to_sl_addrs H.addr a tolen b
    match e.2.deref e.1 with
    | none => exit_errno H w H.err.SL_RET_CODE_INVALID_INPUT
    | some pointee =>
      let r := sl_SendTo N w sd (len % 2 ^ 16) flags pointee e.2.sl_addrlen
      exit_errno H r.2 r.1
  | none =>
    let r := sl_Send N w sd len flags
    exit_errno H r.2 r.1

/-! ## Socket options -/

/-- The macro `SO_BROADCAST` of the driver. -/
def SO_BROADCAST : Int := 200

/-- The macro `SO_SNDBUF` of the driver. -/
def SO_SNDBUF : Int := 202

/-- The native call `sl_SetSockOpt(sd, level, optname, optval, optlen)` on a
caller's buffer; `optval` is `none` for a null pointer. -/
def sl_SetSockOpt_buf (N : Env) (w : World) (sd level optname : Int)
    (optval : Option (List Int)) (optlen : Nat) : Int × World :=
  let ret := N.sl_SetSockOpt_buf w.trace sd level optname optval optlen
  (ret, w.call (.sl_SetSockOpt_buf sd level optname optval optlen ret))

/-- The native call `sl_GetSockOpt(sd, level, optname, optval, optlen)` on a
caller's buffer: the status, the buffer and `*optlen` after the call, and the
state. -/
def sl_GetSockOpt_buf (N : Env) (w : World) (sd level optname : Int)
    (optval : Option (List Int)) (optlen : Option Nat) :
    Int × Option (List Int) × Option Nat × World :=
  let r := N.sl_GetSockOpt_buf w.trace sd level optname optval optlen
  (r.1, r.2.1, r.2.2, w.call (.sl_GetSockOpt_buf sd level optname optval optlen r.1))

/-- The `switch (cert->type)` of `map_credentials`; `none` is the branch shared by
`TLS_CREDENTIAL_NONE`, `TLS_CREDENTIAL_PSK`, `TLS_CREDENTIAL_PSK_ID` and
`default`. -/
def credential_opt (H : Hdr) (type : Int) : Option Int :=
  if type = H.opt.TLS_CREDENTIAL_CA_CERTIFICATE then
    some H.opt.SL_SO_SECURE_FILES_CA_FILE_NAME
  else if type = H.opt.TLS_CREDENTIAL_SERVER_CERTIFICATE then
    some H.opt.SL_SO_SECURE_FILES_CERTIFICATE_FILE_NAME
  else if type = H.opt.TLS_CREDENTIAL_PRIVATE_KEY then
    some H.opt.SL_SO_SECURE_FILES_PRIVATE_KEY_FILE_NAME
  else
    none

/-- The `while (cert != NULL)` loop of `map_credentials` over the credentials
still to visit for one tag: `retval`, whether the loop left through
`goto exit`, and the state. A negative status leaves the loop through `break`
with `retval` translated. -/
def map_credentials_while (H : Hdr) (N : Env) (sd : Int) :
    List tls_credential → World → Int → Int × Bool × World
  | [], w, retval => (retval, false, w)
  | cert :: rest, w, _ =>
    match credential_opt H cert.type with
    | none => (H.err.EINVAL, true, w)
    | some opt =>
      let o := sl_SetSockOpt_buf N w sd H.sock.SL_SOL_SOCKET opt (some cert.buf) cert.len
      if o.1 < 0 then
        (getErrno H.err o.1, false, o.2)
      else
        map_credentials_while H N sd rest o.2 o.1

/-- The `for` loop of `map_credentials` over the tags still to visit: `retval`
and the state at the label `exit`. -/
def map_credentials_for (H : Hdr) (N : Env) (sd : Int) : List Int → World → Int → Int × World
  | [], w, retval => (retval, w)
  | tag :: tags, w, retval =>
    let r := map_credentials_while H N sd (N.credentials tag) w retval
    if r.2.1 = true then
      (r.1, r.2.2)
    else
      map_credentials_for H N sd tags r.2.2 r.1

/-- Function `map_credentials`, in both build variants; the option buffer is read
as an array of `sec_tag_t`. -/
def map_credentials (H : Hdr) (N : Env) (w : World) (sd : Int) (optval : Option (List Int))
    (optlen : Nat) : Int × World :=
  if H.sock.CONFIG_NET_SOCKETS_SOCKOPT_TLS = true then
    if optlen % H.opt.sizeof_sec_tag_t ≠ 0 ∨ optlen = 0 then
      (H.err.EINVAL, w)
    else
      let sec_tags_len := optlen / H.opt.sizeof_sec_tag_t
      let sec_tags := (List.range sec_tags_len).map (fun i => (optval.getD []).getD i 0)
      map_credentials_for H N sd sec_tags w 0
  else
    (0, w)

/-- Function `simplelink_setsockopt`. The option buffer `optval` is `none` for a
null pointer and otherwise the list of the 32-bit words it holds, so that
`*(u32_t *)optval` is its first word. -/
def simplelink_setsockopt (H : Hdr) (N : Env) (w : World) (obj : Nat) (level optname : Int)
    (optval : Option (List Int)) (optlen : Nat) : Int × World :=
  let sd := w.obj_sd obj
  if H.sock.CONFIG_NET_SOCKETS_SOCKOPT_TLS = true ∧ level = H.opt.SOL_TLS then
    if optname = H.opt.TLS_SEC_TAG_LIST then
      let m := map_credentials H N w sd optval optlen
      if m.1 ≠ 0 then slcb_SetErrno m.2 m.1 else exit_errno H m.2 m.1
    else if optname = H.opt.TLS_HOSTNAME then
      let o := sl_SetSockOpt_buf N w sd H.sock.SL_SOL_SOCKET
        H.opt.SL_SO_SECURE_DOMAIN_NAME_VERIFICATION optval optlen
      exit_errno H o.2 o.1
    else if optname = H.opt.TLS_PEER_VERIFY then
      match optval with
      | some words =>
        if words.headD 0 ≠ 2 then slcb_SetErrno w H.err.ENOTSUP else exit_errno H w 0
      | none => slcb_SetErrno w H.err.EINVAL
    else if optname = H.opt.TLS_CIPHERSUITE_LIST ∨ optname = H.opt.TLS_DTLS_ROLE then
      slcb_SetErrno w H.err.ENOTSUP
    else
      slcb_SetErrno w H.err.EINVAL
  else
    if optname = H.opt.TCP_NODELAY then
      match optval with
      | some words => if words.headD 0 ≠ 0 then (0, w) else slcb_SetErrno w H.err.EINVAL
      | none => slcb_SetErrno w H.err.EINVAL
    else if optname = SO_BROADCAST ∨ optname = H.opt.SO_REUSEADDR ∨ optname = SO_SNDBUF then
      slcb_SetErrno w H.err.EINVAL
    else
      let o := sl_SetSockOpt_buf N w sd H.sock.SL_SOL_SOCKET optname optval optlen
      exit_errno H o.2 o.1

/-- Function `simplelink_getsockopt`: the return value, the option buffer and
`*optlen` after the call, and the state. `TRUE` is 1. -/
def simplelink_getsockopt (H : Hdr) (N : Env) (w : World) (obj : Nat) (level optname : Int)
    (optval : Option (List Int)) (optlen : Option Nat) :
    Int × Option (List Int) × Option Nat × World :=
  let sd := w.obj_sd obj
  if H.sock.CONFIG_NET_SOCKETS_SOCKOPT_TLS = true ∧ level = H.opt.SOL_TLS then
    if optname = H.opt.TLS_SEC_TAG_LIST ∨ optname = H.opt.TLS_CIPHERSUITE_LIST
        ∨ optname = H.opt.TLS_CIPHERSUITE_USED then
      let x := slcb_SetErrno w H.err.ENOTSUP
      (x.1, optval, optlen, x.2)
    else
      let x := slcb_SetErrno w H.err.EINVAL
      (x.1, optval, optlen, x.2)
  else
    if optname = H.opt.TCP_NODELAY ∧ optval.isSome = true then
      (0, optval.map (fun words => words.set 0 1), optlen, w)
    else if optname = H.opt.TCP_NODELAY ∨ optname = SO_BROADCAST
        ∨ optname = H.opt.SO_REUSEADDR ∨ optname = SO_SNDBUF then
      let x := slcb_SetErrno w H.err.EINVAL
      (x.1, optval, optlen, x.2)
    else
      let g := sl_GetSockOpt_buf N w sd H.sock.SL_SOL_SOCKET optname optval optlen
      let x := exit_errno H g.2.2.2 g.1
      (x.1, g.2.1, g.2.2.1, x.2)

/-- The outcome "rejected as an invalid argument": the call returned -1, set
`errno` to `EINVAL`, and made no call on the way from state `w`. -/
def rejected_einval (H : Hdr) (w : World) (r : Int × World) : Prop :=
  r.1 = -1 ∧ r.2.errno = H.err.EINVAL ∧ calls_since w r.2 = []

/-! ## Message send and poll takeover -/

/-- Function `simplelink_sendmsg`; the message is not looked at. -/
def simplelink_sendmsg (H : Hdr) (w : World) (_obj : Nat) (_flags : Int) : Int × World :=
  (-1, { w with errno := -H.err.ENOTSUP })

/-- Function `simplelink_poll_takeover` over the entries still to visit; the
table is `simplelink_offload_fd`. The result is `none` when the function reads
the table outside its bounds. The comparison of `fds[i].fd` with the table size
is made on unsigned values in C, where a negative descriptor is above every
size, as the second test of the guard says. -/
def simplelink_poll_takeover (table : List Int) : List pollfd → Option Bool
  | [] => some false
  | p :: ps =>
    if p.fd.toNat ≥ table.length ∨ p.fd < 0 then
      simplelink_poll_takeover table ps
    else
      match table[p.fd.toNat]? with
      | none => none
      | some sd => if sd ≠ -1 then some true else simplelink_poll_takeover table ps

/-! ## Power policy -/

/-- What `policy_residency_cc13x2_cc26x2.c` takes from headers and from the
build configuration. `pm_min_residency` is the table as the configuration
builds it, in ticks, one entry per configured sleep state;
`CONFIG_SYS_PM_STATE_LOCK` tells whether the state-lock test is compiled in. -/
structure PowerHdr where
  K_FOREVER : Int
  SYS_POWER_STATE_ACTIVE : Int
  pm_min_residency : List Nat
  PowerCC26XX_DISALLOW_STANDBY : Nat
  PowerCC26XX_DISALLOW_IDLE : Nat
  CONFIG_SYS_CLOCK_TICKS_PER_SEC : Int
  CONFIG_SYS_PM_STATE_LOCK : Bool

/-- The macro `WAKEDELAYSTANDBY`, in microseconds. -/
def WAKEDELAYSTANDBY : Int := 240

/-- The calls that `sys_pm_policy_next_state` makes, with their arguments and
results. -/
inductive PmCall where
  | SysCtrl_DCDC_VoltageConditionalControl
  | Power_getConstraintMask (ret : Nat)
  | sys_pm_ctrl_is_state_enabled (state : Int) (ret : Bool)
  | ClockP_setTimeout (timeout : Nat)
deriving DecidableEq

/-- The conversion of an `int` to `unsigned int`, which C applies to `ticks` when
it is compared with an entry of `pm_min_residency` or passed as a `uint32_t`. -/
def to_u32 (x : Int) : Nat := (x % 2 ^ 32).toNat

/-- The value of a 32-bit signed result, with wrap-around. -/
def to_s32 (x : Int) : Int := (x + 2 ^ 31) % 2 ^ 32 - 2 ^ 31

/-- The `for` loop of `sys_pm_policy_next_state` from index `i` down to 0, the
first argument being `i + 1`: the state returned and the calls made.
`disallowed` is false at the top of every round, since a round that sets it
resets it before `continue`. -/
def next_state_loop (P : PowerHdr) (constraints : Nat) (enabled : Int → Bool) :
    Nat → Int → List PmCall → Int × List PmCall
  | 0, _, calls => (P.SYS_POWER_STATE_ACTIVE, calls)
  | i + 1, ticks, calls =>
    let calls1 :=
      if P.CONFIG_SYS_PM_STATE_LOCK = true then
        calls ++ [PmCall.sys_pm_ctrl_is_state_enabled i (enabled i)]
      else calls
    if P.CONFIG_SYS_PM_STATE_LOCK = true ∧ enabled i = false then
      next_state_loop P constraints enabled i ticks calls1
    else if ticks = P.K_FOREVER ∨ to_u32 ticks ≥ P.pm_min_residency.getD i 0 then
      if i = 0 then
        if constraints &&& (1 <<< P.PowerCC26XX_DISALLOW_IDLE) ≠ 0 then
          next_state_loop P constraints enabled i ticks calls1
        else
          ((i : Int), calls1)
      else if i = 1 then
        let ticks1 := if ticks = P.K_FOREVER then 0x7FFFFFFF else ticks
        let ticks2 :=
          to_s32 (ticks1 - Int.tdiv (WAKEDELAYSTANDBY * P.CONFIG_SYS_CLOCK_TICKS_PER_SEC) 1000000)
        let calls2 := calls1 ++ [PmCall.ClockP_setTimeout (to_u32 ticks2)]
        if constraints &&& (1 <<< P.PowerCC26XX_DISALLOW_STANDBY) ≠ 0 then
          next_state_loop P constraints enabled i ticks2 calls2
        else
          ((i : Int), calls2)
      else
        ((i : Int), calls1)
    else
      next_state_loop P constraints enabled i ticks calls1

/-- Function `sys_pm_policy_next_state`: the state returned and the calls made.
`constraints` is what `Power_getConstraintMask` returns and `enabled` what
`sys_pm_ctrl_is_state_enabled` answers. -/
def sys_pm_policy_next_state (P : PowerHdr) (constraints : Nat) (enabled : Int → Bool)
    (ticks : Int) : Int × List PmCall :=
  let calls := [PmCall.SysCtrl_DCDC_VoltageConditionalControl,
    PmCall.Power_getConstraintMask constraints]
  if ticks ≠ P.K_FOREVER ∧ to_u32 ticks < P.pm_min_residency.getD 0 0 then
    (P.SYS_POWER_STATE_ACTIVE, calls)
  else
    next_state_loop P constraints enabled P.pm_min_residency.length ticks calls

/-- The calls that program the standby wake-up timeout. -/
def is_set_timeout : PmCall → Bool
  | .ClockP_setTimeout _ => true
  | _ => false

/-! ## GPIO driver -/

/-- The macro `IOCFG_INT_MASK`: bits 16 to 18 of an IOCFG register. -/
def IOCFG_INT_MASK : Nat := 0x00070000

/-- The complement of a 32-bit word. -/
def not_u32 (x : Nat) : Nat := (2 ^ 32 - 1) ^^^ x

/-- The macro `IOCFG_GEN_MASK`, as the 32-bit word it is when joined with a
register value. -/
def IOCFG_GEN_MASK : Nat := not_u32 IOCFG_INT_MASK

/-- What `gpio_cc13xx_cc26xx.c` takes from headers: the flag words of the GPIO
API, the interrupt modes and triggers, and the configuration words of the
driver library. -/
structure GpioHdr where
  GPIO_ACCESS_BY_PIN : Int
  GPIO_INPUT : Nat
  GPIO_OUTPUT : Nat
  GPIO_DISCONNECTED : Nat
  GPIO_INT_DEBOUNCE : Nat
  GPIO_PUD_MASK : Nat
  GPIO_PUD_NORMAL : Nat
  GPIO_PUD_PULL_UP : Nat
  GPIO_PUD_PULL_DOWN : Nat
  GPIO_OUTPUT_INIT_HIGH : Nat
  GPIO_OUTPUT_INIT_LOW : Nat
  GPIO_OUTPUT_ENABLE : Nat
  GPIO_OUTPUT_DISABLE : Nat
  GPIO_INT_MODE_DISABLED : Int
  GPIO_INT_MODE_EDGE : Int
  GPIO_INT_TRIG_BOTH : Int
  GPIO_INT_TRIG_HIGH : Int
  IOC_PORT_GPIO : Nat
  IOC_CURRENT_2MA : Nat
  IOC_STRENGTH_AUTO : Nat
  IOC_SLEW_DISABLE : Nat
  IOC_NO_WAKE_UP : Nat
  IOC_HYST_ENABLE : Nat
  IOC_HYST_DISABLE : Nat
  IOC_INPUT_ENABLE : Nat
  IOC_INPUT_DISABLE : Nat
  IOC_NO_IOPULL : Nat
  IOC_IOPULL_UP : Nat
  IOC_IOPULL_DOWN : Nat
  IOC_BOTH_EDGES : Nat
  IOC_RISING_EDGE : Nat
  IOC_FALLING_EDGE : Nat
  IOC_INT_ENABLE : Nat
  IOC_INT_DISABLE : Nat
  IOC_NO_EDGE : Nat

/-- The register writes that the driver makes through the driver library. -/
inductive HwWrite where
  | IOCPortConfigureSet (pin portId config : Nat)
  | GPIO_setOutputEnableDio (pin value : Nat)
  | GPIO_setMultiDio (mask : Nat)
  | GPIO_clearMultiDio (mask : Nat)
deriving DecidableEq

/-- The hardware and driver state that the GPIO functions touch: the IOCFG
register of each pin, the output-enable value of each pin, the data output
word, the field `pin_callback_enables` of the driver data, and the register
writes made so far. -/
structure GpioState where
  iocfg : Nat → Nat
  doe : Nat → Nat
  dout : Nat
  pin_callback_enables : Nat
  writes : List HwWrite

/-- Modelled from the spec: the driver-library call `IOCPortConfigureGet`,
declared outside the driver, which reads the IOCFG register of a pin. -/
def IOCPortConfigureGet (s : GpioState) (pin : Nat) : Nat := s.iocfg pin

/-- Modelled from the spec: the driver-library call `IOCPortConfigureSet`,
declared outside the driver, which stores the configuration word joined with
the port identifier in the IOCFG register of a pin. -/
def IOCPortConfigureSet (s : GpioState) (pin portId config : Nat) : GpioState :=
  { s with
    iocfg := fun p => if p = pin then config ||| portId else s.iocfg p
    writes := s.writes ++ [HwWrite.IOCPortConfigureSet pin portId config] }

/-- Modelled from the spec: the driver-library call `GPIO_setOutputEnableDio`,
declared outside the driver, which stores the output-enable value of a pin. -/
def GPIO_setOutputEnableDio (s : GpioState) (pin value : Nat) : GpioState :=
  { s with
    doe := fun p => if p = pin then value else s.doe p
    writes := s.writes ++ [HwWrite.GPIO_setOutputEnableDio pin value] }

/-- Modelled from the spec: the driver-library call `GPIO_setMultiDio`, declared
outside the driver, which sets the data output bits of a mask. -/
def GPIO_setMultiDio (s : GpioState) (mask : Nat) : GpioState :=
  { s with dout := s.dout ||| mask, writes := s.writes ++ [HwWrite.GPIO_setMultiDio mask] }

/-- Modelled from the spec: the driver-library call `GPIO_clearMultiDio`,
declared outside the driver, which clears the data output bits of a mask. -/
def GPIO_clearMultiDio (s : GpioState) (mask : Nat) : GpioState :=
  { s with
    dout := s.dout &&& not_u32 mask
    writes := s.writes ++ [HwWrite.GPIO_clearMultiDio mask] }

/-- Modelled from the spec: the macro `BIT`, declared outside the driver, as a
32-bit word. -/
def BIT (n : Nat) : Nat := (1 <<< n) % 2 ^ 32

/-- Modelled from the spec: the macro `WRITE_BIT`, declared outside the driver,
which sets or clears one bit of a 32-bit word. -/
def WRITE_BIT (var bit : Nat) (set : Bool) : Nat :=
  if set = true then var ||| BIT bit else var &&& not_u32 (BIT bit)

/-- Function `gpio_cc13xx_cc26xx_port_set_bits_raw`. -/
def gpio_cc13xx_cc26xx_port_set_bits_raw (s : GpioState) (mask : Nat) : Int × GpioState :=
  (0, GPIO_setMultiDio s mask)

/-- Function `gpio_cc13xx_cc26xx_port_clear_bits_raw`. -/
def gpio_cc13xx_cc26xx_port_clear_bits_raw (s : GpioState) (mask : Nat) : Int × GpioState :=
  (0, GPIO_clearMultiDio s mask)

/-- The `switch (flags & GPIO_PUD_MASK)` of `gpio_cc13xx_cc26xx_config`; `none` is
its `default`. -/
def pud_config (G : GpioHdr) (flags : Nat) : Option Nat :=
  if flags &&& G.GPIO_PUD_MASK = G.GPIO_PUD_NORMAL then some G.IOC_NO_IOPULL
  else if flags &&& G.GPIO_PUD_MASK = G.GPIO_PUD_PULL_UP then some G.IOC_IOPULL_UP
  else if flags &&& G.GPIO_PUD_MASK = G.GPIO_PUD_PULL_DOWN then some G.IOC_IOPULL_DOWN
  else none

/-- Function `gpio_cc13xx_cc26xx_config`: the return value and the state. `flags`
is the flag word as 32 bits. The assertion on `pin` is compiled out. -/
def gpio_cc13xx_cc26xx_config (G : GpioHdr) (E : ErrHdr) (s : GpioState) (access_op : Int)
    (pin flags : Nat) : Int × GpioState :=
  if access_op ≠ G.GPIO_ACCESS_BY_PIN then
    (-E.ENOTSUP, s)
  else if flags &&& G.GPIO_INPUT ≠ 0 ∧ flags &&& G.GPIO_OUTPUT ≠ 0 then
    (-E.ENOTSUP, s)
  else if flags = G.GPIO_DISCONNECTED then
    let s1 := IOCPortConfigureSet s pin G.IOC_PORT_GPIO 0
    (0, GPIO_setOutputEnableDio s1 pin G.GPIO_OUTPUT_DISABLE)
  else
    let config0 := G.IOC_CURRENT_2MA ||| G.IOC_STRENGTH_AUTO ||| G.IOC_SLEW_DISABLE
      ||| G.IOC_NO_WAKE_UP
    let config1 := config0 |||
      (if flags &&& G.GPIO_INT_DEBOUNCE ≠ 0 then G.IOC_HYST_ENABLE else G.IOC_HYST_DISABLE)
    let config2 := config1 |||
      (if flags &&& G.GPIO_INPUT ≠ 0 then G.IOC_INPUT_ENABLE else G.IOC_INPUT_DISABLE)
    match pud_config G flags with
    | none => (-E.EINVAL, s)
    | some pull =>
      let config3 := config2 ||| pull
      let config := config3 ||| (IOCPortConfigureGet s pin &&& IOCFG_INT_MASK)
      let s1 := IOCPortConfigureSet s pin G.IOC_PORT_GPIO config
      if flags &&& G.GPIO_OUTPUT ≠ 0 then
        let s2 :=
          if flags &&& G.GPIO_OUTPUT_INIT_HIGH ≠ 0 then
            (gpio_cc13xx_cc26xx_port_set_bits_raw s1 (BIT pin)).2
          else if flags &&& G.GPIO_OUTPUT_INIT_LOW ≠ 0 then
            (gpio_cc13xx_cc26xx_port_clear_bits_raw s1 (BIT pin)).2
          else s1
        (0, GPIO_setOutputEnableDio s2 pin G.GPIO_OUTPUT_ENABLE)
      else
        (0, GPIO_setOutputEnableDio s1 pin G.GPIO_OUTPUT_DISABLE)

/-- The interrupt part of the configuration word that
`gpio_cc13xx_cc26xx_pin_interrupt_configure` builds before it reads the
register; `none` is the branch that returns `-ENOTSUP`. -/
def interrupt_config (G : GpioHdr) (mode trig : Int) : Option Nat :=
  if mode ≠ G.GPIO_INT_MODE_DISABLED then
    if mode = G.GPIO_INT_MODE_EDGE then
      let edge :=
        if trig = G.GPIO_INT_TRIG_BOTH then G.IOC_BOTH_EDGES
        else if trig = G.GPIO_INT_TRIG_HIGH then G.IOC_RISING_EDGE
        else G.IOC_FALLING_EDGE
      some ((0 ||| edge) ||| G.IOC_INT_ENABLE)
    else
      none
  else
    some (0 ||| (G.IOC_INT_DISABLE ||| G.IOC_NO_EDGE))

/-- Function `gpio_cc13xx_cc26xx_pin_interrupt_configure`: the return value and
the state. -/
def gpio_cc13xx_cc26xx_pin_interrupt_configure (G : GpioHdr) (E : ErrHdr) (s : GpioState)
    (pin : Nat) (mode trig : Int) : Int × GpioState :=
  match interrupt_config G mode trig with
  | none => (-E.ENOTSUP, s)
  | some config0 =>
    let config := config0 ||| (IOCPortConfigureGet s pin &&& IOCFG_GEN_MASK)
    let s1 := IOCPortConfigureSet s pin G.IOC_PORT_GPIO config
    (0, { s1 with
      pin_callback_enables :=
        WRITE_BIT s1.pin_callback_enables pin (decide (mode ≠ G.GPIO_INT_MODE_DISABLED)) })

/-- The configuration words that `gpio_cc13xx_cc26xx_config` joins, and the port
identifier, hold no interrupt-setting bit. -/
def GpioHdr.general_words_clear_of_int (G : GpioHdr) : Prop :=
  G.IOC_PORT_GPIO &&& IOCFG_INT_MASK = 0 ∧
  G.IOC_CURRENT_2MA &&& IOCFG_INT_MASK = 0 ∧ G.IOC_STRENGTH_AUTO &&& IOCFG_INT_MASK = 0 ∧
  G.IOC_SLEW_DISABLE &&& IOCFG_INT_MASK = 0 ∧ G.IOC_NO_WAKE_UP &&& IOCFG_INT_MASK = 0 ∧
  G.IOC_HYST_ENABLE &&& IOCFG_INT_MASK = 0 ∧ G.IOC_HYST_DISABLE &&& IOCFG_INT_MASK = 0 ∧
  G.IOC_INPUT_ENABLE &&& IOCFG_INT_MASK = 0 ∧ G.IOC_INPUT_DISABLE &&& IOCFG_INT_MASK = 0 ∧
  G.IOC_NO_IOPULL &&& IOCFG_INT_MASK = 0 ∧ G.IOC_IOPULL_UP &&& IOCFG_INT_MASK = 0 ∧
  G.IOC_IOPULL_DOWN &&& IOCFG_INT_MASK = 0

/-- The interrupt words that `gpio_cc13xx_cc26xx_pin_interrupt_configure` joins,
and the port identifier, hold interrupt-setting bits only. -/
def GpioHdr.interrupt_words_within_int (G : GpioHdr) : Prop :=
  G.IOC_PORT_GPIO &&& IOCFG_GEN_MASK = 0 ∧
  G.IOC_BOTH_EDGES &&& IOCFG_GEN_MASK = 0 ∧ G.IOC_RISING_EDGE &&& IOCFG_GEN_MASK = 0 ∧
  G.IOC_FALLING_EDGE &&& IOCFG_GEN_MASK = 0 ∧ G.IOC_INT_ENABLE &&& IOCFG_GEN_MASK = 0 ∧
  G.IOC_INT_DISABLE &&& IOCFG_GEN_MASK = 0 ∧ G.IOC_NO_EDGE &&& IOCFG_GEN_MASK = 0

/-! ## Sample inputs -/

/-- One admissible assignment of the socket constants, with TLS socket options
enabled and a table of 16 descriptors. -/
def SockHdr.cc32xx : SockHdr where
  CONFIG_POSIX_MAX_FDS := 16
  CONFIG_NET_SOCKETS_SOCKOPT_TLS := true
  SOCK_STREAM := 1
  SOCK_DGRAM := 2
  SOCK_RAW := 3
  SL_SOCK_STREAM := 1
  SL_SOCK_DGRAM := 2
  SL_SOCK_RAW := 3
  IPPROTO_TCP := 6
  IPPROTO_UDP := 17
  IPPROTO_TLS_1_0 := 256
  IPPROTO_TLS_1_2 := 258
  IPPROTO_DTLS_1_0 := 272
  IPPROTO_DTLS_1_2 := 273
  SL_IPPROTO_TCP := 6
  SL_IPPROTO_UDP := 17
  SL_SEC_SOCKET := 100
  SL_SOL_SOCKET := 1
  SL_SO_SECMETHOD := 25
  SL_SO_SEC_METHOD_TLSV1 := 1
  SL_SO_NONBLOCKING := 24
  sizeof_SlSockNonblocking_t := 4
  F_GETFL := 3
  F_SETFL := 4
  O_NONBLOCK := 16384
  ZFD_IOCTL_CLOSE := 1

/-- One admissible assignment of the poll constants. -/
def PollHdr.cc32xx : PollHdr where
  SL_FD_SETSIZE := 16
  K_FOREVER := -1
  POLLIN := 1
  POLLOUT := 4

/-- One admissible assignment of the receive, connect and option constants. -/
def OptHdr.cc32xx : OptHdr where
  MSG_PEEK := 2
  MSG_DONTWAIT := 64
  SL_ERROR_BSD_ESECDATEERROR := -461
  SL_ERROR_BSD_ESECUNKNOWNROOTCA := -468
  SOL_TLS := 282
  TLS_SEC_TAG_LIST := 1
  TLS_HOSTNAME := 2
  TLS_CIPHERSUITE_LIST := 3
  TLS_CIPHERSUITE_USED := 4
  TLS_PEER_VERIFY := 5
  TLS_DTLS_ROLE := 6
  TCP_NODELAY := 1
  SO_REUSEADDR := 2
  SL_SO_SECURE_DOMAIN_NAME_VERIFICATION := 35
  SL_SO_SECURE_FILES_CA_FILE_NAME := 32
  SL_SO_SECURE_FILES_CERTIFICATE_FILE_NAME := 31
  SL_SO_SECURE_FILES_PRIVATE_KEY_FILE_NAME := 30
  TLS_CREDENTIAL_CA_CERTIFICATE := 1
  TLS_CREDENTIAL_SERVER_CERTIFICATE := 2
  TLS_CREDENTIAL_PRIVATE_KEY := 3
  sizeof_sec_tag_t := 4

/-- The sample header records together. -/
def Hdr.cc32xx : Hdr where
  addr := AddrHdr.cc32xx
  err := ErrHdr.cc32xx
  sock := SockHdr.cc32xx
  poll := PollHdr.cc32xx
  opt := OptHdr.cc32xx

/-- An environment with fixed answers: `z_reserve_fd` returns `fd`, `sl_Socket`
and `sl_Accept` return `sock`, `sl_Close` returns `closed`, the option calls
succeed, and `sl_Accept` leaves the native buffer as it found it. `sl_Select`
times out, the receive and send calls transfer nothing, `sl_Bind` and
`sl_Connect` succeed, and no credentials are stored. -/
def Env.fixed (fd sock closed : Int) : Env where
  z_reserve_fd := fun _ => fd
  sl_Socket := fun _ _ _ _ => sock
  sl_Close := fun _ _ => closed
  sl_SetSockOpt := fun _ _ _ _ _ _ => 0
  sl_GetSockOpt := fun _ _ _ _ _ => (0, 0)
  sl_Accept := fun _ _ pointee len => (sock, pointee, len)
  sl_Select := fun _ _ _ _ _ => (0, [], [])
  sl_Recv := fun _ _ _ _ => 0
  sl_RecvFrom := fun _ _ _ _ _ len => (0, .of_in ⟨0, 0, 0⟩, len)
  sl_Bind := fun _ _ _ _ => 0
  sl_Connect := fun _ _ _ _ => 0
  sl_SendTo := fun _ _ _ _ _ _ => 0
  sl_Send := fun _ _ _ _ => 0
  sl_SetSockOpt_buf := fun _ _ _ _ _ _ => 0
  sl_GetSockOpt_buf := fun _ _ _ _ optval optlen => (0, optval, optlen)
  credentials := fun _ => []

/-- Native buffers holding zeroes, as sample prior contents. -/
def SlBufs.zero : SlBufs where
  sl_addr_in := ⟨0, 0, 0⟩
  sl_addr_in6 := ⟨0, 0, 0, fun _ => 0, 0⟩
  sl_addrlen := 0

/-- A sample IPv6 generic address with scope identifier 5 and address bytes
0, 1, ..., 15. -/
def sockaddr_in6.sample : sockaddr_in6 where
  sin6_family := 2
  sin6_port := 8080
  sin6_addr := fun i => i.val
  sin6_scope_id := 5

/-- A state whose table has 16 slots, with descriptor 3 bound to native
handle 7 and every other slot unbound. -/
def World.sample : World where
  simplelink_offload_fd := [-1, -1, -1, 7, -1, -1, -1, -1, -1, -1, -1, -1, -1, -1, -1, -1]
  errno := 0
  trace := []

/-- An environment like `Env.fixed 3 7 0` whose `sl_Select` reports one ready
handle: 7, in the read set. -/
def Env.ready : Env :=
  { Env.fixed 3 7 0 with sl_Select := fun _ _ _ _ _ => (1, [7], []) }

/-- An environment like `Env.fixed 3 7 0` in which the non-blocking option of a
socket is a stored value that starts as `init` and is read back by
`sl_GetSockOpt`, and in which `sl_Recv` returns `recv`. -/
def Env.stored (init recv : Int) : Env :=
  { Env.fixed 3 7 0 with
    sl_GetSockOpt := fun trace sd _ _ _ => (0, nonblocking_after Hdr.cc32xx sd init trace)
    sl_Recv := fun _ _ _ _ => recv }

/-- An environment like `Env.fixed 3 7 0` in which tag 1 holds one CA
certificate and tag 2 one private key, and in which `sl_SetSockOpt` refuses the
CA file name with status -12 and accepts every other option. -/
def Env.refused : Env :=
  { Env.fixed 3 7 0 with
    sl_SetSockOpt_buf := fun _ _ _ optname _ _ => if optname = 32 then -12 else 0
    credentials := fun tag =>
      if tag = 1 then [⟨1, [99], 1⟩] else if tag = 2 then [⟨3, [107], 1⟩] else [] }

/-- An environment like `Env.fixed 3 7 0` whose `sl_Select` leaves both sets as
it found them and reports two ready handles. -/
def Env.echo : Env :=
  { Env.fixed 3 7 0 with sl_Select := fun _ _ rfds wfds _ => (2, rfds, wfds) }

/-- One admissible assignment of the power constants, with both sleep states
configured and the state-lock test compiled in. -/
def PowerHdr.cc26x2 : PowerHdr where
  K_FOREVER := -1
  SYS_POWER_STATE_ACTIVE := -1
  pm_min_residency := [32, 65]
  PowerCC26XX_DISALLOW_STANDBY := 2
  PowerCC26XX_DISALLOW_IDLE := 3
  CONFIG_SYS_CLOCK_TICKS_PER_SEC := 32768
  CONFIG_SYS_PM_STATE_LOCK := true

/-- One admissible assignment of the GPIO constants. -/
def GpioHdr.cc26x2 : GpioHdr where
  GPIO_ACCESS_BY_PIN := 0
  GPIO_INPUT := 0x100
  GPIO_OUTPUT := 0x200
  GPIO_DISCONNECTED := 0
  GPIO_INT_DEBOUNCE := 0x80000
  GPIO_PUD_MASK := 0x30
  GPIO_PUD_NORMAL := 0
  GPIO_PUD_PULL_UP := 0x10
  GPIO_PUD_PULL_DOWN := 0x20
  GPIO_OUTPUT_INIT_HIGH := 0x800
  GPIO_OUTPUT_INIT_LOW := 0x400
  GPIO_OUTPUT_ENABLE := 1
  GPIO_OUTPUT_DISABLE := 0
  GPIO_INT_MODE_DISABLED := 0x2000
  GPIO_INT_MODE_EDGE := 0xC000
  GPIO_INT_TRIG_BOTH := 0x30000
  GPIO_INT_TRIG_HIGH := 0x20000
  IOC_PORT_GPIO := 0
  IOC_CURRENT_2MA := 0
  IOC_STRENGTH_AUTO := 0
  IOC_SLEW_DISABLE := 0
  IOC_NO_WAKE_UP := 0
  IOC_HYST_ENABLE := 0x40000000
  IOC_HYST_DISABLE := 0
  IOC_INPUT_ENABLE := 0x20000000
  IOC_INPUT_DISABLE := 0
  IOC_NO_IOPULL := 0x6000
  IOC_IOPULL_UP := 0x4000
  IOC_IOPULL_DOWN := 0x2000
  IOC_BOTH_EDGES := 0x30000
  IOC_RISING_EDGE := 0x20000
  IOC_FALLING_EDGE := 0x10000
  IOC_INT_ENABLE := 0x40000
  IOC_INT_DISABLE := 0
  IOC_NO_EDGE := 0

/-- A GPIO state in which pin 5 is an input with a pull-up and an enabled
rising-edge interrupt, every other register holds 0, and the callback of pin 5
is enabled. -/
def GpioState.sample : GpioState where
  iocfg := fun p => if p = 5 then 0x20064000 else 0
  doe := fun _ => 0
  dout := 0
  pin_callback_enables := 0x20
  writes := []

/-! ## Address translator: theorems -/

/-- C1: for every IPv4 generic address passed with declared length
`sizeof(struct sockaddr_in)`, encoding with `translate_z_to_sl_addrs` and decoding
the native address and length it produced with `translate_sl_to_z_addr` gives
family `AF_INET`, the original port, the original 32-bit address, and the output
length `sizeof(struct sockaddr_in)`, whatever the buffers held before. -/
theorem ipv4_encode_then_decode (H : AddrHdr) (a : sockaddr_in) (b : SlBufs)
    (z : sockaddr) (zlen : Nat) :
    encode_then_decode H (.of_in a) H.sizeof_sockaddr_in b z zlen =
      some (.of_in ⟨H.AF_INET, a.sin_port, a.sin_addr⟩, H.sizeof_sockaddr_in) := by
  simp [encode_then_decode, translate_z_to_sl_addrs, translate_sl_to_z_addr,
    SlBufs.deref, SlSockAddr_t.sa_family, SlSockAddr_t.as_in, sockaddr.as_in]

/-- The exact result of encoding an IPv6 generic address and decoding it again:
the scope identifier comes from the native buffer, not from the address. -/
theorem encode_then_decode_in6 (H : AddrHdr)
    (hsz : H.sizeof_sockaddr_in6 ≠ H.sizeof_sockaddr_in)
    (hfam : H.SL_AF_INET6 ≠ H.SL_AF_INET)
    (a : sockaddr_in6) (b : SlBufs) (z : sockaddr) (zlen : Nat) :
    encode_then_decode H (.of_in6 a) H.sizeof_sockaddr_in6 b z zlen =
      some (.of_in6
        { sin6_family := H.AF_INET6
          sin6_port := a.sin6_port
          sin6_addr :=
            memcpy (z.as_in6 H).sin6_addr
              (memcpy b.sl_addr_in6.sin6_addr a.sin6_addr sizeof_S6_u32) sizeof_s6_addr
          sin6_scope_id := b.sl_addr_in6.sin6_scope_id % 2 ^ 8 },
        H.sizeof_sockaddr_in6) := by
  simp only [encode_then_decode, translate_z_to_sl_addrs, if_neg hsz, if_true,
    SlBufs.deref, translate_sl_to_z_addr, SlSockAddr_t.sa_family, if_neg hfam]
  rfl

/-- C2: for every IPv6 generic address passed with declared length
`sizeof(struct sockaddr_in6)`, on headers where the two generic sizes differ and
the two native family tags differ, encoding and then decoding gives family
`AF_INET6`, the original port, the sixteen original address bytes in their
original order, and the output length `sizeof(struct sockaddr_in6)`. -/
theorem ipv6_encode_then_decode (H : AddrHdr)
    (hsz : H.sizeof_sockaddr_in6 ≠ H.sizeof_sockaddr_in)
    (hfam : H.SL_AF_INET6 ≠ H.SL_AF_INET)
    (a : sockaddr_in6) (b : SlBufs) (z : sockaddr) (zlen : Nat) :
    ∃ r : sockaddr_in6,
      encode_then_decode H (.of_in6 a) H.sizeof_sockaddr_in6 b z zlen =
        some (.of_in6 r, H.sizeof_sockaddr_in6) ∧
      r.sin6_family = H.AF_INET6 ∧ r.sin6_port = a.sin6_port ∧
      ∀ i : Fin 16, r.sin6_addr i = a.sin6_addr i := by
  refine ⟨_, encode_then_decode_in6 H hsz hfam a b z zlen, rfl, rfl, ?_⟩
  intro i
  simp [memcpy, sizeof_s6_addr, sizeof_S6_u32]

/-- Instance of C2 on the sample headers. -/
theorem ipv6_encode_then_decode_witness :
    AddrHdr.cc32xx.sizeof_sockaddr_in6 ≠ AddrHdr.cc32xx.sizeof_sockaddr_in ∧
    AddrHdr.cc32xx.SL_AF_INET6 ≠ AddrHdr.cc32xx.SL_AF_INET ∧
    ∃ r : sockaddr_in6,
      encode_then_decode AddrHdr.cc32xx (.of_in6 sockaddr_in6.sample)
          AddrHdr.cc32xx.sizeof_sockaddr_in6 SlBufs.zero (.of_in ⟨0, 0, 0⟩) 0 =
        some (.of_in6 r, AddrHdr.cc32xx.sizeof_sockaddr_in6) ∧
      r.sin6_family = AddrHdr.cc32xx.AF_INET6 ∧
      r.sin6_port = sockaddr_in6.sample.sin6_port ∧
      ∀ i : Fin 16, r.sin6_addr i = sockaddr_in6.sample.sin6_addr i :=
  ⟨by decide, by decide,
    ipv6_encode_then_decode AddrHdr.cc32xx (by decide) (by decide) sockaddr_in6.sample
      SlBufs.zero (.of_in ⟨0, 0, 0⟩) 0⟩

/-- C3: the scope identifier does not survive encoding and decoding. The sample
address carries scope 5; `translate_z_to_sl_addrs` never stores it, so the
decoded scope is the low byte of whatever the native buffer held: 0 for a zeroed
buffer, 9 for a buffer holding 0x109. -/
theorem ipv6_scope_id_read_from_stale_buffer :
    sockaddr_in6.sample.sin6_scope_id % 2 ^ 8 = 5 ∧
    (encode_then_decode AddrHdr.cc32xx (.of_in6 sockaddr_in6.sample) 24 SlBufs.zero
        (.of_in ⟨0, 0, 0⟩) 0).map
      (fun r => ((r.1.as_in6 AddrHdr.cc32xx).sin6_scope_id, r.2)) = some (0, 24) ∧
    (encode_then_decode AddrHdr.cc32xx (.of_in6 sockaddr_in6.sample) 24
        { SlBufs.zero with sl_addr_in6 := ⟨0, 0, 0, fun _ => 0, 0x109⟩ }
        (.of_in ⟨0, 0, 0⟩) 0).map
      (fun r => ((r.1.as_in6 AddrHdr.cc32xx).sin6_scope_id, r.2)) = some (9, 24) := by
  decide

/-- C4: with the two generic sizes distinct, a declared length equal to neither
makes both encoders return `NULL` and leave the native buffers and the native
length as they were; the IPv4 size makes both return the IPv4 native buffer with
native length `sizeof(SlSockAddrIn_t)`, and the IPv6 size the IPv6 native buffer
with native length `sizeof(SlSockAddrIn6_t)`. -/
theorem encode_dispatch_on_length (H : AddrHdr)
    (hsz : H.sizeof_sockaddr_in ≠ H.sizeof_sockaddr_in6)
    (addr : sockaddr) (addrlen : Nat) (b : SlBufs) :
    (addrlen ≠ H.sizeof_sockaddr_in ∧ addrlen ≠ H.sizeof_sockaddr_in6 →
      translate_z_to_sl_addrs H addr addrlen b = (.NULL, b) ∧
      translate_z_to_sl_addrlen H addrlen b = (.NULL, b)) ∧
    (addrlen = H.sizeof_sockaddr_in →
      (translate_z_to_sl_addrs H addr addrlen b).1 = .sl_addr_in ∧
      (translate_z_to_sl_addrs H addr addrlen b).2.sl_addrlen = H.sizeof_SlSockAddrIn_t ∧
      (translate_z_to_sl_addrlen H addrlen b).1 = .sl_addr_in ∧
      (translate_z_to_sl_addrlen H addrlen b).2.sl_addrlen = H.sizeof_SlSockAddrIn_t) ∧
    (addrlen = H.sizeof_sockaddr_in6 →
      (translate_z_to_sl_addrs H addr addrlen b).1 = .sl_addr_in6 ∧
      (translate_z_to_sl_addrs H addr addrlen b).2.sl_addrlen = H.sizeof_SlSockAddrIn6_t ∧
      (translate_z_to_sl_addrlen H addrlen b).1 = .sl_addr_in6 ∧
      (translate_z_to_sl_addrlen H addrlen b).2.sl_addrlen = H.sizeof_SlSockAddrIn6_t) := by
  refine ⟨?_, ?_, ?_⟩
  · rintro ⟨h4, h6⟩
    simp [translate_z_to_sl_addrs, translate_z_to_sl_addrlen, h4, h6]
  · intro h4
    simp [translate_z_to_sl_addrs, translate_z_to_sl_addrlen, h4]
  · intro h6
    subst h6
    simp [translate_z_to_sl_addrs, translate_z_to_sl_addrlen, Ne.symm hsz]

/-- Instances of C4 on the sample headers: declared lengths 5, 8 and 24. -/
theorem encode_dispatch_on_length_witness :
    AddrHdr.cc32xx.sizeof_sockaddr_in ≠ AddrHdr.cc32xx.sizeof_sockaddr_in6 ∧
    (translate_z_to_sl_addrs AddrHdr.cc32xx (.of_in ⟨1, 80, 7⟩) 5 SlBufs.zero
        = (.NULL, SlBufs.zero) ∧
      translate_z_to_sl_addrlen AddrHdr.cc32xx 5 SlBufs.zero = (.NULL, SlBufs.zero)) ∧
    (translate_z_to_sl_addrs AddrHdr.cc32xx (.of_in ⟨1, 80, 7⟩) 8 SlBufs.zero).1
        = .sl_addr_in ∧
    (translate_z_to_sl_addrlen AddrHdr.cc32xx 24 SlBufs.zero).2.sl_addrlen
        = AddrHdr.cc32xx.sizeof_SlSockAddrIn6_t :=
  ⟨by decide,
    (encode_dispatch_on_length AddrHdr.cc32xx (by decide) (.of_in ⟨1, 80, 7⟩) 5
      SlBufs.zero).1 ⟨by decide, by decide⟩,
    ((encode_dispatch_on_length AddrHdr.cc32xx (by decide) (.of_in ⟨1, 80, 7⟩) 8
      SlBufs.zero).2.1 rfl).1,
    ((encode_dispatch_on_length AddrHdr.cc32xx (by decide) (.of_in ⟨1, 80, 7⟩) 24
      SlBufs.zero).2.2 rfl).2.2.2⟩

/-- C5: when the native family tag is `SL_AF_INET` (or `SL_AF_INET6`, the two
tags being distinct) and the declared native length differs from that family's
native structure size, `translate_sl_to_z_addr` stores the native length in
`*addrlen` and leaves the generic address as it was. -/
theorem decode_length_mismatch (H : AddrHdr) (hfam : H.SL_AF_INET6 ≠ H.SL_AF_INET)
    (sl_addr : SlSockAddr_t) (sl_addrlen : Nat) (addr : sockaddr) (addrlen : Nat) :
    (sl_addr.sa_family = H.SL_AF_INET → sl_addrlen ≠ H.sizeof_SlSockAddrIn_t →
      translate_sl_to_z_addr H sl_addr sl_addrlen addr addrlen = (addr, sl_addrlen)) ∧
    (sl_addr.sa_family = H.SL_AF_INET6 → sl_addrlen ≠ H.sizeof_SlSockAddrIn6_t →
      translate_sl_to_z_addr H sl_addr sl_addrlen addr addrlen = (addr, sl_addrlen)) := by
  constructor
  · intro hf hl
    simp [translate_sl_to_z_addr, hf, hl]
  · intro hf hl
    simp [translate_sl_to_z_addr, hf, hl, hfam]

/-- Instances of C5 on the sample headers: an IPv4-tagged native address with
length 28 and an IPv6-tagged one with length 16. -/
theorem decode_length_mismatch_witness :
    AddrHdr.cc32xx.SL_AF_INET6 ≠ AddrHdr.cc32xx.SL_AF_INET ∧
    translate_sl_to_z_addr AddrHdr.cc32xx (.of_in ⟨2, 80, 7⟩) 28 (.of_in ⟨1, 1, 1⟩) 8
      = (.of_in ⟨1, 1, 1⟩, 28) ∧
    translate_sl_to_z_addr AddrHdr.cc32xx (.of_in6 ⟨3, 80, 0, fun _ => 0, 0⟩) 16
        (.of_in ⟨1, 1, 1⟩) 8
      = (.of_in ⟨1, 1, 1⟩, 16) :=
  ⟨by decide,
    (decode_length_mismatch AddrHdr.cc32xx (by decide) (.of_in ⟨2, 80, 7⟩) 28
      (.of_in ⟨1, 1, 1⟩) 8).1 rfl (by decide),
    (decode_length_mismatch AddrHdr.cc32xx (by decide)
      (.of_in6 ⟨3, 80, 0, fun _ => 0, 0⟩) 16 (.of_in ⟨1, 1, 1⟩) 8).2 rfl (by decide)⟩

/-! ## Status translator: theorems -/

/-- In a list of cases with pairwise distinct labels, the search for the label
of a member finds that member when it is compiled and nothing otherwise. -/
theorem find_case_of_mem (l : List SwitchCase) (c : SwitchCase)
    (hnd : (l.map (fun d => d.label)).Nodup) (hc : c ∈ l) :
    l.find? (fun d => d.compiled && decide (d.label = c.label)) =
      if c.compiled = true then some c else none := by
  induction l with
  | nil => cases hc
  | cons d t ih =>
    rw [List.map_cons, List.nodup_cons] at hnd
    rcases List.mem_cons.mp hc with h | h
    · subst h
      by_cases hcomp : c.compiled = true
      · simp [List.find?_cons, hcomp]
      · have hnone : t.find? (fun d => d.compiled && decide (d.label = c.label)) = none := by
          rw [List.find?_eq_none]
          intro x hx hp
          simp only [Bool.and_eq_true, decide_eq_true_eq] at hp
          exact hnd.1 (List.mem_map.mpr ⟨x, hx, hp.2⟩)
        simp [List.find?_cons, hcomp, hnone]
    · have hne : ¬ d.label = c.label := by
        intro he
        exact hnd.1 (List.mem_map.mpr ⟨c, h, he.symm⟩)
      simp only [List.find?_cons, hne, decide_False, Bool.and_false]
      exact ih hnd.2 h

/-- A case of the `switch` whose label is negative, and which assigns the label
itself whenever it is compiled out, is translated to its value. -/
theorem getErrno_of_case (E : ErrHdr) (hneg : ∀ l ∈ getErrno_labels E, l < 0)
    (hnd : (getErrno_labels E).Nodup) (c : SwitchCase) (hc : c ∈ getErrno_cases E)
    (hout : c.compiled = false → c.label = c.value) :
    getErrno E c.label = c.value := by
  have hlt : c.label < 0 := hneg _ (List.mem_map.mpr ⟨c, hc, rfl⟩)
  unfold getErrno
  rw [if_neg (not_le.mpr hlt), find_case_of_mem _ c hnd hc]
  by_cases hcomp : c.compiled = true
  · simp [hcomp]
  · simp only [hcomp]
    exact hout (by simpa using hcomp)

/-- C6: with the case labels negative and pairwise distinct, `getErrno` maps
every status constant of its table to the `errno` value of its case: each
`SL_ERROR_BSD_X` to `X`; `SL_POOL_IS_EMPTY`,
`SL_RET_CODE_NO_FREE_ASYNC_BUFFERS_ERROR` and `SL_RET_CODE_MALLOC_ERROR` to
`ENOMEM`; `SL_RET_CODE_INVALID_INPUT`, `SL_EZEROLEN`, `SL_ESMALLBUF` and
`SL_INVALPARAM` to `EINVAL`. -/
theorem getErrno_table (E : ErrHdr) (hneg : ∀ l ∈ getErrno_labels E, l < 0)
    (hnd : (getErrno_labels E).Nodup) :
    getErrno E E.SL_ERROR_BSD_EBADF = E.EBADF ∧
    getErrno E E.SL_ERROR_BSD_ENSOCK = E.ENSOCK ∧
    getErrno E E.SL_ERROR_BSD_EAGAIN = E.EAGAIN ∧
    getErrno E E.SL_ERROR_BSD_ENOMEM = E.ENOMEM ∧
    getErrno E E.SL_ERROR_BSD_EACCES = E.EACCES ∧
    getErrno E E.SL_ERROR_BSD_EFAULT = E.EFAULT ∧
    getErrno E E.SL_ERROR_BSD_EINVAL = E.EINVAL ∧
    getErrno E E.SL_ERROR_BSD_EDESTADDRREQ = E.EDESTADDRREQ ∧
    getErrno E E.SL_ERROR_BSD_EPROTOTYPE = E.EPROTOTYPE ∧
    getErrno E E.SL_ERROR_BSD_ENOPROTOOPT = E.ENOPROTOOPT ∧
    getErrno E E.SL_ERROR_BSD_EPROTONOSUPPORT = E.EPROTONOSUPPORT ∧
    getErrno E E.SL_ERROR_BSD_EOPNOTSUPP = E.EOPNOTSUPP ∧
    getErrno E E.SL_ERROR_BSD_EAFNOSUPPORT = E.EAFNOSUPPORT ∧
    getErrno E E.SL_ERROR_BSD_EADDRINUSE = E.EADDRINUSE ∧
    getErrno E E.SL_ERROR_BSD_EADDRNOTAVAIL = E.EADDRNOTAVAIL ∧
    getErrno E E.SL_ERROR_BSD_ENETUNREACH = E.ENETUNREACH ∧
    getErrno E E.SL_ERROR_BSD_ENOBUFS = E.ENOBUFS ∧
    getErrno E E.SL_ERROR_BSD_EISCONN = E.EISCONN ∧
    getErrno E E.SL_ERROR_BSD_ENOTCONN = E.ENOTCONN ∧
    getErrno E E.SL_ERROR_BSD_ETIMEDOUT = E.ETIMEDOUT ∧
    getErrno E E.SL_ERROR_BSD_ECONNREFUSED = E.ECONNREFUSED ∧
    getErrno E E.SL_POOL_IS_EMPTY = E.ENOMEM ∧
    getErrno E E.SL_RET_CODE_NO_FREE_ASYNC_BUFFERS_ERROR = E.ENOMEM ∧
    getErrno E E.SL_RET_CODE_MALLOC_ERROR = E.ENOMEM ∧
    getErrno E E.SL_RET_CODE_INVALID_INPUT = E.EINVAL ∧
    getErrno E E.SL_EZEROLEN = E.EINVAL ∧
    getErrno E E.SL_ESMALLBUF = E.EINVAL ∧
    getErrno E E.SL_INVALPARAM = E.EINVAL :=
  ⟨getErrno_of_case E hneg hnd ⟨decide (E.EBADF ≠ E.SL_ERROR_BSD_EBADF), E.SL_ERROR_BSD_EBADF, E.EBADF⟩
      (List.getElem?_mem (n := 0) rfl) (fun h => (Decidable.of_not_not (of_decide_eq_false h)).symm),
    getErrno_of_case E hneg hnd ⟨decide (E.ENSOCK ≠ E.SL_ERROR_BSD_ENSOCK), E.SL_ERROR_BSD_ENSOCK, E.ENSOCK⟩
      (List.getElem?_mem (n := 1) rfl) (fun h => (Decidable.of_not_not (of_decide_eq_false h)).symm),
    getErrno_of_case E hneg hnd ⟨decide (E.EAGAIN ≠ E.SL_ERROR_BSD_EAGAIN), E.SL_ERROR_BSD_EAGAIN, E.EAGAIN⟩
      (List.getElem?_mem (n := 2) rfl) (fun h => (Decidable.of_not_not (of_decide_eq_false h)).symm),
    getErrno_of_case E hneg hnd ⟨decide (E.ENOMEM ≠ E.SL_ERROR_BSD_ENOMEM), E.SL_ERROR_BSD_ENOMEM, E.ENOMEM⟩
      (List.getElem?_mem (n := 3) rfl) (fun h => (Decidable.of_not_not (of_decide_eq_false h)).symm),
    getErrno_of_case E hneg hnd ⟨decide (E.EACCES ≠ E.SL_ERROR_BSD_EACCES), E.SL_ERROR_BSD_EACCES, E.EACCES⟩
      (List.getElem?_mem (n := 4) rfl) (fun h => (Decidable.of_not_not (of_decide_eq_false h)).symm),
    getErrno_of_case E hneg hnd ⟨decide (E.EFAULT ≠ E.SL_ERROR_BSD_EFAULT), E.SL_ERROR_BSD_EFAULT, E.EFAULT⟩
      (List.getElem?_mem (n := 5) rfl) (fun h => (Decidable.of_not_not (of_decide_eq_false h)).symm),
    getErrno_of_case E hneg hnd ⟨decide (E.EINVAL ≠ E.SL_ERROR_BSD_EINVAL), E.SL_ERROR_BSD_EINVAL, E.EINVAL⟩
      (List.getElem?_mem (n := 6) rfl) (fun h => (Decidable.of_not_not (of_decide_eq_false h)).symm),
    getErrno_of_case E hneg hnd ⟨decide (E.EDESTADDRREQ ≠ E.SL_ERROR_BSD_EDESTADDRREQ), E.SL_ERROR_BSD_EDESTADDRREQ, E.EDESTADDRREQ⟩
      (List.getElem?_mem (n := 7) rfl) (fun h => (Decidable.of_not_not (of_decide_eq_false h)).symm),
    getErrno_of_case E hneg hnd ⟨decide (E.EPROTOTYPE ≠ E.SL_ERROR_BSD_EPROTOTYPE), E.SL_ERROR_BSD_EPROTOTYPE, E.EPROTOTYPE⟩
      (List.getElem?_mem (n := 8) rfl) (fun h => (Decidable.of_not_not (of_decide_eq_false h)).symm),
    getErrno_of_case E hneg hnd ⟨decide (E.ENOPROTOOPT ≠ E.SL_ERROR_BSD_ENOPROTOOPT), E.SL_ERROR_BSD_ENOPROTOOPT, E.ENOPROTOOPT⟩
      (List.getElem?_mem (n := 9) rfl) (fun h => (Decidable.of_not_not (of_decide_eq_false h)).symm),
    getErrno_of_case E hneg hnd ⟨decide (E.EPROTONOSUPPORT ≠ E.SL_ERROR_BSD_EPROTONOSUPPORT), E.SL_ERROR_BSD_EPROTONOSUPPORT, E.EPROTONOSUPPORT⟩
      (List.getElem?_mem (n := 10) rfl) (fun h => (Decidable.of_not_not (of_decide_eq_false h)).symm),
    getErrno_of_case E hneg hnd ⟨decide (E.EOPNOTSUPP ≠ E.SL_ERROR_BSD_EOPNOTSUPP), E.SL_ERROR_BSD_EOPNOTSUPP, E.EOPNOTSUPP⟩
      (List.getElem?_mem (n := 11) rfl) (fun h => (Decidable.of_not_not (of_decide_eq_false h)).symm),
    getErrno_of_case E hneg hnd ⟨decide (E.EAFNOSUPPORT ≠ E.SL_ERROR_BSD_EAFNOSUPPORT), E.SL_ERROR_BSD_EAFNOSUPPORT, E.EAFNOSUPPORT⟩
      (List.getElem?_mem (n := 12) rfl) (fun h => (Decidable.of_not_not (of_decide_eq_false h)).symm),
    getErrno_of_case E hneg hnd ⟨decide (E.EADDRINUSE ≠ E.SL_ERROR_BSD_EADDRINUSE), E.SL_ERROR_BSD_EADDRINUSE, E.EADDRINUSE⟩
      (List.getElem?_mem (n := 13) rfl) (fun h => (Decidable.of_not_not (of_decide_eq_false h)).symm),
    getErrno_of_case E hneg hnd ⟨decide (E.EADDRNOTAVAIL ≠ E.SL_ERROR_BSD_EADDRNOTAVAIL), E.SL_ERROR_BSD_EADDRNOTAVAIL, E.EADDRNOTAVAIL⟩
      (List.getElem?_mem (n := 14) rfl) (fun h => (Decidable.of_not_not (of_decide_eq_false h)).symm),
    getErrno_of_case E hneg hnd ⟨decide (E.ENETUNREACH ≠ E.SL_ERROR_BSD_ENETUNREACH), E.SL_ERROR_BSD_ENETUNREACH, E.ENETUNREACH⟩
      (List.getElem?_mem (n := 15) rfl) (fun h => (Decidable.of_not_not (of_decide_eq_false h)).symm),
    getErrno_of_case E hneg hnd ⟨decide (E.ENOBUFS ≠ E.SL_ERROR_BSD_ENOBUFS), E.SL_ERROR_BSD_ENOBUFS, E.ENOBUFS⟩
      (List.getElem?_mem (n := 16) rfl) (fun h => (Decidable.of_not_not (of_decide_eq_false h)).symm),
    getErrno_of_case E hneg hnd ⟨decide (E.EISCONN ≠ E.SL_ERROR_BSD_EISCONN), E.SL_ERROR_BSD_EISCONN, E.EISCONN⟩
      (List.getElem?_mem (n := 17) rfl) (fun h => (Decidable.of_not_not (of_decide_eq_false h)).symm),
    getErrno_of_case E hneg hnd ⟨decide (E.ENOTCONN ≠ E.SL_ERROR_BSD_ENOTCONN), E.SL_ERROR_BSD_ENOTCONN, E.ENOTCONN⟩
      (List.getElem?_mem (n := 18) rfl) (fun h => (Decidable.of_not_not (of_decide_eq_false h)).symm),
    getErrno_of_case E hneg hnd ⟨decide (E.ETIMEDOUT ≠ E.SL_ERROR_BSD_ETIMEDOUT), E.SL_ERROR_BSD_ETIMEDOUT, E.ETIMEDOUT⟩
      (List.getElem?_mem (n := 19) rfl) (fun h => (Decidable.of_not_not (of_decide_eq_false h)).symm),
    getErrno_of_case E hneg hnd ⟨decide (E.ECONNREFUSED ≠ E.SL_ERROR_BSD_ECONNREFUSED), E.SL_ERROR_BSD_ECONNREFUSED, E.ECONNREFUSED⟩
      (List.getElem?_mem (n := 20) rfl) (fun h => (Decidable.of_not_not (of_decide_eq_false h)).symm),
    getErrno_of_case E hneg hnd ⟨true, E.SL_POOL_IS_EMPTY, E.ENOMEM⟩
      (List.getElem?_mem (n := 21) rfl) (by simp),
    getErrno_of_case E hneg hnd ⟨true, E.SL_RET_CODE_NO_FREE_ASYNC_BUFFERS_ERROR, E.ENOMEM⟩
      (List.getElem?_mem (n := 22) rfl) (by simp),
    getErrno_of_case E hneg hnd ⟨true, E.SL_RET_CODE_MALLOC_ERROR, E.ENOMEM⟩
      (List.getElem?_mem (n := 23) rfl) (by simp),
    getErrno_of_case E hneg hnd ⟨true, E.SL_RET_CODE_INVALID_INPUT, E.EINVAL⟩
      (List.getElem?_mem (n := 24) rfl) (by simp),
    getErrno_of_case E hneg hnd ⟨true, E.SL_EZEROLEN, E.EINVAL⟩
      (List.getElem?_mem (n := 25) rfl) (by simp),
    getErrno_of_case E hneg hnd ⟨true, E.SL_ESMALLBUF, E.EINVAL⟩
      (List.getElem?_mem (n := 26) rfl) (by simp),
    getErrno_of_case E hneg hnd ⟨true, E.SL_INVALPARAM, E.EINVAL⟩
      (List.getElem?_mem (n := 27) rfl) (by simp)⟩

/-- Instance of C6 on the sample constants. -/
theorem getErrno_table_witness :
    (∀ l ∈ getErrno_labels ErrHdr.cc32xx, l < 0) ∧
    (getErrno_labels ErrHdr.cc32xx).Nodup ∧
    getErrno ErrHdr.cc32xx ErrHdr.cc32xx.SL_ERROR_BSD_ECONNREFUSED
      = ErrHdr.cc32xx.ECONNREFUSED ∧
    getErrno ErrHdr.cc32xx ErrHdr.cc32xx.SL_INVALPARAM = ErrHdr.cc32xx.EINVAL :=
  ⟨by decide, by decide,
    (getErrno_table ErrHdr.cc32xx (by decide) (by decide)).2.2.2.2.2.2.2.2.2.2.2.2.2.2.2.2.2.2.2.2.1,
    (getErrno_table ErrHdr.cc32xx (by decide) (by decide)).2.2.2.2.2.2.2.2.2.2.2.2.2.2.2.2.2.2.2.2.2.2.2.2.2.2.2⟩

/-- C7: `getErrno` returns every non-negative status unchanged, and every
negative status that is not a label of its `switch` unchanged. -/
theorem getErrno_identity_outside_table (E : ErrHdr) (error : Int) :
    (error ≥ 0 → getErrno E error = error) ∧
    (error < 0 → error ∉ getErrno_labels E → getErrno E error = error) := by
  constructor
  · intro h
    simp [getErrno, h]
  · intro hlt hni
    have hnone : (getErrno_cases E).find?
        (fun c => c.compiled && decide (c.label = error)) = none := by
      rw [List.find?_eq_none]
      intro x hx hp
      simp only [Bool.and_eq_true, decide_eq_true_eq] at hp
      exact hni (List.mem_map.mpr ⟨x, hx, hp.2⟩)
    simp [getErrno, not_le.mpr hlt, hnone]

/-- Instances of C7 on the sample constants: the byte count 5 and the negative
status -1, which is no label of the table. -/
theorem getErrno_identity_outside_table_witness :
    getErrno ErrHdr.cc32xx 5 = 5 ∧ (-1 : Int) ∉ getErrno_labels ErrHdr.cc32xx ∧
    getErrno ErrHdr.cc32xx (-1) = -1 :=
  ⟨(getErrno_identity_outside_table ErrHdr.cc32xx 5).1 (by decide), by decide,
    (getErrno_identity_outside_table ErrHdr.cc32xx (-1)).2 (by decide) (by decide)⟩

/-! ## Descriptor table: theorems -/

/-- The calls made since a state, after more calls were appended to it. -/
theorem calls_since_append (w w1 : World) (l : List Call)
    (h : w1.trace = w.trace ++ l) : calls_since w w1 = l := by
  simp [calls_since, h]

/-- The epilogue changes neither the table nor the trace, and its result is
negative exactly when its argument is. -/
theorem exit_errno_spec (H : Hdr) (w : World) (retval : Int) :
    (exit_errno H w retval).2.simplelink_offload_fd = w.simplelink_offload_fd ∧
    (exit_errno H w retval).2.trace = w.trace ∧
    (retval < 0 → (exit_errno H w retval).1 = -1) ∧
    (0 ≤ retval → (exit_errno H w retval).1 = retval) := by
  unfold exit_errno slcb_SetErrno
  by_cases h : retval < 0
  · simp [h]
  · simp [h, not_lt.mp h]

/-- What `simplelink_socket` does to the state: the table is untouched; the calls
it makes are native calls only; a non-negative result is the handle returned by
`sl_Socket`; and a negative handle from `sl_Socket` makes the result -1. -/
theorem simplelink_socket_spec (H : Hdr) (N : Env) (w : World) (family type proto : Int) :
    ∃ new : List Call,
      (simplelink_socket H N w family type proto).2.trace = w.trace ++ new ∧
      (simplelink_socket H N w family type proto).2.simplelink_offload_fd
        = w.simplelink_offload_fd ∧
      (0 ≤ (simplelink_socket H N w family type proto).1 →
        ∃ f t p, Call.sl_Socket f t p (simplelink_socket H N w family type proto).1 ∈ new) ∧
      (∀ f t p h, Call.sl_Socket f t p h ∈ new → h < 0 →
        (simplelink_socket H N w family type proto).1 = -1) := by
  unfold simplelink_socket
  cases sl_family_of H family with
  | none => exact ⟨[], by simp [slcb_SetErrno], by simp [slcb_SetErrno],
      by simp [slcb_SetErrno], by simp⟩
  | some sl_family =>
  cases sl_type_of H type with
  | none => exact ⟨[], by simp [slcb_SetErrno], by simp [slcb_SetErrno],
      by simp [slcb_SetErrno], by simp⟩
  | some sl_type =>
  cases sl_proto_of H proto with
  | none => exact ⟨[], by simp [slcb_SetErrno], by simp [slcb_SetErrno],
      by simp [slcb_SetErrno], by simp⟩
  | some sl_proto =>
  simp only [sl_Socket, sl_SetSockOpt, sl_Close, slcb_SetErrno, World.call]
  generalize N.sl_Socket w.trace sl_family sl_type sl_proto = sd
  split
  · rename_i hc
    split
    · refine ⟨?new1, ?htr, rfl, ?hok, ?hfail⟩
      case htr =>
        simp only [List.append_assoc]
        exact rfl
      case hok =>
        intro h
        simp at h
      case hfail =>
        intros
        rfl
    · obtain ⟨h1, h2, -, h4⟩ := exit_errno_spec H
        { w with
          trace := w.trace ++ [Call.sl_Socket sl_family sl_type sl_proto sd] ++
            [Call.sl_SetSockOpt sd H.sock.SL_SOL_SOCKET H.sock.SL_SO_SECMETHOD
              ((proto - H.sock.IPPROTO_TLS_1_0 + H.sock.SL_SO_SEC_METHOD_TLSV1) % 2 ^ 8) 1
              (N.sl_SetSockOpt (w.trace ++ [Call.sl_Socket sl_family sl_type sl_proto sd]) sd
                H.sock.SL_SOL_SOCKET H.sock.SL_SO_SECMETHOD
                ((proto - H.sock.IPPROTO_TLS_1_0 + H.sock.SL_SO_SEC_METHOD_TLSV1) % 2 ^ 8) 1)] }
        sd
      refine ⟨?new2, ?htr, h1, ?hok, ?hfail⟩
      case htr =>
        rw [h2]
        simp only [List.append_assoc]
        exact rfl
      case hok =>
        intro _
        rw [h4 hc.1]
        exact ⟨_, _, _, List.mem_append_left _ (List.mem_singleton_self _)⟩
      case hfail =>
        intro f t p h hm hlt
        simp only [List.mem_append, List.mem_singleton, Call.sl_Socket.injEq, reduceCtorEq,
          or_false] at hm
        omega
  · obtain ⟨h1, h2, h3, h4⟩ := exit_errno_spec H
      { w with trace := w.trace ++ [Call.sl_Socket sl_family sl_type sl_proto sd] } sd
    refine ⟨?new3, ?htr, h1, ?hok, ?hfail⟩
    case htr =>
      rw [h2]
      exact rfl
    case hok =>
      intro hge
      by_cases hsd : sd < 0
      · rw [h3 hsd] at hge
        exact absurd hge (by decide)
      · rw [h4 (not_lt.mp hsd)]
        exact ⟨_, _, _, List.mem_singleton_self _⟩
    case hfail =>
      intro f t p h hm hlt
      simp only [List.mem_singleton, Call.sl_Socket.injEq] at hm
      exact h3 (by omega)

/-- What `simplelink_accept` does to the state: the table is untouched; with
`SL_RET_CODE_INVALID_INPUT` negative, a non-negative result is the handle
returned by `sl_Accept`; and a negative handle from `sl_Accept` makes the
result -1. -/
theorem simplelink_accept_spec (H : Hdr) (N : Env) (w : World) (obj : Nat)
    (addr : Option sockaddr) (addrlen : Option Nat) (b : SlBufs) :
    ∃ new : List Call,
      (simplelink_accept H N w obj addr addrlen b).2.2.2.trace = w.trace ++ new ∧
      (simplelink_accept H N w obj addr addrlen b).2.2.2.simplelink_offload_fd
        = w.simplelink_offload_fd ∧
      (H.err.SL_RET_CODE_INVALID_INPUT < 0 →
        0 ≤ (simplelink_accept H N w obj addr addrlen b).1 →
        ∃ sd p l, Call.sl_Accept sd p l (simplelink_accept H N w obj addr addrlen b).1 ∈ new) ∧
      (∀ sd p l h, Call.sl_Accept sd p l h ∈ new → h < 0 →
        (simplelink_accept H N w obj addr addrlen b).1 = -1) := by
  obtain ⟨i1, i2, i3, -⟩ := exit_errno_spec H w H.err.SL_RET_CODE_INVALID_INPUT
  have hbad : ∃ new : List Call,
      (exit_errno H w H.err.SL_RET_CODE_INVALID_INPUT).2.trace = w.trace ++ new ∧
      (exit_errno H w H.err.SL_RET_CODE_INVALID_INPUT).2.simplelink_offload_fd
        = w.simplelink_offload_fd ∧
      (H.err.SL_RET_CODE_INVALID_INPUT < 0 →
        0 ≤ (exit_errno H w H.err.SL_RET_CODE_INVALID_INPUT).1 →
        ∃ sd p l, Call.sl_Accept sd p l
          (exit_errno H w H.err.SL_RET_CODE_INVALID_INPUT).1 ∈ new) ∧
      (∀ sd p l h, Call.sl_Accept sd p l h ∈ new → h < 0 →
        (exit_errno H w H.err.SL_RET_CODE_INVALID_INPUT).1 = -1) := by
    refine ⟨[], by simp [i2], i1, ?_, ?_⟩
    · intro hinv h
      rw [i3 hinv] at h
      simp at h
    · intro sd p l h hm
      cases hm
  unfold simplelink_accept
  cases addr with
  | none => exact hbad
  | some a =>
  cases addrlen with
  | none => exact hbad
  | some len =>
  simp only []
  cases hd : (translate_z_to_sl_addrlen H.addr len b).2.deref
      (translate_z_to_sl_addrlen H.addr len b).1 with
  | none => exact hbad
  | some pointee =>
  simp only [sl_Accept, World.call]
  generalize (N.sl_Accept w.trace (w.obj_sd obj) pointee
    (translate_z_to_sl_addrlen H.addr len b).2.sl_addrlen) = r
  obtain ⟨h1, h2, h3, h4⟩ := exit_errno_spec H
    { w with
      trace := w.trace ++ [Call.sl_Accept (w.obj_sd obj) (translate_z_to_sl_addrlen H.addr len b).1
        (translate_z_to_sl_addrlen H.addr len b).2.sl_addrlen r.1] } r.1
  split
  · rename_i hlt
    refine ⟨?new1, ?htr, h1, ?hok, ?hfail⟩
    case htr =>
      rw [h2]
      exact rfl
    case hok =>
      intro _ hge
      rw [h3 hlt] at hge
      simp at hge
    case hfail =>
      intros
      exact h3 hlt
  · rename_i hge
    refine ⟨?new2, ?htr, h1, ?hok, ?hfail⟩
    case htr =>
      rw [h2]
      exact rfl
    case hok =>
      intro _ _
      rw [h4 (not_lt.mp hge)]
      exact ⟨_, _, _, List.mem_singleton_self _⟩
    case hfail =>
      intro sd p l h hm hlt
      simp only [List.mem_singleton, Call.sl_Accept.injEq] at hm
      omega

/-- The three ways through `simplelink_socket_create`, with `sock` the result of
`simplelink_socket` and `new` the native calls it made: no descriptor reserved;
descriptor reserved and freed again; descriptor reserved, bound and finalized. -/
theorem simplelink_socket_create_spec (H : Hdr) (N : Env) (w : World)
    (family type proto : Int) :
    ∃ (sock : Int) (new : List Call),
      (0 ≤ sock → ∃ f t p, Call.sl_Socket f t p sock ∈ new) ∧
      (∀ f t p h, Call.sl_Socket f t p h ∈ new → h < 0 → sock = -1) ∧
      (N.z_reserve_fd w.trace < 0 →
        (simplelink_socket_create H N w family type proto).1 = -1 ∧
        (simplelink_socket_create H N w family type proto).2.simplelink_offload_fd
          = w.simplelink_offload_fd ∧
        (simplelink_socket_create H N w family type proto).2.trace
          = w.trace ++ [Call.z_reserve_fd (N.z_reserve_fd w.trace)]) ∧
      (0 ≤ N.z_reserve_fd w.trace → sock < 0 →
        (simplelink_socket_create H N w family type proto).1 = -1 ∧
        (simplelink_socket_create H N w family type proto).2.simplelink_offload_fd
          = w.simplelink_offload_fd ∧
        (simplelink_socket_create H N w family type proto).2.trace
          = w.trace ++ ([Call.z_reserve_fd (N.z_reserve_fd w.trace)] ++ new ++
              [Call.z_free_fd (N.z_reserve_fd w.trace)])) ∧
      (0 ≤ N.z_reserve_fd w.trace → 0 ≤ sock →
        (simplelink_socket_create H N w family type proto).1 = N.z_reserve_fd w.trace ∧
        (simplelink_socket_create H N w family type proto).2.simplelink_offload_fd
          = w.simplelink_offload_fd.set (N.z_reserve_fd w.trace).toNat sock ∧
        (simplelink_socket_create H N w family type proto).2.trace
          = w.trace ++ ([Call.z_reserve_fd (N.z_reserve_fd w.trace)] ++ new ++
              [Call.z_finalize_fd (N.z_reserve_fd w.trace) (N.z_reserve_fd w.trace).toNat])) := by
  obtain ⟨new, htr, htab, hok, hfail⟩ :=
    simplelink_socket_spec H N (z_reserve_fd N w).2 family type proto
  refine ⟨(simplelink_socket H N (z_reserve_fd N w).2 family type proto).1, new, hok, hfail,
    ?_, ?_, ?_⟩
  · intro hfd
    simp [simplelink_socket_create, z_reserve_fd, World.call, hfd]
  · intro hfd hsock
    have hfd' : ¬ (z_reserve_fd N w).1 < 0 := not_lt.mpr hfd
    simp only [simplelink_socket_create, if_neg hfd', if_pos hsock, z_free_fd, World.call,
      htr, htab]
    simp [z_reserve_fd, World.call]
  · intro hfd hsock
    have hfd' : ¬ (z_reserve_fd N w).1 < 0 := not_lt.mpr hfd
    simp only [simplelink_socket_create, if_neg hfd', if_neg (not_lt.mpr hsock),
      z_finalize_fd, World.call, htr, htab]
    simp [z_reserve_fd, World.call]

/-- The three ways through `simplelink_socket_accept`, with `sock` the result of
`simplelink_accept` and `new` the native calls it made. -/
theorem simplelink_socket_accept_spec (H : Hdr) (N : Env) (w : World) (obj : Nat)
    (addr : Option sockaddr) (addrlen : Option Nat) (b : SlBufs) :
    ∃ (sock : Int) (new : List Call),
      (H.err.SL_RET_CODE_INVALID_INPUT < 0 → 0 ≤ sock →
        ∃ sd p l, Call.sl_Accept sd p l sock ∈ new) ∧
      (∀ sd p l h, Call.sl_Accept sd p l h ∈ new → h < 0 → sock = -1) ∧
      (N.z_reserve_fd w.trace < 0 →
        (simplelink_socket_accept H N w obj addr addrlen b).1 = -1 ∧
        (simplelink_socket_accept H N w obj addr addrlen b).2.2.2.simplelink_offload_fd = w.simplelink_offload_fd ∧
        (simplelink_socket_accept H N w obj addr addrlen b).2.2.2.trace = w.trace ++ [Call.z_reserve_fd (N.z_reserve_fd w.trace)]) ∧
      (0 ≤ N.z_reserve_fd w.trace → sock < 0 →
        (simplelink_socket_accept H N w obj addr addrlen b).1 = -1 ∧
        (simplelink_socket_accept H N w obj addr addrlen b).2.2.2.simplelink_offload_fd = w.simplelink_offload_fd ∧
        (simplelink_socket_accept H N w obj addr addrlen b).2.2.2.trace
          = w.trace ++ ([Call.z_reserve_fd (N.z_reserve_fd w.trace)] ++ new ++
              [Call.z_free_fd (N.z_reserve_fd w.trace)])) ∧
      (0 ≤ N.z_reserve_fd w.trace → 0 ≤ sock →
        (simplelink_socket_accept H N w obj addr addrlen b).1 = N.z_reserve_fd w.trace ∧
        (simplelink_socket_accept H N w obj addr addrlen b).2.2.2.simplelink_offload_fd
          = w.simplelink_offload_fd.set (N.z_reserve_fd w.trace).toNat sock ∧
        (simplelink_socket_accept H N w obj addr addrlen b).2.2.2.trace
          = w.trace ++ ([Call.z_reserve_fd (N.z_reserve_fd w.trace)] ++ new ++
              [Call.z_finalize_fd (N.z_reserve_fd w.trace) (N.z_reserve_fd w.trace).toNat])) := by
  obtain ⟨new, htr, htab, hok, hfail⟩ :=
    simplelink_accept_spec H N (z_reserve_fd N w).2 obj addr addrlen b
  refine ⟨(simplelink_accept H N (z_reserve_fd N w).2 obj addr addrlen b).1, new, hok, hfail,
    ?_, ?_, ?_⟩
  · intro hfd
    simp [simplelink_socket_accept, z_reserve_fd, World.call, hfd]
  · intro hfd hsock
    have hfd' : ¬ (z_reserve_fd N w).1 < 0 := not_lt.mpr hfd
    simp only [simplelink_socket_accept, if_neg hfd', if_pos hsock, z_free_fd, World.call,
      htr, htab]
    simp [z_reserve_fd, World.call]
  · intro hfd hsock
    have hfd' : ¬ (z_reserve_fd N w).1 < 0 := not_lt.mpr hfd
    simp only [simplelink_socket_accept, if_neg hfd', if_neg (not_lt.mpr hsock),
      z_finalize_fd, World.call, htr, htab]
    simp [z_reserve_fd, World.call]

/-- Closing a descriptor's object: the slot becomes -1, and the two calls made
are `z_free_fd` and `sl_Close`, both with the value read from the slot. -/
theorem simplelink_ioctl_close_spec (H : Hdr) (N : Env) (w : World) (obj : Nat)
    (args : List Int) :
    (simplelink_ioctl H N w obj H.sock.ZFD_IOCTL_CLOSE args).2.simplelink_offload_fd
      = w.simplelink_offload_fd.set obj (-1) ∧
    (simplelink_ioctl H N w obj H.sock.ZFD_IOCTL_CLOSE args).2.trace
      = w.trace ++ [Call.z_free_fd (w.obj_sd obj),
          Call.sl_Close (w.obj_sd obj)
            (N.sl_Close (w.trace ++ [Call.z_free_fd (w.obj_sd obj)]) (w.obj_sd obj))] := by
  simp only [simplelink_ioctl, if_true, simplelink_close, sl_Close, z_free_fd, World.call]
  obtain ⟨h1, h2, -, -⟩ := exit_errno_spec H
    { simplelink_offload_fd := w.simplelink_offload_fd.set obj (-1), errno := w.errno,
      trace := w.trace ++ [Call.z_free_fd (w.obj_sd obj)] ++
        [Call.sl_Close (w.obj_sd obj)
          (N.sl_Close (w.trace ++ [Call.z_free_fd (w.obj_sd obj)]) (w.obj_sd obj))] }
    (N.sl_Close (w.trace ++ [Call.z_free_fd (w.obj_sd obj)]) (w.obj_sd obj))
  refine ⟨h1, ?_⟩
  rw [h2]
  simp

/-- C8: every slot of `simplelink_offload_fd` starts as -1; when
`simplelink_socket_create` (or `simplelink_socket_accept`, with
`SL_RET_CODE_INVALID_INPUT` negative) returns a descriptor `fd >= 0` that lies
inside the table, slot `fd` holds the handle that the native `sl_Socket`
(`sl_Accept`) call made during the call returned; and after `simplelink_ioctl`
with `ZFD_IOCTL_CLOSE` on the object of a slot, the slot is -1 whatever
`sl_Close` returns. -/
theorem descriptor_table_lifecycle (H : Hdr) (N : Env) (w : World) :
    ((simplelink_offload_fd_init H).length = H.sock.CONFIG_POSIX_MAX_FDS ∧
      ∀ i, i < H.sock.CONFIG_POSIX_MAX_FDS → (simplelink_offload_fd_init H)[i]? = some (-1)) ∧
    (∀ family type proto : Int,
      0 ≤ (simplelink_socket_create H N w family type proto).1 →
      (simplelink_socket_create H N w family type proto).1.toNat < w.simplelink_offload_fd.length →
      ∃ f t p sock,
        Call.sl_Socket f t p sock ∈ calls_since w (simplelink_socket_create H N w family type proto).2 ∧
        (simplelink_socket_create H N w family type proto).2.simplelink_offload_fd[(simplelink_socket_create H N w family type proto).1.toNat]? = some sock) ∧
    (H.err.SL_RET_CODE_INVALID_INPUT < 0 →
      ∀ (obj : Nat) (addr : Option sockaddr) (addrlen : Option Nat) (b : SlBufs),
      0 ≤ (simplelink_socket_accept H N w obj addr addrlen b).1 →
      (simplelink_socket_accept H N w obj addr addrlen b).1.toNat < w.simplelink_offload_fd.length →
      ∃ sd p l sock,
        Call.sl_Accept sd p l sock ∈ calls_since w (simplelink_socket_accept H N w obj addr addrlen b).2.2.2 ∧
        (simplelink_socket_accept H N w obj addr addrlen b).2.2.2.simplelink_offload_fd[(simplelink_socket_accept H N w obj addr addrlen b).1.toNat]? = some sock) ∧
    (∀ (obj : Nat) (args : List Int), obj < w.simplelink_offload_fd.length →
      (simplelink_ioctl H N w obj H.sock.ZFD_IOCTL_CLOSE args).2.simplelink_offload_fd[obj]?
        = some (-1)) := by
  refine ⟨⟨by simp [simplelink_offload_fd_init], ?_⟩, ?_, ?_, ?_⟩
  · intro i hi
    simp [simplelink_offload_fd_init, hi]
  · intro family type proto hret hlen
    obtain ⟨sock, new, hok, -, hnofd, hfree, hbind⟩ :=
      simplelink_socket_create_spec H N w family type proto
    by_cases hfd : N.z_reserve_fd w.trace < 0
    · rw [(hnofd hfd).1] at hret
      simp at hret
    · by_cases hsock : sock < 0
      · rw [(hfree (not_lt.mp hfd) hsock).1] at hret
        simp at hret
      · obtain ⟨h1, h2, h3⟩ := hbind (not_lt.mp hfd) (not_lt.mp hsock)
        obtain ⟨f, t, p, hm⟩ := hok (not_lt.mp hsock)
        rw [h1] at hlen
        refine ⟨f, t, p, sock, ?_, ?_⟩
        · rw [calls_since_append w _ _ h3]
          simp [hm]
        · rw [h1, h2, List.getElem?_set]
          simp [hlen]
  · intro hinv obj addr addrlen b hret hlen
    obtain ⟨sock, new, hok, -, hnofd, hfree, hbind⟩ :=
      simplelink_socket_accept_spec H N w obj addr addrlen b
    by_cases hfd : N.z_reserve_fd w.trace < 0
    · rw [(hnofd hfd).1] at hret
      simp at hret
    · by_cases hsock : sock < 0
      · rw [(hfree (not_lt.mp hfd) hsock).1] at hret
        simp at hret
      · obtain ⟨h1, h2, h3⟩ := hbind (not_lt.mp hfd) (not_lt.mp hsock)
        obtain ⟨sd, p, l, hm⟩ := hok hinv (not_lt.mp hsock)
        rw [h1] at hlen
        refine ⟨sd, p, l, sock, ?_, ?_⟩
        · rw [calls_since_append w _ _ h3]
          simp [hm]
        · rw [h1, h2, List.getElem?_set]
          simp [hlen]
  · intro obj args hobj
    rw [(simplelink_ioctl_close_spec H N w obj args).1, List.getElem?_set]
    simp [hobj]

/-- Instances of C8 on the sample headers: a create that reserves descriptor 3
and gets native handle 7, an accept on descriptor 3 that reserves descriptor 4
and gets native handle 9, and a close of descriptor 3 whose native close fails. -/
theorem descriptor_table_lifecycle_witness :
    (0 ≤ (simplelink_socket_create Hdr.cc32xx (Env.fixed 3 7 0) (World.boot Hdr.cc32xx) 1 1 6).1 ∧
      (simplelink_socket_create Hdr.cc32xx (Env.fixed 3 7 0) (World.boot Hdr.cc32xx) 1 1 6).1.toNat < (World.boot Hdr.cc32xx).simplelink_offload_fd.length ∧
      ∃ f t p sock,
        Call.sl_Socket f t p sock ∈ calls_since (World.boot Hdr.cc32xx) (simplelink_socket_create Hdr.cc32xx (Env.fixed 3 7 0) (World.boot Hdr.cc32xx) 1 1 6).2 ∧
        (simplelink_socket_create Hdr.cc32xx (Env.fixed 3 7 0) (World.boot Hdr.cc32xx) 1 1 6).2.simplelink_offload_fd[(simplelink_socket_create Hdr.cc32xx (Env.fixed 3 7 0) (World.boot Hdr.cc32xx) 1 1 6).1.toNat]? = some sock) ∧
    (Hdr.cc32xx.err.SL_RET_CODE_INVALID_INPUT < 0 ∧
      0 ≤ (simplelink_socket_accept Hdr.cc32xx (Env.fixed 4 9 0) World.sample 3
        (some (.of_in ⟨0, 0, 0⟩)) (some 8) SlBufs.zero).1 ∧
      ∃ sd p l sock,
        Call.sl_Accept sd p l sock ∈ calls_since World.sample (simplelink_socket_accept Hdr.cc32xx (Env.fixed 4 9 0) World.sample 3
        (some (.of_in ⟨0, 0, 0⟩)) (some 8) SlBufs.zero).2.2.2 ∧
        (simplelink_socket_accept Hdr.cc32xx (Env.fixed 4 9 0) World.sample 3
        (some (.of_in ⟨0, 0, 0⟩)) (some 8) SlBufs.zero).2.2.2.simplelink_offload_fd[(simplelink_socket_accept Hdr.cc32xx (Env.fixed 4 9 0) World.sample 3
        (some (.of_in ⟨0, 0, 0⟩)) (some 8) SlBufs.zero).1.toNat]? = some sock) ∧
    (3 < World.sample.simplelink_offload_fd.length ∧
      (simplelink_ioctl Hdr.cc32xx (Env.fixed 3 7 (-1)) World.sample 3
        Hdr.cc32xx.sock.ZFD_IOCTL_CLOSE []).2.simplelink_offload_fd[3]? = some (-1)) :=
  ⟨⟨by decide, by decide,
      (descriptor_table_lifecycle Hdr.cc32xx (Env.fixed 3 7 0) (World.boot Hdr.cc32xx)).2.1
        1 1 6 (by decide) (by decide)⟩,
    ⟨by decide, by decide,
      (descriptor_table_lifecycle Hdr.cc32xx (Env.fixed 4 9 0) World.sample).2.2.1
        (by decide) 3 (some (.of_in ⟨0, 0, 0⟩)) (some 8) SlBufs.zero (by decide) (by decide)⟩,
    ⟨by decide,
      (descriptor_table_lifecycle Hdr.cc32xx (Env.fixed 3 7 (-1)) World.sample).2.2.2
        3 [] (by decide)⟩⟩

/-- C9: closing descriptor 3, bound to native handle 7, hands the native handle
7 to `z_free_fd` (and to `sl_Close`); the descriptor 3 is never returned to the
host descriptor pool. -/
theorem ioctl_close_frees_native_handle :
    World.sample.obj_sd 3 = 7 ∧
    calls_since World.sample
        (simplelink_ioctl Hdr.cc32xx (Env.fixed 3 7 0) World.sample 3
          Hdr.cc32xx.sock.ZFD_IOCTL_CLOSE []).2
      = [Call.z_free_fd 7, Call.sl_Close 7 0] := by
  decide

/-- C10: in `simplelink_socket_create` and `simplelink_socket_accept`, when
`z_reserve_fd` returns a negative value the call returns -1, the only call made
is that `z_reserve_fd`, and the table is unchanged; when a descriptor was
reserved and the native `sl_Socket` (`sl_Accept`) call made during the call
returned a negative value, the call returns -1, its last call is `z_free_fd` of
the reserved descriptor, and the table is unchanged. -/
theorem create_accept_failure_atomicity (H : Hdr) (N : Env) (w : World) :
    (∀ family type proto : Int,
      (N.z_reserve_fd w.trace < 0 →
        (simplelink_socket_create H N w family type proto).1 = -1 ∧
        calls_since w (simplelink_socket_create H N w family type proto).2 = [Call.z_reserve_fd (N.z_reserve_fd w.trace)] ∧
        (simplelink_socket_create H N w family type proto).2.simplelink_offload_fd = w.simplelink_offload_fd) ∧
      (0 ≤ N.z_reserve_fd w.trace →
        ∀ f t p h, Call.sl_Socket f t p h ∈ calls_since w (simplelink_socket_create H N w family type proto).2 → h < 0 →
        (simplelink_socket_create H N w family type proto).1 = -1 ∧
        (calls_since w (simplelink_socket_create H N w family type proto).2).getLast? = some (Call.z_free_fd (N.z_reserve_fd w.trace)) ∧
        (simplelink_socket_create H N w family type proto).2.simplelink_offload_fd = w.simplelink_offload_fd)) ∧
    (∀ (obj : Nat) (addr : Option sockaddr) (addrlen : Option Nat) (b : SlBufs),
      (N.z_reserve_fd w.trace < 0 →
        (simplelink_socket_accept H N w obj addr addrlen b).1 = -1 ∧
        calls_since w (simplelink_socket_accept H N w obj addr addrlen b).2.2.2 = [Call.z_reserve_fd (N.z_reserve_fd w.trace)] ∧
        (simplelink_socket_accept H N w obj addr addrlen b).2.2.2.simplelink_offload_fd = w.simplelink_offload_fd) ∧
      (0 ≤ N.z_reserve_fd w.trace →
        ∀ sd p l h, Call.sl_Accept sd p l h ∈ calls_since w (simplelink_socket_accept H N w obj addr addrlen b).2.2.2 → h < 0 →
        (simplelink_socket_accept H N w obj addr addrlen b).1 = -1 ∧
        (calls_since w (simplelink_socket_accept H N w obj addr addrlen b).2.2.2).getLast? = some (Call.z_free_fd (N.z_reserve_fd w.trace)) ∧
        (simplelink_socket_accept H N w obj addr addrlen b).2.2.2.simplelink_offload_fd = w.simplelink_offload_fd)) := by
  constructor
  · intro family type proto
    obtain ⟨sock, new, -, hfail, hnofd, hfree, hbind⟩ :=
      simplelink_socket_create_spec H N w family type proto
    refine ⟨fun hfd => ?_, fun hfd f t p h hm hlt => ?_⟩
    · obtain ⟨h1, h2, h3⟩ := hnofd hfd
      exact ⟨h1, calls_since_append w _ _ h3, h2⟩
    · have hin : ∀ last : Call, (∀ f t p h, last ≠ Call.sl_Socket f t p h) →
          Call.sl_Socket f t p h ∈
            [Call.z_reserve_fd (N.z_reserve_fd w.trace)] ++ new ++ [last] →
          Call.sl_Socket f t p h ∈ new := by
        intro last hne hmem
        simp only [List.mem_append, List.mem_singleton, reduceCtorEq, false_or] at hmem
        rcases hmem with hmem | hmem
        · exact hmem
        · exact absurd hmem.symm (hne f t p h)
      by_cases hsock : sock < 0
      · obtain ⟨h1, h2, h3⟩ := hfree hfd hsock
        refine ⟨h1, ?_, h2⟩
        rw [calls_since_append w _ _ h3, List.getLast?_append]
        rfl
      · obtain ⟨-, -, h3⟩ := hbind hfd (not_lt.mp hsock)
        rw [calls_since_append w _ _ h3] at hm
        have := hfail f t p h (hin _ (by intros; simp) hm) hlt
        omega
  · intro obj addr addrlen b
    obtain ⟨sock, new, -, hfail, hnofd, hfree, hbind⟩ :=
      simplelink_socket_accept_spec H N w obj addr addrlen b
    refine ⟨fun hfd => ?_, fun hfd sd p l h hm hlt => ?_⟩
    · obtain ⟨h1, h2, h3⟩ := hnofd hfd
      exact ⟨h1, calls_since_append w _ _ h3, h2⟩
    · have hin : ∀ last : Call, (∀ sd p l h, last ≠ Call.sl_Accept sd p l h) →
          Call.sl_Accept sd p l h ∈
            [Call.z_reserve_fd (N.z_reserve_fd w.trace)] ++ new ++ [last] →
          Call.sl_Accept sd p l h ∈ new := by
        intro last hne hmem
        simp only [List.mem_append, List.mem_singleton, reduceCtorEq, false_or] at hmem
        rcases hmem with hmem | hmem
        · exact hmem
        · exact absurd hmem.symm (hne sd p l h)
      by_cases hsock : sock < 0
      · obtain ⟨h1, h2, h3⟩ := hfree hfd hsock
        refine ⟨h1, ?_, h2⟩
        rw [calls_since_append w _ _ h3, List.getLast?_append]
        rfl
      · obtain ⟨-, -, h3⟩ := hbind hfd (not_lt.mp hsock)
        rw [calls_since_append w _ _ h3] at hm
        have := hfail sd p l h (hin _ (by intros; simp) hm) hlt
        omega

/-- Instances of C10 on the sample headers: a create with no descriptor left, a
create whose `sl_Socket` returns -12 after descriptor 3 was reserved, and an
accept on descriptor 3 whose `sl_Accept` returns -12 after descriptor 4 was
reserved. -/
theorem create_accept_failure_atomicity_witness :
    ((Env.fixed (-1) 7 0).z_reserve_fd (World.boot Hdr.cc32xx).trace < 0 ∧
      (simplelink_socket_create Hdr.cc32xx (Env.fixed (-1) 7 0) (World.boot Hdr.cc32xx) 1 1 6).1 = -1 ∧
      calls_since (World.boot Hdr.cc32xx) (simplelink_socket_create Hdr.cc32xx (Env.fixed (-1) 7 0) (World.boot Hdr.cc32xx) 1 1 6).2 = [Call.z_reserve_fd (-1)]) ∧
    (Call.sl_Socket 2 1 6 (-12) ∈ calls_since (World.boot Hdr.cc32xx) (simplelink_socket_create Hdr.cc32xx (Env.fixed 3 (-12) 0) (World.boot Hdr.cc32xx) 1 1 6).2 ∧
      (simplelink_socket_create Hdr.cc32xx (Env.fixed 3 (-12) 0) (World.boot Hdr.cc32xx) 1 1 6).1 = -1 ∧
      (calls_since (World.boot Hdr.cc32xx) (simplelink_socket_create Hdr.cc32xx (Env.fixed 3 (-12) 0) (World.boot Hdr.cc32xx) 1 1 6).2).getLast? = some (Call.z_free_fd 3) ∧
      (simplelink_socket_create Hdr.cc32xx (Env.fixed 3 (-12) 0) (World.boot Hdr.cc32xx) 1 1 6).2.simplelink_offload_fd = (World.boot Hdr.cc32xx).simplelink_offload_fd) ∧
    (Call.sl_Accept 7 .sl_addr_in 16 (-12) ∈ calls_since World.sample (simplelink_socket_accept Hdr.cc32xx (Env.fixed 4 (-12) 0) World.sample 3
        (some (.of_in ⟨0, 0, 0⟩)) (some 8) SlBufs.zero).2.2.2 ∧
      (simplelink_socket_accept Hdr.cc32xx (Env.fixed 4 (-12) 0) World.sample 3
        (some (.of_in ⟨0, 0, 0⟩)) (some 8) SlBufs.zero).1 = -1 ∧
      (calls_since World.sample (simplelink_socket_accept Hdr.cc32xx (Env.fixed 4 (-12) 0) World.sample 3
        (some (.of_in ⟨0, 0, 0⟩)) (some 8) SlBufs.zero).2.2.2).getLast? = some (Call.z_free_fd 4) ∧
      (simplelink_socket_accept Hdr.cc32xx (Env.fixed 4 (-12) 0) World.sample 3
        (some (.of_in ⟨0, 0, 0⟩)) (some 8) SlBufs.zero).2.2.2.simplelink_offload_fd = World.sample.simplelink_offload_fd) :=
  ⟨⟨by decide,
      (((create_accept_failure_atomicity Hdr.cc32xx (Env.fixed (-1) 7 0) (World.boot Hdr.cc32xx)).1
        1 1 6).1 (by decide)).1,
      (((create_accept_failure_atomicity Hdr.cc32xx (Env.fixed (-1) 7 0) (World.boot Hdr.cc32xx)).1
        1 1 6).1 (by decide)).2.1⟩,
    ⟨by decide,
      ((create_accept_failure_atomicity Hdr.cc32xx (Env.fixed 3 (-12) 0) (World.boot Hdr.cc32xx)).1
        1 1 6).2 (by decide) 2 1 6 (-12) (by decide) (by decide)⟩,
    ⟨by decide,
      ((create_accept_failure_atomicity Hdr.cc32xx (Env.fixed 4 (-12) 0) World.sample).2
        3 (some (.of_in ⟨0, 0, 0⟩)) (some 8) SlBufs.zero).2 (by decide) 7 .sl_addr_in 16 (-12)
        (by decide) (by decide)⟩⟩

/-! ## Multiplexed wait: theorems -/

/-- An entry that is a non-offloaded socket makes the first loop of
`simplelink_poll` leave through `goto exit`, whatever the other entries are. -/
theorem poll_setup_none (H : Hdr) (table : List Int) (fds : List pollfd) (p : pollfd)
    (hp : p ∈ fds) (hfd : 0 ≤ p.fd)
    (hbad : p.fd.toNat ≥ table.length ∨ table.getD p.fd.toNat (-1) = -1) (s : PollSets) :
    (poll_setup H table fds s).1 = none := by
  induction fds generalizing s with
  | nil => cases hp
  | cons q qs ih =>
    unfold poll_setup
    by_cases hq : q.fd < 0
    · have hne : p ≠ q := by
        intro h
        rw [h] at hfd
        omega
      have hmem : p ∈ qs := by
        rcases List.mem_cons.mp hp with h | h
        · exact absurd h hne
        · exact h
      simp only [if_pos hq]
      exact ih hmem s
    · simp only [if_neg hq]
      by_cases hqb : q.fd.toNat ≥ table.length ∨ table.getD q.fd.toNat (-1) = -1
      · simp only [if_pos hqb]
      · simp only [if_neg hqb]
        have hne : p ≠ q := by
          intro h
          rw [h] at hbad
          exact hqb hbad
        have hmem : p ∈ qs := by
          rcases List.mem_cons.mp hp with h | h
          · exact absurd h hne
          · exact h
        exact ih hmem _

/-- When the first loop of `simplelink_poll` runs to its end it has cleared
`revents` in every entry and changed nothing else in them. -/
theorem poll_setup_some (H : Hdr) (table : List Int) (fds : List pollfd) (s sets : PollSets)
    (h : (poll_setup H table fds s).1 = some sets) :
    (poll_setup H table fds s).2 = fds.map (fun p => { p with revents := 0 }) := by
  induction fds generalizing s with
  | nil => simp [poll_setup]
  | cons q qs ih =>
    unfold poll_setup at h ⊢
    by_cases hq : q.fd < 0
    · simp only [if_pos hq] at h ⊢
      simp [ih s h]
    · simp only [if_neg hq] at h ⊢
      by_cases hqb : q.fd.toNat ≥ table.length ∨ table.getD q.fd.toNat (-1) = -1
      · simp only [if_pos hqb] at h
        cases h
      · simp only [if_neg hqb] at h ⊢
        rw [ih _ h]
        rfl

/-- The two ways through `simplelink_poll`: it fails with `EINVAL` before any
call, or it makes the one call `sl_Select` with the converted timeout, returns
a positive count as it is, and then holds the entries rebuilt by the second
loop from the sets the call left. -/
theorem simplelink_poll_spec (H : Hdr) (N : Env) (w : World) (fds : List pollfd)
    (msecs : Int) :
    ((simplelink_poll H N w fds msecs).1 = -1 ∧
      (simplelink_poll H N w fds msecs).2.2.errno = H.err.EINVAL ∧
      (simplelink_poll H N w fds msecs).2.2.trace = w.trace) ∨
    (∃ n rs ws ret ro wo,
      (simplelink_poll H N w fds msecs).2.2.trace
        = w.trace ++ [Call.sl_Select n rs ws (poll_timeout H msecs) ret ro wo] ∧
      (0 < ret →
        (simplelink_poll H N w fds msecs).1 = ret ∧
        (simplelink_poll H N w fds msecs).2.1
          = fds.map (fun p =>
              poll_result H w.simplelink_offload_fd ro wo { p with revents := 0 }))) := by
  unfold simplelink_poll
  by_cases hlen : (fds.length : Int) > H.poll.SL_FD_SETSIZE
  · left
    simp [hlen, slcb_SetErrno]
  · simp only [if_neg hlen]
    cases hs : (poll_setup H w.simplelink_offload_fd fds
        { rfds := SL_SOCKET_FD_ZERO, wfds := SL_SOCKET_FD_ZERO, max_fd := 0 }).1 with
    | none =>
      left
      simp [slcb_SetErrno]
    | some sets =>
      right
      simp only [sl_Select, World.call]
      generalize N.sl_Select w.trace (sets.max_fd + 1) sets.rfds sets.wfds
        (poll_timeout H msecs) = r
      obtain ⟨-, h2, -, h4⟩ := exit_errno_spec H
        { w with
          trace := w.trace ++ [Call.sl_Select (sets.max_fd + 1) sets.rfds sets.wfds
            (poll_timeout H msecs) r.1 r.2.1 r.2.2] } r.1
      refine ⟨_, _, _, r.1, r.2.1, r.2.2, h2, ?_⟩
      intro hpos
      refine ⟨h4 (le_of_lt hpos), ?_⟩
      have hgt : r.1 > 0 := hpos
      simp only [if_pos hgt, poll_setup_some H _ fds _ sets hs, List.map_map]
      rfl

/-- C11: a poll list holding an entry whose descriptor is non-negative and either
beyond `simplelink_offload_fd` or unbound (slot -1) makes `simplelink_poll`
return -1 with `errno` set to `EINVAL` and without any call, `sl_Select`
included, whatever the other entries, the length of the list and the timeout
are. -/
theorem poll_rejects_unbound_descriptor (H : Hdr) (N : Env) (w : World)
    (fds : List pollfd) (msecs : Int) (p : pollfd) (hp : p ∈ fds) (hfd : 0 ≤ p.fd)
    (hbad : p.fd.toNat ≥ w.simplelink_offload_fd.length ∨
      w.simplelink_offload_fd.getD p.fd.toNat (-1) = -1) :
    (simplelink_poll H N w fds msecs).1 = -1 ∧
    (simplelink_poll H N w fds msecs).2.2.errno = H.err.EINVAL ∧
    calls_since w (simplelink_poll H N w fds msecs).2.2 = [] := by
  unfold simplelink_poll
  by_cases hlen : (fds.length : Int) > H.poll.SL_FD_SETSIZE
  · simp [hlen, slcb_SetErrno, calls_since]
  · simp only [if_neg hlen, poll_setup_none H _ fds p hp hfd hbad]
    simp [slcb_SetErrno, calls_since]

/-- Instance of C11 on the sample state: descriptor 3 is bound, descriptor 5 is
not. -/
theorem poll_rejects_unbound_descriptor_witness :
    (⟨5, 1, 0⟩ : pollfd) ∈ [(⟨3, 1, 0⟩ : pollfd), ⟨5, 1, 0⟩] ∧
    (simplelink_poll Hdr.cc32xx Env.ready World.sample [⟨3, 1, 0⟩, ⟨5, 1, 0⟩] 100).1 = -1 ∧
    (simplelink_poll Hdr.cc32xx Env.ready World.sample [⟨3, 1, 0⟩, ⟨5, 1, 0⟩] 100).2.2.errno
      = Hdr.cc32xx.err.EINVAL ∧
    calls_since World.sample
      (simplelink_poll Hdr.cc32xx Env.ready World.sample [⟨3, 1, 0⟩, ⟨5, 1, 0⟩] 100).2.2 = [] :=
  ⟨by decide,
    poll_rejects_unbound_descriptor Hdr.cc32xx Env.ready World.sample [⟨3, 1, 0⟩, ⟨5, 1, 0⟩]
      100 ⟨5, 1, 0⟩ (by decide) (by decide) (by decide)⟩

/-- C12: the timeout handed to `sl_Select` by `simplelink_poll` is the converted
one: null when `msecs` is `K_FOREVER`; otherwise `tv_sec = msecs / 1000` and
`tv_usec = (msecs % 1000) * 1000` with the truncating operators of C; and for
non-negative `msecs` these satisfy `0 <= tv_usec < 1000000` and
`tv_sec * 1000000 + tv_usec = msecs * 1000`. -/
theorem poll_timeout_conversion (H : Hdr) (N : Env) (w : World) (fds : List pollfd)
    (msecs : Int) :
    (∀ n rs ws t ret ro wo,
      Call.sl_Select n rs ws t ret ro wo ∈ calls_since w (simplelink_poll H N w fds msecs).2.2 →
      t = poll_timeout H msecs) ∧
    (msecs = H.poll.K_FOREVER → poll_timeout H msecs = none) ∧
    (msecs ≠ H.poll.K_FOREVER →
      poll_timeout H msecs = some (Int.tdiv msecs 1000, Int.tmod msecs 1000 * 1000)) ∧
    (0 ≤ msecs →
      0 ≤ Int.tmod msecs 1000 * 1000 ∧ Int.tmod msecs 1000 * 1000 < 1000000 ∧
      Int.tdiv msecs 1000 * 1000000 + Int.tmod msecs 1000 * 1000 = msecs * 1000) := by
  refine ⟨?_, ?_, ?_, ?_⟩
  · intro n rs ws t ret ro wo hm
    rcases simplelink_poll_spec H N w fds msecs with ⟨-, -, htr⟩ | ⟨n1, rs1, ws1, ret1, ro1, wo1, htr, -⟩
    · rw [calls_since_append w _ [] (by simp [htr])] at hm
      cases hm
    · rw [calls_since_append w _ _ htr] at hm
      simp only [List.mem_singleton, Call.sl_Select.injEq] at hm
      exact hm.2.2.2.1
  · intro h
    simp [poll_timeout, h]
  · intro h
    simp [poll_timeout, h, ONE_THOUSAND]
  · intro h
    have h1 := Int.tdiv_add_tmod msecs 1000
    have h2 : 0 ≤ Int.tmod msecs 1000 := Int.tmod_nonneg _ h
    have h3 : Int.tmod msecs 1000 < 1000 := Int.tmod_lt_of_pos _ (by decide)
    omega

/-- Instances of C12 on the sample headers: 1500 ms and `K_FOREVER`. -/
theorem poll_timeout_conversion_witness :
    Call.sl_Select 8 [7] [] (some (1, 500000)) 1 [7] [] ∈ calls_since World.sample
      (simplelink_poll Hdr.cc32xx Env.ready World.sample [⟨3, 1, 0⟩] 1500).2.2 ∧
    some ((1 : Int), (500000 : Int)) = poll_timeout Hdr.cc32xx 1500 ∧
    poll_timeout Hdr.cc32xx (-1) = none ∧
    (0 ≤ Int.tmod 1500 1000 * 1000 ∧ Int.tmod 1500 1000 * 1000 < 1000000 ∧
      Int.tdiv 1500 1000 * 1000000 + Int.tmod 1500 1000 * 1000 = 1500 * 1000) :=
  ⟨by decide,
    (poll_timeout_conversion Hdr.cc32xx Env.ready World.sample [⟨3, 1, 0⟩] 1500).1
      8 [7] [] (some (1, 500000)) 1 [7] [] (by decide),
    (poll_timeout_conversion Hdr.cc32xx Env.ready World.sample [⟨3, 1, 0⟩] (-1)).2.1 rfl,
    (poll_timeout_conversion Hdr.cc32xx Env.ready World.sample [⟨3, 1, 0⟩] 1500).2.2.2
      (by decide)⟩

/-- Masking a union of two flag words with the first gives the first. -/
theorem lor_land_left (a b : Nat) : (a ||| b) &&& a = a := by
  apply Nat.eq_of_testBit_eq
  intro i
  rw [Nat.testBit_and, Nat.testBit_or]
  cases a.testBit i <;> cases b.testBit i <;> rfl

/-- Masking a union of two flag words with the second gives the second. -/
theorem lor_land_right (a b : Nat) : (a ||| b) &&& b = b := by
  rw [Nat.lor_comm]
  exact lor_land_left b a

/-- The second loop of `simplelink_poll` on an entry whose `revents` the first
loop cleared: the descriptor is kept; a negative descriptor keeps `revents` 0;
otherwise `POLLIN` is set exactly for a handle in the read set and `POLLOUT`
exactly for a handle in the write set, the two flags being non-zero and
disjoint. -/
theorem poll_result_cleared (H : Hdr) (table : List Int) (ro wo : SlFdSet_t) (p : pollfd)
    (hin : H.poll.POLLIN ≠ 0) (hout : H.poll.POLLOUT ≠ 0)
    (hdisj : H.poll.POLLIN &&& H.poll.POLLOUT = 0) :
    (poll_result H table ro wo { p with revents := 0 }).fd = p.fd ∧
    (p.fd < 0 → (poll_result H table ro wo { p with revents := 0 }).revents = 0) ∧
    (0 ≤ p.fd →
      ((poll_result H table ro wo { p with revents := 0 }).revents &&& H.poll.POLLIN
          = H.poll.POLLIN ↔ table.getD p.fd.toNat (-1) ∈ ro) ∧
      ((poll_result H table ro wo { p with revents := 0 }).revents &&& H.poll.POLLOUT
          = H.poll.POLLOUT ↔ table.getD p.fd.toNat (-1) ∈ wo)) := by
  have hdisj2 : H.poll.POLLOUT &&& H.poll.POLLIN = 0 := by
    rw [Nat.land_comm]
    exact hdisj
  unfold poll_result SL_SOCKET_FD_ISSET
  generalize table.getD p.fd.toNat (-1) = h
  by_cases hfd : p.fd ≥ 0
  · have hn : ¬ p.fd < 0 := not_lt.mpr hfd
    by_cases hr : h ∈ ro <;> by_cases hw : h ∈ wo <;>
      simp [hfd, hn, hr, hw, lor_land_left, lor_land_right, hdisj, hdisj2, Ne.symm hin,
        Ne.symm hout]
  · have hn : p.fd < 0 := not_le.mp hfd
    simp [hfd, hn, not_le.mpr hn]

/-- C13: when the `sl_Select` call made by `simplelink_poll` returns a positive
count, `simplelink_poll` returns that count and every entry keeps its
descriptor; an entry with a negative descriptor has `revents` 0; and an entry
with a non-negative descriptor has `POLLIN` set exactly when the handle in its
slot is in the read set the call left, and `POLLOUT` set exactly when that
handle is in the write set the call left. `POLLIN` and `POLLOUT` are non-zero
and share no bit. -/
theorem poll_reports_native_readiness (H : Hdr) (N : Env) (w : World) (fds : List pollfd)
    (msecs : Int) (hin : H.poll.POLLIN ≠ 0) (hout : H.poll.POLLOUT ≠ 0)
    (hdisj : H.poll.POLLIN &&& H.poll.POLLOUT = 0) :
    ∀ n rs ws t ret ro wo,
      Call.sl_Select n rs ws t ret ro wo ∈ calls_since w (simplelink_poll H N w fds msecs).2.2 → 0 < ret →
      (simplelink_poll H N w fds msecs).1 = ret ∧
      ∀ (i : Nat) (p : pollfd), fds[i]? = some p →
        ∃ q : pollfd, (simplelink_poll H N w fds msecs).2.1[i]? = some q ∧ q.fd = p.fd ∧
          (p.fd < 0 → q.revents = 0) ∧
          (0 ≤ p.fd →
            (q.revents &&& H.poll.POLLIN = H.poll.POLLIN ↔
              w.simplelink_offload_fd.getD p.fd.toNat (-1) ∈ ro) ∧
            (q.revents &&& H.poll.POLLOUT = H.poll.POLLOUT ↔
              w.simplelink_offload_fd.getD p.fd.toNat (-1) ∈ wo)) := by
  intro n rs ws t ret ro wo hm hpos
  rcases simplelink_poll_spec H N w fds msecs with
    ⟨-, -, htr⟩ | ⟨n1, rs1, ws1, ret1, ro1, wo1, htr, hres⟩
  · rw [calls_since_append w _ [] (by simp [htr])] at hm
    cases hm
  · rw [calls_since_append w _ _ htr] at hm
    simp only [List.mem_singleton, Call.sl_Select.injEq] at hm
    obtain ⟨-, -, -, -, hret, hro, hwo⟩ := hm
    subst hret hro hwo
    obtain ⟨h1, h2⟩ := hres hpos
    refine ⟨h1, ?_⟩
    intro i p hip
    refine ⟨poll_result H w.simplelink_offload_fd ro wo { p with revents := 0 }, ?_,
      poll_result_cleared H _ ro wo p hin hout hdisj⟩
    rw [h2, List.getElem?_map, hip]
    rfl

/-- Instance of C13 on the sample state: descriptor 3 (handle 7) polled for both
events next to an ignored entry, with `sl_Select` reporting handle 7 readable. -/
theorem poll_reports_native_readiness_witness :
    Hdr.cc32xx.poll.POLLIN ≠ 0 ∧ Hdr.cc32xx.poll.POLLOUT ≠ 0 ∧
    Hdr.cc32xx.poll.POLLIN &&& Hdr.cc32xx.poll.POLLOUT = 0 ∧
    Call.sl_Select 8 [7] [7] none 1 [7] [] ∈ calls_since World.sample
      (simplelink_poll Hdr.cc32xx Env.ready World.sample [⟨3, 5, 9⟩, ⟨-1, 1, 9⟩] (-1)).2.2 ∧
    (simplelink_poll Hdr.cc32xx Env.ready World.sample [⟨3, 5, 9⟩, ⟨-1, 1, 9⟩] (-1)).1 = 1 :=
  ⟨by decide, by decide, by decide, by decide,
    (poll_reports_native_readiness Hdr.cc32xx Env.ready World.sample
      [⟨3, 5, 9⟩, ⟨-1, 1, 9⟩] (-1) (by decide) (by decide) (by decide)
      8 [7] [7] none 1 [7] [] (by decide) (by decide)).1⟩

/-! ## Receive with flags: theorems -/

/-- C14: a `simplelink_recvfrom` call whose flags include `MSG_PEEK` (whatever
the other flags are) returns -1 with `errno` set to `ENOTSUP` and makes no call
at all: no native receive, no read and no write of the non-blocking option.
`ENOTSUP` is a non-zero constant. -/
theorem recv_peek_not_supported (H : Hdr) (N : Env) (w : World) (obj len : Nat)
    (flags : Int) (from_addr : Option sockaddr) (fromlen : Option Nat) (b : SlBufs)
    (nb_enabled : Int) (hpeek : Int.land flags H.opt.MSG_PEEK ≠ 0)
    (hne : H.err.ENOTSUP ≠ 0) :
    (simplelink_recvfrom H N w obj len flags from_addr fromlen b nb_enabled).retval = -1 ∧
    (simplelink_recvfrom H N w obj len flags from_addr fromlen b nb_enabled).world.errno = H.err.ENOTSUP ∧
    calls_since w (simplelink_recvfrom H N w obj len flags from_addr fromlen b nb_enabled).world = [] ∧
    (simplelink_recvfrom H N w obj len flags from_addr fromlen b nb_enabled).fault = false := by
  simp [simplelink_recvfrom, handle_recv_flags, hpeek, hne, slcb_SetErrno, calls_since]

/-- Instance of C14 on the sample state: `MSG_PEEK | MSG_DONTWAIT` on
descriptor 3. -/
theorem recv_peek_not_supported_witness :
    Int.land 66 Hdr.cc32xx.opt.MSG_PEEK ≠ 0 ∧ Hdr.cc32xx.err.ENOTSUP ≠ 0 ∧
    (simplelink_recvfrom Hdr.cc32xx (Env.stored 0 5) World.sample 3 100 66 none none
      SlBufs.zero 0).retval = -1 ∧
    (simplelink_recvfrom Hdr.cc32xx (Env.stored 0 5) World.sample 3 100 66 none none
      SlBufs.zero 0).world.errno = Hdr.cc32xx.err.ENOTSUP ∧
    calls_since World.sample
      (simplelink_recvfrom Hdr.cc32xx (Env.stored 0 5) World.sample 3 100 66 none none
        SlBufs.zero 0).world = [] ∧
    (simplelink_recvfrom Hdr.cc32xx (Env.stored 0 5) World.sample 3 100 66 none none
      SlBufs.zero 0).fault = false :=
  ⟨by decide, by decide,
    recv_peek_not_supported Hdr.cc32xx (Env.stored 0 5) World.sample 3 100 66 none none
      SlBufs.zero 0 (by decide) (by decide)⟩

/-- The stored non-blocking option after more calls. -/
theorem nonblocking_after_append (H : Hdr) (sd init : Int) (t l : List Call) :
    nonblocking_after H sd init (t ++ l)
      = l.foldl (nonblocking_step H sd) (nonblocking_after H sd init t) := by
  simp [nonblocking_after, List.foldl_append]

/-- With `MSG_DONTWAIT` and without `MSG_PEEK`, and the option read back as the
stored value: the capturing call of `handle_recv_flags` returns 0, captures the
stored value, makes no receive call, and leaves the option enabled. -/
theorem handle_recv_flags_set (H : Hdr) (N : Env) (w : World) (sd flags nb init : Int)
    (hpeek : Int.land flags H.opt.MSG_PEEK = 0)
    (hdw : Int.land flags H.opt.MSG_DONTWAIT ≠ 0)
    (hstore : ∀ trace, N.sl_GetSockOpt trace sd H.sock.SL_SOL_SOCKET
      H.sock.SL_SO_NONBLOCKING H.sock.sizeof_SlSockNonblocking_t
        = (0, nonblocking_after H sd init trace)) :
    ∃ pre : List Call,
      handle_recv_flags H N w sd flags true nb
        = (0, nonblocking_after H sd init w.trace, { w with trace := w.trace ++ pre }) ∧
      nonblocking_after H sd init (w.trace ++ pre) ≠ 0 ∧
      (∀ c ∈ pre, is_receive sd c = false) := by
  unfold handle_recv_flags
  simp only [hpeek, ne_eq, not_true_eq_false, if_false, hdw, not_false_eq_true, if_true,
    sl_GetSockOpt, sl_SetSockOpt, World.call, hstore]
  by_cases hv : nonblocking_after H sd init w.trace = 0
  · refine ⟨?pre1, ?heq1, ?hnz1, ?hrc1⟩
    case heq1 =>
      simp only [hv, if_true, List.append_assoc]
      exact rfl
    case hnz1 =>
      rw [nonblocking_after_append]
      simp [nonblocking_step]
    case hrc1 =>
      intro c hc
      simp only [List.mem_append, List.mem_singleton] at hc
      rcases hc with hc | hc <;> rw [hc] <;> rfl
  · refine ⟨?pre2, ?heq2, ?hnz2, ?hrc2⟩
    case heq2 =>
      simp only [hv, if_false]
      exact rfl
    case hnz2 =>
      rw [nonblocking_after_append]
      simpa [nonblocking_step] using hv
    case hrc2 =>
      intro c hc
      simp only [List.mem_singleton] at hc
      rw [hc]
      rfl

/-- With `MSG_DONTWAIT` and without `MSG_PEEK`, the restoring call of
`handle_recv_flags` writes the captured value back with one `sl_SetSockOpt`. -/
theorem handle_recv_flags_restore (H : Hdr) (N : Env) (w : World) (sd flags nb : Int)
    (hpeek : Int.land flags H.opt.MSG_PEEK = 0)
    (hdw : Int.land flags H.opt.MSG_DONTWAIT ≠ 0) :
    handle_recv_flags H N w sd flags false nb
      = (0, nb, { w with trace := w.trace ++
          [Call.sl_SetSockOpt sd H.sock.SL_SOL_SOCKET H.sock.SL_SO_NONBLOCKING nb
            H.sock.sizeof_SlSockNonblocking_t
            (N.sl_SetSockOpt w.trace sd H.sock.SL_SOL_SOCKET H.sock.SL_SO_NONBLOCKING nb
              H.sock.sizeof_SlSockNonblocking_t)] }) := by
  simp [handle_recv_flags, hpeek, hdw, sl_SetSockOpt, World.call]

/-- With neither `MSG_PEEK` nor `MSG_DONTWAIT`, `handle_recv_flags` does
nothing. -/
theorem handle_recv_flags_plain (H : Hdr) (N : Env) (w : World) (sd flags nb : Int)
    (set : Bool) (hpeek : Int.land flags H.opt.MSG_PEEK = 0)
    (hdw : Int.land flags H.opt.MSG_DONTWAIT = 0) :
    handle_recv_flags H N w sd flags set nb = (0, nb, w) := by
  simp [handle_recv_flags, hpeek, hdw]

/-- The trace of `simplelink_recvfrom` when its first `handle_recv_flags` call
returned 0, left the state `w1` and captured `nb`: one receive call on the
socket, then the calls of the second `handle_recv_flags` call. -/
theorem simplelink_recvfrom_trace (H : Hdr) (N : Env) (w w1 : World) (obj len : Nat)
    (flags nb : Int) (from_addr : Option sockaddr) (fromlen : Option Nat) (b : SlBufs)
    (nb_enabled : Int)
    (h1 : handle_recv_flags H N w (w.obj_sd obj) flags true nb_enabled = (0, nb, w1)) :
    ∃ (ev : Call) (w2 : World),
      is_receive (w.obj_sd obj) ev = true ∧ w2.trace = w1.trace ++ [ev] ∧
      (simplelink_recvfrom H N w obj len flags from_addr fromlen b nb_enabled).world.trace = (handle_recv_flags H N w2 (w.obj_sd obj) flags false nb).2.2.trace := by
  unfold simplelink_recvfrom
  simp only [h1, if_true]
  cases fromlen with
  | none =>
    refine ⟨_, (sl_Recv N w1 (w.obj_sd obj) len 0).2, ?_, rfl, ?_⟩
    · simp [is_receive]
    · simp only []
      split <;> simp [slcb_SetErrno]
  | some flen =>
    refine ⟨_, (sl_RecvFrom N w1 (w.obj_sd obj) len 0 (translate_z_to_sl_addrlen H.addr flen b).1
      ((translate_z_to_sl_addrlen H.addr flen b).2.deref (translate_z_to_sl_addrlen H.addr flen b).1)
      (translate_z_to_sl_addrlen H.addr flen b).2.sl_addrlen).2.2.2, ?_, rfl, ?_⟩
    · simp [is_receive]
    · simp only []
      split
      · split <;> rfl
      · simp [slcb_SetErrno]

/-- A receive call writes no socket option. -/
theorem is_set_option_of_is_receive (sd : Int) (c : Call) (h : is_receive sd c = true) :
    is_set_option c = false := by
  cases c <;> simp_all [is_receive, is_set_option]

/-- C15: for a `simplelink_recvfrom` call without `MSG_PEEK`. With
`MSG_DONTWAIT`, and the socket's non-blocking option a stored value that
`sl_GetSockOpt` reads back with status 0: exactly one receive call is made on
the socket, the option is enabled (non-zero) when it is made, and after the
call the option holds the value it held before the call, whatever that value
and whatever the receive call returns. With neither flag no call writes a
socket option. -/
theorem recv_dontwait_restores_nonblocking (H : Hdr) (N : Env) (w : World) (obj len : Nat)
    (flags : Int) (from_addr : Option sockaddr) (fromlen : Option Nat) (b : SlBufs)
    (nb_enabled init : Int) (hpeek : Int.land flags H.opt.MSG_PEEK = 0) :
    (Int.land flags H.opt.MSG_DONTWAIT ≠ 0 →
      (∀ trace, N.sl_GetSockOpt trace (w.obj_sd obj) H.sock.SL_SOL_SOCKET
        H.sock.SL_SO_NONBLOCKING H.sock.sizeof_SlSockNonblocking_t
          = (0, nonblocking_after H (w.obj_sd obj) init trace)) →
      (∃ pre ev post,
        calls_since w (simplelink_recvfrom H N w obj len flags from_addr fromlen b nb_enabled).world = pre ++ ev :: post ∧
        is_receive (w.obj_sd obj) ev = true ∧
        (∀ c ∈ pre ++ post, is_receive (w.obj_sd obj) c = false) ∧
        nonblocking_after H (w.obj_sd obj) init (w.trace ++ pre) ≠ 0) ∧
      nonblocking_after H (w.obj_sd obj) init (simplelink_recvfrom H N w obj len flags from_addr fromlen b nb_enabled).world.trace
        = nonblocking_after H (w.obj_sd obj) init w.trace) ∧
    (Int.land flags H.opt.MSG_DONTWAIT = 0 →
      ∀ c ∈ calls_since w (simplelink_recvfrom H N w obj len flags from_addr fromlen b nb_enabled).world, is_set_option c = false) := by
  constructor
  · intro hdw hstore
    obtain ⟨pre, hset, hnz, hnr⟩ :=
      handle_recv_flags_set H N w (w.obj_sd obj) flags nb_enabled init hpeek hdw hstore
    obtain ⟨ev, w2, hev, hw2, htr⟩ :=
      simplelink_recvfrom_trace H N w _ obj len flags _ from_addr fromlen b nb_enabled hset
    rw [handle_recv_flags_restore H N w2 _ flags _ hpeek hdw] at htr
    simp only [hw2, List.append_assoc] at htr
    refine ⟨⟨pre, ev, _, calls_since_append w _ _ htr, hev, ?_, hnz⟩, ?_⟩
    · intro c hc
      rcases List.mem_append.mp hc with hc | hc
      · exact hnr c hc
      · have hc2 : c = Call.sl_SetSockOpt (w.obj_sd obj) H.sock.SL_SOL_SOCKET
            H.sock.SL_SO_NONBLOCKING (nonblocking_after H (w.obj_sd obj) init w.trace)
            H.sock.sizeof_SlSockNonblocking_t
            (N.sl_SetSockOpt (w.trace ++ (pre ++ [ev])) (w.obj_sd obj) H.sock.SL_SOL_SOCKET
              H.sock.SL_SO_NONBLOCKING (nonblocking_after H (w.obj_sd obj) init w.trace)
              H.sock.sizeof_SlSockNonblocking_t) := by
          simpa using hc
        rw [hc2]
        rfl
    · rw [htr, nonblocking_after_append, List.foldl_append, List.foldl_append]
      simp [nonblocking_step]
  · intro hdw c hc
    obtain ⟨ev, w2, hev, hw2, htr⟩ :=
      simplelink_recvfrom_trace H N w w obj len flags nb_enabled from_addr fromlen b nb_enabled
        (handle_recv_flags_plain H N w _ flags _ true hpeek hdw)
    rw [handle_recv_flags_plain H N w2 _ flags _ false hpeek hdw] at htr
    simp only [hw2] at htr
    rw [calls_since_append w _ _ htr, List.mem_singleton] at hc
    rw [hc]
    exact is_set_option_of_is_receive _ ev hev

/-- Instances of C15 on the sample state, descriptor 3 (handle 7): a
`MSG_DONTWAIT` receive that fails on a blocking socket, and a plain receive. -/
theorem recv_dontwait_restores_nonblocking_witness :
    Int.land 64 Hdr.cc32xx.opt.MSG_PEEK = 0 ∧ Int.land 64 Hdr.cc32xx.opt.MSG_DONTWAIT ≠ 0 ∧
    nonblocking_after Hdr.cc32xx 7 0 (simplelink_recvfrom Hdr.cc32xx (Env.stored 0 (-11)) World.sample 3 100 64 none none
        SlBufs.zero 0).world.trace
      = nonblocking_after Hdr.cc32xx 7 0 World.sample.trace ∧
    Call.sl_Recv 7 100 0 5 ∈ calls_since World.sample (simplelink_recvfrom Hdr.cc32xx (Env.stored 1 5) World.sample 3 100 0 none none
        SlBufs.zero 0).world ∧
    is_set_option (Call.sl_Recv 7 100 0 5) = false :=
  ⟨by decide, by decide,
    ((recv_dontwait_restores_nonblocking Hdr.cc32xx (Env.stored 0 (-11)) World.sample 3 100 64
      none none SlBufs.zero 0 0 (by decide)).1 (by decide) (fun _ => rfl)).2,
    by decide,
    (recv_dontwait_restores_nonblocking Hdr.cc32xx (Env.stored 1 5) World.sample 3 100 0
      none none SlBufs.zero 0 1 (by decide)).2 (by decide) _ (by decide)⟩

/-- C18: a `simplelink_recvfrom` call on descriptor 3 (handle 7) with a non-null
`fromlen` holding 5, which is neither structure size, does not fail with
`EINVAL`: it calls `sl_RecvFrom` with a null native address and the
uninitialised native length, returns what that call returned, leaves `errno`
alone, and then goes through the null native address. -/
theorem recvfrom_bad_fromlen_reaches_native_receive :
    calls_since World.sample (simplelink_recvfrom Hdr.cc32xx (Env.fixed 3 7 0) World.sample 3 100 0
        (some (.of_in ⟨0, 0, 0⟩)) (some 5) SlBufs.zero 0).world = [Call.sl_RecvFrom 7 100 0 .NULL 0 0] ∧
    (simplelink_recvfrom Hdr.cc32xx (Env.fixed 3 7 0) World.sample 3 100 0
        (some (.of_in ⟨0, 0, 0⟩)) (some 5) SlBufs.zero 0).retval = 0 ∧
    (simplelink_recvfrom Hdr.cc32xx (Env.fixed 3 7 0) World.sample 3 100 0
        (some (.of_in ⟨0, 0, 0⟩)) (some 5) SlBufs.zero 0).world.errno = 0 ∧
    (simplelink_recvfrom Hdr.cc32xx (Env.fixed 3 7 0) World.sample 3 100 0
        (some (.of_in ⟨0, 0, 0⟩)) (some 5) SlBufs.zero 0).fault = true := by
  decide

/-! ## Bind, connect and send: theorems -/

/-- A declared length equal to one of the two generic structure sizes makes
`translate_z_to_sl_addrs` return one of the two native buffers. -/
theorem translate_z_to_sl_addrs_valid (H : AddrHdr) (addr : sockaddr) (addrlen : Nat)
    (b : SlBufs)
    (hlen : addrlen = H.sizeof_sockaddr_in ∨ addrlen = H.sizeof_sockaddr_in6) :
    ∃ pointee : SlSockAddr_t,
      (translate_z_to_sl_addrs H addr addrlen b).2.deref
        (translate_z_to_sl_addrs H addr addrlen b).1 = some pointee := by
  unfold translate_z_to_sl_addrs
  by_cases h4 : addrlen = H.sizeof_sockaddr_in
  · simp only [if_pos h4]
    exact ⟨_, rfl⟩
  · have h6 : addrlen = H.sizeof_sockaddr_in6 := hlen.resolve_left h4
    simp only [if_neg h4, if_pos h6]
    exact ⟨_, rfl⟩

/-- C16: a `simplelink_connect` call with one of the two valid address lengths
makes exactly one call, `sl_Connect`. If that returns
`SL_ERROR_BSD_ESECDATEERROR` or `SL_ERROR_BSD_ESECUNKNOWNROOTCA` the call returns
0 and leaves `errno` as it was; for every other negative status it returns -1
with `errno` set to `getErrno` of the status; and, the two constants being
negative, for a non-negative status it returns the status and leaves `errno`. -/
theorem connect_security_statuses (H : Hdr) (N : Env) (w : World) (obj : Nat)
    (addr : sockaddr) (addrlen : Nat) (b : SlBufs)
    (hlen : addrlen = H.addr.sizeof_sockaddr_in ∨ addrlen = H.addr.sizeof_sockaddr_in6) :
    ∃ pointee sl_addrlen st,
      calls_since w (simplelink_connect H N w obj addr addrlen b).2 = [Call.sl_Connect (w.obj_sd obj) pointee sl_addrlen st] ∧
      (st = H.opt.SL_ERROR_BSD_ESECDATEERROR ∨ st = H.opt.SL_ERROR_BSD_ESECUNKNOWNROOTCA →
        (simplelink_connect H N w obj addr addrlen b).1 = 0 ∧ (simplelink_connect H N w obj addr addrlen b).2.errno = w.errno) ∧
      (st < 0 → st ≠ H.opt.SL_ERROR_BSD_ESECDATEERROR →
        st ≠ H.opt.SL_ERROR_BSD_ESECUNKNOWNROOTCA →
        (simplelink_connect H N w obj addr addrlen b).1 = -1 ∧ (simplelink_connect H N w obj addr addrlen b).2.errno = getErrno H.err st) ∧
      (H.opt.SL_ERROR_BSD_ESECDATEERROR < 0 → H.opt.SL_ERROR_BSD_ESECUNKNOWNROOTCA < 0 →
        0 ≤ st → (simplelink_connect H N w obj addr addrlen b).1 = st ∧ (simplelink_connect H N w obj addr addrlen b).2.errno = w.errno) := by
  obtain ⟨pointee, hp⟩ := translate_z_to_sl_addrs_valid H.addr addr addrlen b hlen
  simp only [simplelink_connect, hp, sl_Connect, World.call]
  generalize N.sl_Connect w.trace (w.obj_sd obj) pointee
    (translate_z_to_sl_addrs H.addr addr addrlen b).2.sl_addrlen = st
  refine ⟨pointee, (translate_z_to_sl_addrs H.addr addr addrlen b).2.sl_addrlen, st,
    ?_, ?_, ?_, ?_⟩
  · exact calls_since_append w _ _ (exit_errno_spec H _ _).2.1
  · intro hst
    have h0 : (if (if st = H.opt.SL_ERROR_BSD_ESECDATEERROR then 0 else st)
        = H.opt.SL_ERROR_BSD_ESECUNKNOWNROOTCA then (0 : Int)
        else if st = H.opt.SL_ERROR_BSD_ESECDATEERROR then 0 else st) = 0 := by
      by_cases hd : st = H.opt.SL_ERROR_BSD_ESECDATEERROR
      · rw [if_pos hd]
        exact ite_self 0
      · rw [if_neg hd, if_pos (hst.resolve_left hd)]
    rw [h0]
    simp [exit_errno]
  · intro hlt hd hr
    simp [hd, hr, exit_errno, hlt, slcb_SetErrno]
  · intro hd hr hge
    have h1 : st ≠ H.opt.SL_ERROR_BSD_ESECDATEERROR := by omega
    have h2 : st ≠ H.opt.SL_ERROR_BSD_ESECUNKNOWNROOTCA := by omega
    simp [h1, h2, exit_errno, not_lt.mpr hge]

/-- Instances of C16 on the sample state: the certificate-date status, another
negative status, and success. -/
theorem connect_security_statuses_witness :
    (simplelink_connect Hdr.cc32xx
        { Env.fixed 3 7 0 with sl_Connect := fun _ _ _ _ => -461 } World.sample 3
        (.of_in ⟨1, 80, 7⟩) 8 SlBufs.zero).1 = 0 ∧
    (simplelink_connect Hdr.cc32xx
        { Env.fixed 3 7 0 with sl_Connect := fun _ _ _ _ => -111 } World.sample 3
        (.of_in ⟨1, 80, 7⟩) 8 SlBufs.zero) = (-1, { World.sample with
          errno := 111, trace := [Call.sl_Connect 7 (.of_in ⟨2, 80, 7⟩) 16 (-111)] }) ∧
    (∃ pointee sl_addrlen st,
      calls_since World.sample (simplelink_connect Hdr.cc32xx (Env.fixed 3 7 0) World.sample 3
        (.of_in ⟨1, 80, 7⟩) 8 SlBufs.zero).2
        = [Call.sl_Connect (World.sample.obj_sd 3) pointee sl_addrlen st]) :=
  ⟨by decide, by decide,
    (connect_security_statuses Hdr.cc32xx (Env.fixed 3 7 0) World.sample 3
      (.of_in ⟨1, 80, 7⟩) 8 SlBufs.zero (Or.inl rfl)).imp
      (fun _ h => h.imp (fun _ h => h.imp (fun _ h => h.1)))⟩

/-- With the case labels of `getErrno` negative and pairwise distinct, the
epilogue turns `SL_RET_CODE_INVALID_INPUT` into -1 with `errno` set to
`EINVAL`. -/
theorem exit_errno_invalid_input (H : Hdr) (w : World)
    (hneg : ∀ l ∈ getErrno_labels H.err, l < 0) (hnd : (getErrno_labels H.err).Nodup) :
    exit_errno H w H.err.SL_RET_CODE_INVALID_INPUT = (-1, { w with errno := H.err.EINVAL }) := by
  have hc : (⟨true, H.err.SL_RET_CODE_INVALID_INPUT, H.err.EINVAL⟩ : SwitchCase)
      ∈ getErrno_cases H.err := List.getElem?_mem (n := 24) rfl
  have hlt : H.err.SL_RET_CODE_INVALID_INPUT < 0 :=
    hneg _ (List.mem_map.mpr ⟨_, hc, rfl⟩)
  have hg := getErrno_of_case H.err hneg hnd _ hc (by simp)
  simp only [] at hg
  simp [exit_errno, hlt, slcb_SetErrno, hg]

/-- A declared length equal to neither generic structure size makes
`translate_z_to_sl_addrs` return `NULL`. -/
theorem translate_z_to_sl_addrs_null (H : AddrHdr) (addr : sockaddr) (addrlen : Nat)
    (b : SlBufs) (h4 : addrlen ≠ H.sizeof_sockaddr_in) (h6 : addrlen ≠ H.sizeof_sockaddr_in6) :
    (translate_z_to_sl_addrs H addr addrlen b).2.deref
      (translate_z_to_sl_addrs H addr addrlen b).1 = none := by
  simp [translate_z_to_sl_addrs, h4, h6, SlBufs.deref]

/-- C17: with the case labels of `getErrno` negative and pairwise distinct, a
non-null address with a declared length equal to neither
`sizeof(struct sockaddr_in)` nor `sizeof(struct sockaddr_in6)` makes
`simplelink_bind`, `simplelink_connect`, `simplelink_sendto` (the address being
the destination) and `simplelink_accept` return -1 with `errno` set to `EINVAL`
and without any call, the native operation included. -/
theorem invalid_address_length_rejected (H : Hdr) (N : Env) (w : World) (obj len : Nat)
    (flags : Int) (addr : sockaddr) (addrlen : Nat) (b : SlBufs)
    (hneg : ∀ l ∈ getErrno_labels H.err, l < 0) (hnd : (getErrno_labels H.err).Nodup)
    (h4 : addrlen ≠ H.addr.sizeof_sockaddr_in) (h6 : addrlen ≠ H.addr.sizeof_sockaddr_in6) :
    rejected_einval H w (simplelink_bind H N w obj (some addr) addrlen b) ∧
    rejected_einval H w (simplelink_connect H N w obj addr addrlen b) ∧
    rejected_einval H w (simplelink_sendto H N w obj len flags (some addr) addrlen b) ∧
    rejected_einval H w
      ((simplelink_accept H N w obj (some addr) (some addrlen) b).1,
        (simplelink_accept H N w obj (some addr) (some addrlen) b).2.2.2) := by
  have hnull := translate_z_to_sl_addrs_null H.addr addr addrlen b h4 h6
  have hexit := exit_errno_invalid_input H w hneg hnd
  refine ⟨?_, ?_, ?_, ?_⟩
  · simp [rejected_einval, simplelink_bind, hnull, hexit, calls_since]
  · simp [rejected_einval, simplelink_connect, hnull, hexit, calls_since]
  · simp [rejected_einval, simplelink_sendto, hnull, hexit, calls_since]
  · simp [rejected_einval, simplelink_accept, translate_z_to_sl_addrlen, h4, h6, SlBufs.deref,
      hexit, calls_since]

/-- Instance of C17 on the sample state: declared length 5 on descriptor 3. -/
theorem invalid_address_length_rejected_witness :
    (∀ l ∈ getErrno_labels Hdr.cc32xx.err, l < 0) ∧ (getErrno_labels Hdr.cc32xx.err).Nodup ∧
    (5 : Nat) ≠ Hdr.cc32xx.addr.sizeof_sockaddr_in ∧
    (5 : Nat) ≠ Hdr.cc32xx.addr.sizeof_sockaddr_in6 ∧
    rejected_einval Hdr.cc32xx World.sample
      (simplelink_bind Hdr.cc32xx (Env.fixed 3 7 0) World.sample 3 (some (.of_in ⟨1, 80, 7⟩)) 5
        SlBufs.zero) ∧
    rejected_einval Hdr.cc32xx World.sample
      (simplelink_connect Hdr.cc32xx (Env.fixed 3 7 0) World.sample 3 (.of_in ⟨1, 80, 7⟩) 5
        SlBufs.zero) :=
  ⟨by decide, by decide, by decide, by decide,
    (invalid_address_length_rejected Hdr.cc32xx (Env.fixed 3 7 0) World.sample 3 100 0
      (.of_in ⟨1, 80, 7⟩) 5 SlBufs.zero (by decide) (by decide) (by decide) (by decide)).1,
    (invalid_address_length_rejected Hdr.cc32xx (Env.fixed 3 7 0) World.sample 3 100 0
      (.of_in ⟨1, 80, 7⟩) 5 SlBufs.zero (by decide) (by decide) (by decide) (by decide)).2.1⟩

/-! ## Socket options: theorems -/

/-- C19: with TLS socket options enabled and the option name `TLS_PEER_VERIFY`
distinct from `TLS_SEC_TAG_LIST` and `TLS_HOSTNAME`, a `simplelink_setsockopt`
call at level `SOL_TLS` for `TLS_PEER_VERIFY` returns 0 exactly when `optval` is
non-null and the 32-bit value behind it is 2; for a non-null `optval` holding
another value it returns -1 with `errno` set to `ENOTSUP`; for a null `optval`
it returns -1 with `errno` set to `EINVAL`; and it never makes a call. -/
theorem setsockopt_peer_verify (H : Hdr) (N : Env) (w : World) (obj : Nat)
    (optval : Option (List Int)) (optlen : Nat)
    (htls : H.sock.CONFIG_NET_SOCKETS_SOCKOPT_TLS = true)
    (h1 : H.opt.TLS_PEER_VERIFY ≠ H.opt.TLS_SEC_TAG_LIST)
    (h2 : H.opt.TLS_PEER_VERIFY ≠ H.opt.TLS_HOSTNAME) :
    ((simplelink_setsockopt H N w obj H.opt.SOL_TLS H.opt.TLS_PEER_VERIFY optval optlen).1 = 0 ↔ ∃ words, optval = some words ∧ words.headD 0 = 2) ∧
    (∀ words, optval = some words → words.headD 0 ≠ 2 →
      (simplelink_setsockopt H N w obj H.opt.SOL_TLS H.opt.TLS_PEER_VERIFY optval optlen).1 = -1 ∧ (simplelink_setsockopt H N w obj H.opt.SOL_TLS H.opt.TLS_PEER_VERIFY optval optlen).2.errno = H.err.ENOTSUP) ∧
    (optval = none → (simplelink_setsockopt H N w obj H.opt.SOL_TLS H.opt.TLS_PEER_VERIFY optval optlen).1 = -1 ∧ (simplelink_setsockopt H N w obj H.opt.SOL_TLS H.opt.TLS_PEER_VERIFY optval optlen).2.errno = H.err.EINVAL) ∧
    calls_since w (simplelink_setsockopt H N w obj H.opt.SOL_TLS H.opt.TLS_PEER_VERIFY optval optlen).2 = [] := by
  unfold simplelink_setsockopt
  simp only [htls, true_and, if_true, if_neg h1, if_neg h2]
  cases optval with
  | none => simp [slcb_SetErrno, calls_since]
  | some words =>
    simp only [Option.some.injEq, forall_eq', exists_eq_left', reduceCtorEq, false_implies,
      true_and, and_true]
    generalize words.headD 0 = v
    by_cases hv : v = 2
    · simp [hv, exit_errno, calls_since]
    · simp [hv, slcb_SetErrno, calls_since]

/-- Instances of C19 on the sample headers: the value 2, the value 1 and a null
`optval`. -/
theorem setsockopt_peer_verify_witness :
    Hdr.cc32xx.sock.CONFIG_NET_SOCKETS_SOCKOPT_TLS = true ∧
    Hdr.cc32xx.opt.TLS_PEER_VERIFY ≠ Hdr.cc32xx.opt.TLS_SEC_TAG_LIST ∧
    Hdr.cc32xx.opt.TLS_PEER_VERIFY ≠ Hdr.cc32xx.opt.TLS_HOSTNAME ∧
    (simplelink_setsockopt Hdr.cc32xx (Env.fixed 3 7 0) World.sample 3 Hdr.cc32xx.opt.SOL_TLS
      Hdr.cc32xx.opt.TLS_PEER_VERIFY (some [2]) 4).1 = 0 ∧
    ((simplelink_setsockopt Hdr.cc32xx (Env.fixed 3 7 0) World.sample 3 Hdr.cc32xx.opt.SOL_TLS
        Hdr.cc32xx.opt.TLS_PEER_VERIFY (some [1]) 4).1 = -1 ∧
      (simplelink_setsockopt Hdr.cc32xx (Env.fixed 3 7 0) World.sample 3 Hdr.cc32xx.opt.SOL_TLS
        Hdr.cc32xx.opt.TLS_PEER_VERIFY (some [1]) 4).2.errno = Hdr.cc32xx.err.ENOTSUP) ∧
    ((simplelink_setsockopt Hdr.cc32xx (Env.fixed 3 7 0) World.sample 3 Hdr.cc32xx.opt.SOL_TLS
        Hdr.cc32xx.opt.TLS_PEER_VERIFY none 0).1 = -1 ∧
      (simplelink_setsockopt Hdr.cc32xx (Env.fixed 3 7 0) World.sample 3 Hdr.cc32xx.opt.SOL_TLS
        Hdr.cc32xx.opt.TLS_PEER_VERIFY none 0).2.errno = Hdr.cc32xx.err.EINVAL) :=
  ⟨by decide, by decide, by decide,
    (setsockopt_peer_verify Hdr.cc32xx (Env.fixed 3 7 0) World.sample 3 (some [2]) 4
      (by decide) (by decide) (by decide)).1.mpr ⟨[2], rfl, rfl⟩,
    (setsockopt_peer_verify Hdr.cc32xx (Env.fixed 3 7 0) World.sample 3 (some [1]) 4
      (by decide) (by decide) (by decide)).2.1 [1] rfl (by decide),
    (setsockopt_peer_verify Hdr.cc32xx (Env.fixed 3 7 0) World.sample 3 none 0
      (by decide) (by decide) (by decide)).2.2.1 rfl⟩

/-- C20: outside the TLS level, a `simplelink_setsockopt` or
`simplelink_getsockopt` call whose option name is `SO_BROADCAST`, `SO_REUSEADDR`
or `SO_SNDBUF` (none of them being `TCP_NODELAY`) returns -1 with `errno` set to
`EINVAL` and makes no call, for every option buffer and length; the get variant
leaves the buffer and the length as they were. -/
theorem legacy_options_rejected (H : Hdr) (N : Env) (w : World) (obj : Nat)
    (level optname : Int) (optval : Option (List Int)) (optlen : Nat) (optlen_p : Option Nat)
    (hlevel : ¬ (H.sock.CONFIG_NET_SOCKETS_SOCKOPT_TLS = true ∧ level = H.opt.SOL_TLS))
    (hname : optname = SO_BROADCAST ∨ optname = H.opt.SO_REUSEADDR ∨ optname = SO_SNDBUF)
    (hnd : optname ≠ H.opt.TCP_NODELAY) :
    rejected_einval H w (simplelink_setsockopt H N w obj level optname optval optlen) ∧
    rejected_einval H w
      ((simplelink_getsockopt H N w obj level optname optval optlen_p).1,
        (simplelink_getsockopt H N w obj level optname optval optlen_p).2.2.2) ∧
    (simplelink_getsockopt H N w obj level optname optval optlen_p).2.1 = optval ∧
    (simplelink_getsockopt H N w obj level optname optval optlen_p).2.2.1 = optlen_p := by
  unfold simplelink_setsockopt simplelink_getsockopt rejected_einval
  simp only [if_neg hlevel, if_neg hnd, if_pos hname, hnd, false_and, if_false, false_or]
  simp [slcb_SetErrno, calls_since]

/-- Instance of C20 on the sample headers: `SO_SNDBUF` at level 1. -/
theorem legacy_options_rejected_witness :
    ¬ (Hdr.cc32xx.sock.CONFIG_NET_SOCKETS_SOCKOPT_TLS = true ∧ (1 : Int) = Hdr.cc32xx.opt.SOL_TLS) ∧
    SO_SNDBUF ≠ Hdr.cc32xx.opt.TCP_NODELAY ∧
    rejected_einval Hdr.cc32xx World.sample
      (simplelink_setsockopt Hdr.cc32xx (Env.fixed 3 7 0) World.sample 3 1 SO_SNDBUF
        (some [4096]) 4) :=
  ⟨by decide, by decide,
    (legacy_options_rejected Hdr.cc32xx (Env.fixed 3 7 0) World.sample 3 1 SO_SNDBUF
      (some [4096]) 4 (some 4) (by decide) (Or.inr (Or.inr rfl)) (by decide)).1⟩

/-! ## Message send and poll takeover: theorems -/

/-- C21 (evaluation at the failing input): `simplelink_sendmsg` on descriptor
object 3 returns -1 and leaves `errno` at -134, the negated `ENOTSUP`, where
every other failure of the driver stores the positive code. -/
theorem sendmsg_stores_negated_errno :
    Hdr.cc32xx.err.ENOTSUP = 134
    ∧ (simplelink_sendmsg Hdr.cc32xx World.sample 3 0).1 = -1
    ∧ (simplelink_sendmsg Hdr.cc32xx World.sample 3 0).2.errno = -134 := by
  decide

/-- C22 (evaluation at the failing input): with the tag list 1, 2, where the
native call refuses the CA certificate of tag 1 with status -12 and accepts the
private key of tag 2, `simplelink_setsockopt(SOL_TLS, TLS_SEC_TAG_LIST)` returns
0 and leaves `errno` untouched: the `break` after the refusal leaves only the
inner loop, and the next tag overwrites `retval`. -/
theorem sec_tag_failure_overwritten_by_later_tag :
    simplelink_setsockopt Hdr.cc32xx Env.refused World.sample 3
        Hdr.cc32xx.opt.SOL_TLS Hdr.cc32xx.opt.TLS_SEC_TAG_LIST (some [1, 2]) 8
      = (0, { World.sample with
          trace := [Call.sl_SetSockOpt_buf 7 1 32 (some [99]) 1 (-12),
                    Call.sl_SetSockOpt_buf 7 1 30 (some [107]) 1 0] }) := by
  decide

/-- C24: `simplelink_poll_takeover` never reads the table outside its bounds,
and it returns true exactly when some entry of the list has a descriptor `fd`
with `0 <= fd < ARRAY_SIZE(simplelink_offload_fd)` whose slot is not -1. -/
theorem poll_takeover_iff_bound_entry (table : List Int) (fds : List pollfd) :
    ∃ b, simplelink_poll_takeover table fds = some b
      ∧ (b = true ↔ ∃ p ∈ fds, 0 ≤ p.fd ∧ p.fd.toNat < table.length
          ∧ table.getD p.fd.toNat (-1) ≠ -1) := by
  induction fds with
  | nil => exact ⟨false, rfl, by simp⟩
  | cons p ps ih =>
    obtain ⟨b, hb, hiff⟩ := ih
    unfold simplelink_poll_takeover
    by_cases hg : p.fd.toNat ≥ table.length ∨ p.fd < 0
    · rw [if_pos hg]
      refine ⟨b, hb, ?_⟩
      rw [hiff]
      constructor
      · rintro ⟨q, hq, h⟩
        exact ⟨q, List.mem_cons_of_mem _ hq, h⟩
      · rintro ⟨q, hq, h0, hlt, hs⟩
        rcases List.mem_cons.1 hq with rfl | hq
        · exact absurd hg (by omega)
        · exact ⟨q, hq, h0, hlt, hs⟩
    · rw [if_neg hg]
      have hlt : p.fd.toNat < table.length := by omega
      have h0 : 0 ≤ p.fd := by omega
      have hget : table[p.fd.toNat]? = some (table.getD p.fd.toNat (-1)) := by
        rw [List.getD_eq_getElem?_getD, List.getElem?_eq_getElem hlt]; rfl
      rw [hget]
      generalize hsd : table.getD p.fd.toNat (-1) = sd at *
      by_cases hs : sd ≠ -1
      · refine ⟨true, by simp [hs], ?_⟩
        simp only [true_iff]
        exact ⟨p, List.mem_cons_self _ _, h0, hlt, by rw [hsd]; exact hs⟩
      · refine ⟨b, by simp [hs, hb], ?_⟩
        rw [hiff]
        constructor
        · rintro ⟨q, hq, h⟩
          exact ⟨q, List.mem_cons_of_mem _ hq, h⟩
        · rintro ⟨q, hq, hq0, hqlt, hqs⟩
          rcases List.mem_cons.1 hq with rfl | hq
          · rw [hsd] at hqs; exact absurd hqs hs
          · exact ⟨q, hq, hq0, hqlt, hqs⟩

/-- Instance of C24 on the sample table: a negative descriptor, a descriptor
beyond the table, and descriptor 3, which is bound. -/
theorem poll_takeover_iff_bound_entry_witness :
    simplelink_poll_takeover World.sample.simplelink_offload_fd
        [⟨-1, 1, 0⟩, ⟨99, 1, 0⟩, ⟨3, 1, 0⟩] = some true ∧
    ∃ b, simplelink_poll_takeover World.sample.simplelink_offload_fd
        [⟨-1, 1, 0⟩, ⟨99, 1, 0⟩, ⟨3, 1, 0⟩] = some b
      ∧ (b = true ↔ ∃ p ∈ ([⟨-1, 1, 0⟩, ⟨99, 1, 0⟩, ⟨3, 1, 0⟩] : List pollfd),
          0 ≤ p.fd ∧ p.fd.toNat < World.sample.simplelink_offload_fd.length
          ∧ World.sample.simplelink_offload_fd.getD p.fd.toNat (-1) ≠ -1) :=
  ⟨by decide,
    poll_takeover_iff_bound_entry World.sample.simplelink_offload_fd
      [⟨-1, 1, 0⟩, ⟨99, 1, 0⟩, ⟨3, 1, 0⟩]⟩

/-- A handle found in the sets that the first loop of `simplelink_poll` built
was in them before the loop, or was placed there for an entry of the list that
is bound to it and requested the flag of the set. -/
theorem poll_setup_placed (H : Hdr) (table : List Int) (fds : List pollfd) (s sets : PollSets)
    (h : (poll_setup H table fds s).1 = some sets) :
    (∀ x ∈ sets.rfds, x ∈ s.rfds ∨ ∃ p ∈ fds, 0 ≤ p.fd ∧ table.getD p.fd.toNat (-1) = x
        ∧ p.events &&& H.poll.POLLIN ≠ 0) ∧
    (∀ x ∈ sets.wfds, x ∈ s.wfds ∨ ∃ p ∈ fds, 0 ≤ p.fd ∧ table.getD p.fd.toNat (-1) = x
        ∧ p.events &&& H.poll.POLLOUT ≠ 0) := by
  induction fds generalizing s with
  | nil =>
    simp only [poll_setup, Option.some.injEq] at h
    subst h
    exact ⟨fun x hx => Or.inl hx, fun x hx => Or.inl hx⟩
  | cons q qs ih =>
    unfold poll_setup at h
    by_cases hq : q.fd < 0
    · simp only [if_pos hq] at h
      obtain ⟨hr, hw⟩ := ih s h
      refine ⟨fun x hx => ?_, fun x hx => ?_⟩
      · rcases hr x hx with h1 | ⟨p, hp, h2⟩
        · exact Or.inl h1
        · exact Or.inr ⟨p, List.mem_cons_of_mem _ hp, h2⟩
      · rcases hw x hx with h1 | ⟨p, hp, h2⟩
        · exact Or.inl h1
        · exact Or.inr ⟨p, List.mem_cons_of_mem _ hp, h2⟩
    · simp only [if_neg hq] at h
      by_cases hqb : q.fd.toNat ≥ table.length ∨ table.getD q.fd.toNat (-1) = -1
      · simp only [if_pos hqb] at h
        cases h
      · simp only [if_neg hqb] at h
        obtain ⟨hr, hw⟩ := ih _ h
        refine ⟨fun x hx => ?_, fun x hx => ?_⟩
        · rcases hr x hx with h1 | ⟨p, hp, h2⟩
          · by_cases he : q.events &&& H.poll.POLLIN ≠ 0
            · rw [if_pos he] at h1
              rcases List.mem_cons.1 h1 with h1 | h1
              · exact Or.inr ⟨q, List.mem_cons_self _ _, not_lt.1 hq, h1.symm, he⟩
              · exact Or.inl h1
            · rw [if_neg he] at h1
              exact Or.inl h1
          · exact Or.inr ⟨p, List.mem_cons_of_mem _ hp, h2⟩
        · rcases hw x hx with h1 | ⟨p, hp, h2⟩
          · by_cases he : q.events &&& H.poll.POLLOUT ≠ 0
            · rw [if_pos he] at h1
              rcases List.mem_cons.1 h1 with h1 | h1
              · exact Or.inr ⟨q, List.mem_cons_self _ _, not_lt.1 hq, h1.symm, he⟩
              · exact Or.inl h1
            · rw [if_neg he] at h1
              exact Or.inl h1
          · exact Or.inr ⟨p, List.mem_cons_of_mem _ hp, h2⟩

/-- A call of `simplelink_poll` that reached `sl_Select`: the first loop ran to
its end, the call got the sets that loop built, and the entries afterwards are
the cleared ones, run through the second loop when the count is positive. -/
theorem simplelink_poll_accepted (H : Hdr) (N : Env) (w : World) (fds : List pollfd)
    (msecs : Int) (n : Int) (rs ws : SlFdSet_t) (t : Option (Int × Int)) (ret : Int)
    (ro wo : SlFdSet_t)
    (hm : Call.sl_Select n rs ws t ret ro wo
      ∈ calls_since w (simplelink_poll H N w fds msecs).2.2) :
    ∃ sets, (poll_setup H w.simplelink_offload_fd fds
        { rfds := SL_SOCKET_FD_ZERO, wfds := SL_SOCKET_FD_ZERO, max_fd := 0 }).1 = some sets
      ∧ rs = sets.rfds ∧ ws = sets.wfds
      ∧ (simplelink_poll H N w fds msecs).2.1
        = fds.map (fun p =>
            if ret > 0 then poll_result H w.simplelink_offload_fd ro wo { p with revents := 0 }
            else { p with revents := 0 }) := by
  unfold simplelink_poll at hm ⊢
  by_cases hlen : (fds.length : Int) > H.poll.SL_FD_SETSIZE
  · simp [hlen, slcb_SetErrno, calls_since] at hm
  · simp only [if_neg hlen] at hm ⊢
    cases hs : (poll_setup H w.simplelink_offload_fd fds
        { rfds := SL_SOCKET_FD_ZERO, wfds := SL_SOCKET_FD_ZERO, max_fd := 0 }).1 with
    | none =>
      simp [hs, slcb_SetErrno, calls_since] at hm
    | some sets =>
      simp only [hs, sl_Select, World.call] at hm ⊢
      generalize N.sl_Select w.trace (sets.max_fd + 1) sets.rfds sets.wfds
        (poll_timeout H msecs) = r at hm ⊢
      have htr := (exit_errno_spec H
        { w with
          trace := w.trace ++ [Call.sl_Select (sets.max_fd + 1) sets.rfds sets.wfds
            (poll_timeout H msecs) r.1 r.2.1 r.2.2] } r.1).2.1
      rw [calls_since_append w _ _ htr] at hm
      simp only [List.mem_singleton, Call.sl_Select.injEq] at hm
      obtain ⟨-, hrs, hws, -, hret, hro, hwo⟩ := hm
      subst hret hro hwo
      refine ⟨sets, rfl, hrs, hws, ?_⟩
      rw [poll_setup_some H _ fds _ sets hs]
      by_cases hpos : r.1 > 0
      · simp only [if_pos hpos, List.map_map]
        rfl
      · simp only [if_neg hpos]

/-- The second loop of `simplelink_poll` on a cleared entry keeps the descriptor
and the requested events, and builds `revents` from `POLLIN` and `POLLOUT`
alone. -/
theorem poll_result_flags (H : Hdr) (table : List Int) (ro wo : SlFdSet_t) (p : pollfd) :
    (poll_result H table ro wo { p with revents := 0 }).fd = p.fd ∧
    (poll_result H table ro wo { p with revents := 0 }).events = p.events ∧
    (poll_result H table ro wo { p with revents := 0 }).revents
      = (if decide (0 ≤ p.fd ∧ table.getD p.fd.toNat (-1) ∈ ro) = true then H.poll.POLLIN else 0)
        ||| (if decide (0 ≤ p.fd ∧ table.getD p.fd.toNat (-1) ∈ wo) = true then H.poll.POLLOUT
          else 0) := by
  unfold poll_result SL_SOCKET_FD_ISSET
  generalize table.getD p.fd.toNat (-1) = h
  by_cases hfd : p.fd ≥ 0
  · have h0 : 0 ≤ p.fd := hfd
    by_cases hr : h ∈ ro <;> by_cases hw : h ∈ wo <;> simp [hfd, h0, hr, hw]
  · have hn : ¬ 0 ≤ p.fd := hfd
    simp [hfd, hn]

/-- C23 (counterexample): the list holds descriptor 3 twice, first requesting
`POLLIN` (1) and then `POLLOUT` (4). `sl_Select` leaves in its sets only what
was placed there, handle 7 in both, and each entry ends with `revents` 5: the
first entry holds `POLLOUT`, which it did not request, and the second holds
`POLLIN`, which it did not request. -/
theorem poll_revents_beyond_own_request :
    simplelink_poll Hdr.cc32xx Env.echo World.sample [⟨3, 1, 0⟩, ⟨3, 4, 0⟩] 100
      = (2, [⟨3, 1, 5⟩, ⟨3, 4, 5⟩],
          { World.sample with
            trace := [Call.sl_Select 8 [7] [7] (some (0, 100000)) 2 [7] [7]] })
    ∧ 1 &&& Hdr.cc32xx.poll.POLLOUT = 0
    ∧ 5 &&& Hdr.cc32xx.poll.POLLOUT = Hdr.cc32xx.poll.POLLOUT
    ∧ 4 &&& Hdr.cc32xx.poll.POLLIN = 0
    ∧ 5 &&& Hdr.cc32xx.poll.POLLIN = Hdr.cc32xx.poll.POLLIN := by
  decide

/-- C23 (amended): for every poll list that `simplelink_poll` accepts, when
`sl_Select` leaves in its sets only handles that were placed there, each entry
keeps its descriptor and requested events, and its `revents` is built from
`POLLIN` and `POLLOUT` alone, `POLLIN` being there only if some entry of the
list bound to the same handle requested `POLLIN`, and `POLLOUT` only if some
entry bound to the same handle requested `POLLOUT`. A single-entry list that
requests only `POLLIN` ends with `revents` equal to `POLLIN` or 0. -/
theorem poll_revents_requested_on_handle (H : Hdr) (N : Env) (w : World) (fds : List pollfd)
    (msecs : Int) (n : Int) (rs ws : SlFdSet_t) (t : Option (Int × Int)) (ret : Int)
    (ro wo : SlFdSet_t)
    (hcall : Call.sl_Select n rs ws t ret ro wo
      ∈ calls_since w (simplelink_poll H N w fds msecs).2.2)
    (hro : ∀ x ∈ ro, x ∈ rs) (hwo : ∀ x ∈ wo, x ∈ ws) :
    ∃ g : pollfd → pollfd,
      (simplelink_poll H N w fds msecs).2.1 = fds.map g ∧
      (∀ p ∈ fds, (g p).fd = p.fd ∧ (g p).events = p.events ∧
        ∃ rin rout : Bool,
          (g p).revents = (if rin = true then H.poll.POLLIN else 0)
            ||| (if rout = true then H.poll.POLLOUT else 0) ∧
          (rin = true → 0 ≤ p.fd ∧ ∃ q ∈ fds, 0 ≤ q.fd ∧
            w.simplelink_offload_fd.getD q.fd.toNat (-1)
              = w.simplelink_offload_fd.getD p.fd.toNat (-1) ∧
            q.events &&& H.poll.POLLIN ≠ 0) ∧
          (rout = true → 0 ≤ p.fd ∧ ∃ q ∈ fds, 0 ≤ q.fd ∧
            w.simplelink_offload_fd.getD q.fd.toNat (-1)
              = w.simplelink_offload_fd.getD p.fd.toNat (-1) ∧
            q.events &&& H.poll.POLLOUT ≠ 0)) ∧
      (∀ p, fds = [p] → p.events = H.poll.POLLIN → H.poll.POLLIN &&& H.poll.POLLOUT = 0 →
        (g p).revents = H.poll.POLLIN ∨ (g p).revents = 0) := by
  obtain ⟨sets, hs, hrs, hws, hres⟩ :=
    simplelink_poll_accepted H N w fds msecs n rs ws t ret ro wo hcall
  obtain ⟨hpr, hpw⟩ := poll_setup_placed H _ fds _ sets hs
  subst hrs hws
  have hin : ∀ p : pollfd, w.simplelink_offload_fd.getD p.fd.toNat (-1) ∈ ro →
      ∃ q ∈ fds, 0 ≤ q.fd ∧
        w.simplelink_offload_fd.getD q.fd.toNat (-1)
          = w.simplelink_offload_fd.getD p.fd.toNat (-1) ∧
        q.events &&& H.poll.POLLIN ≠ 0 := by
    intro p hp
    rcases hpr _ (hro _ hp) with h | h
    · cases h
    · exact h
  have hout : ∀ p : pollfd, w.simplelink_offload_fd.getD p.fd.toNat (-1) ∈ wo →
      ∃ q ∈ fds, 0 ≤ q.fd ∧
        w.simplelink_offload_fd.getD q.fd.toNat (-1)
          = w.simplelink_offload_fd.getD p.fd.toNat (-1) ∧
        q.events &&& H.poll.POLLOUT ≠ 0 := by
    intro p hp
    rcases hpw _ (hwo _ hp) with h | h
    · cases h
    · exact h
  refine ⟨_, hres, ?_, ?_⟩
  · intro p _
    by_cases hpos : ret > 0
    · simp only [if_pos hpos]
      obtain ⟨h1, h2, h3⟩ := poll_result_flags H w.simplelink_offload_fd ro wo p
      refine ⟨h1, h2, _, _, h3, ?_, ?_⟩
      · intro hb
        have hb := of_decide_eq_true hb
        exact ⟨hb.1, hin p hb.2⟩
      · intro hb
        have hb := of_decide_eq_true hb
        exact ⟨hb.1, hout p hb.2⟩
    · simp only [if_neg hpos]
      exact ⟨trivial, trivial, false, false, by simp, by simp, by simp⟩
  · intro p hfds hev hdisj
    by_cases hpos : ret > 0
    · simp only [if_pos hpos]
      obtain ⟨-, -, h3⟩ := poll_result_flags H w.simplelink_offload_fd ro wo p
      rw [h3]
      have hnow : ¬ (0 ≤ p.fd ∧ w.simplelink_offload_fd.getD p.fd.toNat (-1) ∈ wo) := by
        rintro ⟨-, hmem⟩
        obtain ⟨q, hq, -, -, hqe⟩ := hout p hmem
        rw [hfds] at hq
        rw [List.mem_singleton.1 hq, hev] at hqe
        exact hqe hdisj
      rw [decide_eq_false hnow]
      by_cases hr : 0 ≤ p.fd ∧ w.simplelink_offload_fd.getD p.fd.toNat (-1) ∈ ro
      · left
        rw [decide_eq_true hr]
        simp
      · right
        rw [decide_eq_false hr]
        simp
    · simp only [if_neg hpos]
      right
      trivial

/-- Instance of C23 (amended) on the sample state, with descriptor 3 listed
twice and `sl_Select` leaving both sets as it found them. -/
theorem poll_revents_requested_on_handle_witness :
    Call.sl_Select 8 [7] [7] (some (0, 100000)) 2 [7] [7]
      ∈ calls_since World.sample
        (simplelink_poll Hdr.cc32xx Env.echo World.sample [⟨3, 1, 0⟩, ⟨3, 4, 0⟩] 100).2.2
    ∧ (∀ x ∈ ([7] : SlFdSet_t), x ∈ ([7] : SlFdSet_t))
    ∧ ∃ g : pollfd → pollfd,
      (simplelink_poll Hdr.cc32xx Env.echo World.sample [⟨3, 1, 0⟩, ⟨3, 4, 0⟩] 100).2.1
        = ([⟨3, 1, 0⟩, ⟨3, 4, 0⟩] : List pollfd).map g ∧
      (∀ p ∈ ([⟨3, 1, 0⟩, ⟨3, 4, 0⟩] : List pollfd), (g p).fd = p.fd ∧ (g p).events = p.events ∧
        ∃ rin rout : Bool,
          (g p).revents = (if rin = true then Hdr.cc32xx.poll.POLLIN else 0)
            ||| (if rout = true then Hdr.cc32xx.poll.POLLOUT else 0) ∧
          (rin = true → 0 ≤ p.fd ∧ ∃ q ∈ ([⟨3, 1, 0⟩, ⟨3, 4, 0⟩] : List pollfd), 0 ≤ q.fd ∧
            World.sample.simplelink_offload_fd.getD q.fd.toNat (-1)
              = World.sample.simplelink_offload_fd.getD p.fd.toNat (-1) ∧
            q.events &&& Hdr.cc32xx.poll.POLLIN ≠ 0) ∧
          (rout = true → 0 ≤ p.fd ∧ ∃ q ∈ ([⟨3, 1, 0⟩, ⟨3, 4, 0⟩] : List pollfd), 0 ≤ q.fd ∧
            World.sample.simplelink_offload_fd.getD q.fd.toNat (-1)
              = World.sample.simplelink_offload_fd.getD p.fd.toNat (-1) ∧
            q.events &&& Hdr.cc32xx.poll.POLLOUT ≠ 0)) ∧
      (∀ p, ([⟨3, 1, 0⟩, ⟨3, 4, 0⟩] : List pollfd) = [p] → p.events = Hdr.cc32xx.poll.POLLIN →
        Hdr.cc32xx.poll.POLLIN &&& Hdr.cc32xx.poll.POLLOUT = 0 →
        (g p).revents = Hdr.cc32xx.poll.POLLIN ∨ (g p).revents = 0) :=
  ⟨by decide, by decide,
    poll_revents_requested_on_handle Hdr.cc32xx Env.echo World.sample [⟨3, 1, 0⟩, ⟨3, 4, 0⟩] 100
      8 [7] [7] (some (0, 100000)) 2 [7] [7] (by decide) (by decide) (by decide)⟩

/-! ## Socket creation and descriptor flags: theorems -/

/-- The epilogue makes no call. -/
theorem calls_since_exit_errno (H : Hdr) (w w1 : World) (retval : Int) :
    calls_since w (exit_errno H w1 retval).2 = calls_since w w1 := by
  unfold exit_errno slcb_SetErrno calls_since
  split <;> rfl

/-- C25: `simplelink_socket` returns -1 without any native call, with `errno`
set to `EAFNOSUPPORT` when `family` is neither `AF_INET` nor `AF_INET6`;
otherwise to `ESOCKTNOSUPPORT` when `type` is none of `SOCK_STREAM`,
`SOCK_DGRAM`, `SOCK_RAW`; otherwise to `EPROTONOSUPPORT` when `proto` is in the
DTLS range or is none of the TLS range, `IPPROTO_TCP`, `IPPROTO_UDP`. In every
other case `sl_Socket` is the first call and is called exactly once, with the
translated family, type and protocol, the protocol being `SL_SEC_SOCKET` for
the TLS range. The TLS and DTLS ranges share no value. -/
theorem socket_argument_validation (H : Hdr) (N : Env) (w : World) (family type proto : Int)
    (hdisj : ∀ p : Int,
      ¬ ((p ≥ H.sock.IPPROTO_TLS_1_0 ∧ p ≤ H.sock.IPPROTO_TLS_1_2) ∧
        (p ≥ H.sock.IPPROTO_DTLS_1_0 ∧ p ≤ H.sock.IPPROTO_DTLS_1_2))) :
    (family ≠ H.addr.AF_INET → family ≠ H.addr.AF_INET6 →
      (simplelink_socket H N w family type proto).1 = -1 ∧
      (simplelink_socket H N w family type proto).2.errno = H.err.EAFNOSUPPORT ∧
      calls_since w (simplelink_socket H N w family type proto).2 = []) ∧
    (family = H.addr.AF_INET ∨ family = H.addr.AF_INET6 →
      (type ≠ H.sock.SOCK_STREAM → type ≠ H.sock.SOCK_DGRAM → type ≠ H.sock.SOCK_RAW →
        (simplelink_socket H N w family type proto).1 = -1 ∧
        (simplelink_socket H N w family type proto).2.errno = H.err.ESOCKTNOSUPPORT ∧
        calls_since w (simplelink_socket H N w family type proto).2 = []) ∧
      (type = H.sock.SOCK_STREAM ∨ type = H.sock.SOCK_DGRAM ∨ type = H.sock.SOCK_RAW →
        ((proto ≥ H.sock.IPPROTO_DTLS_1_0 ∧ proto ≤ H.sock.IPPROTO_DTLS_1_2) ∨
            (¬ (proto ≥ H.sock.IPPROTO_TLS_1_0 ∧ proto ≤ H.sock.IPPROTO_TLS_1_2) ∧
              proto ≠ H.sock.IPPROTO_TCP ∧ proto ≠ H.sock.IPPROTO_UDP) →
          (simplelink_socket H N w family type proto).1 = -1 ∧
          (simplelink_socket H N w family type proto).2.errno = H.err.EPROTONOSUPPORT ∧
          calls_since w (simplelink_socket H N w family type proto).2 = []) ∧
        (¬ ((proto ≥ H.sock.IPPROTO_DTLS_1_0 ∧ proto ≤ H.sock.IPPROTO_DTLS_1_2) ∨
            (¬ (proto ≥ H.sock.IPPROTO_TLS_1_0 ∧ proto ≤ H.sock.IPPROTO_TLS_1_2) ∧
              proto ≠ H.sock.IPPROTO_TCP ∧ proto ≠ H.sock.IPPROTO_UDP)) →
          ∃ ret rest,
            calls_since w (simplelink_socket H N w family type proto).2
              = Call.sl_Socket
                  (if family = H.addr.AF_INET then (H.addr.SL_AF_INET : Int)
                    else (H.addr.SL_AF_INET6 : Int))
                  (if type = H.sock.SOCK_STREAM then H.sock.SL_SOCK_STREAM
                    else if type = H.sock.SOCK_DGRAM then H.sock.SL_SOCK_DGRAM
                    else H.sock.SL_SOCK_RAW)
                  (if proto ≥ H.sock.IPPROTO_TLS_1_0 ∧ proto ≤ H.sock.IPPROTO_TLS_1_2 then
                      H.sock.SL_SEC_SOCKET
                    else if proto = H.sock.IPPROTO_TCP then H.sock.SL_IPPROTO_TCP
                    else H.sock.SL_IPPROTO_UDP) ret :: rest ∧
            ∀ f t p h, Call.sl_Socket f t p h ∉ rest))) := by
  refine ⟨?_, ?_⟩
  · intro h4 h6
    simp [simplelink_socket, sl_family_of, h4, h6, slcb_SetErrno, calls_since]
  · intro hfam
    have hf : sl_family_of H family
        = some (if family = H.addr.AF_INET then (H.addr.SL_AF_INET : Int)
            else (H.addr.SL_AF_INET6 : Int)) := by
      unfold sl_family_of
      by_cases h4 : family = H.addr.AF_INET
      · rw [if_pos h4, if_pos h4]
      · rw [if_neg h4, if_neg h4, if_pos (hfam.resolve_left h4)]
    refine ⟨?_, ?_⟩
    · intro h1 h2 h3
      simp [simplelink_socket, hf, sl_type_of, h1, h2, h3, slcb_SetErrno, calls_since]
    · intro htype
      have ht : sl_type_of H type
          = some (if type = H.sock.SOCK_STREAM then H.sock.SL_SOCK_STREAM
              else if type = H.sock.SOCK_DGRAM then H.sock.SL_SOCK_DGRAM
              else H.sock.SL_SOCK_RAW) := by
        unfold sl_type_of
        by_cases h1 : type = H.sock.SOCK_STREAM
        · rw [if_pos h1, if_pos h1]
        · rw [if_neg h1, if_neg h1]
          by_cases h2 : type = H.sock.SOCK_DGRAM
          · rw [if_pos h2, if_pos h2]
          · rw [if_neg h2, if_neg h2, if_pos ((htype.resolve_left h1).resolve_left h2)]
      refine ⟨?_, ?_⟩
      · intro hbad
        have hp : sl_proto_of H proto = none := by
          unfold sl_proto_of
          rcases hbad with hd | ⟨hnt, hntcp, hnudp⟩
          · have hnt : ¬ (proto ≥ H.sock.IPPROTO_TLS_1_0 ∧ proto ≤ H.sock.IPPROTO_TLS_1_2) :=
              fun h => hdisj proto ⟨h, hd⟩
            rw [if_neg hnt, if_pos hd]
          · rw [if_neg hnt]
            by_cases hd : proto ≥ H.sock.IPPROTO_DTLS_1_0 ∧ proto ≤ H.sock.IPPROTO_DTLS_1_2
            · rw [if_pos hd]
            · rw [if_neg hd, if_neg hntcp, if_neg hnudp]
        simp [simplelink_socket, hf, ht, hp, slcb_SetErrno, calls_since]
      · intro hgood
        have hnd : ¬ (proto ≥ H.sock.IPPROTO_DTLS_1_0 ∧ proto ≤ H.sock.IPPROTO_DTLS_1_2) :=
          fun h => hgood (Or.inl h)
        have hp : sl_proto_of H proto
            = some (if proto ≥ H.sock.IPPROTO_TLS_1_0 ∧ proto ≤ H.sock.IPPROTO_TLS_1_2 then
                H.sock.SL_SEC_SOCKET
              else if proto = H.sock.IPPROTO_TCP then H.sock.SL_IPPROTO_TCP
              else H.sock.SL_IPPROTO_UDP) := by
          unfold sl_proto_of
          by_cases htls : proto ≥ H.sock.IPPROTO_TLS_1_0 ∧ proto ≤ H.sock.IPPROTO_TLS_1_2
          · rw [if_pos htls, if_pos htls]
          · rw [if_neg htls, if_neg htls, if_neg hnd]
            by_cases htcp : proto = H.sock.IPPROTO_TCP
            · rw [if_pos htcp, if_pos htcp]
            · rw [if_neg htcp, if_neg htcp]
              by_cases hudp : proto = H.sock.IPPROTO_UDP
              · rw [if_pos hudp]
              · exact absurd (Or.inr ⟨htls, htcp, hudp⟩) hgood
        generalize (if family = H.addr.AF_INET then (H.addr.SL_AF_INET : Int)
          else (H.addr.SL_AF_INET6 : Int)) = sl_family at hf ⊢
        generalize (if type = H.sock.SOCK_STREAM then H.sock.SL_SOCK_STREAM
          else if type = H.sock.SOCK_DGRAM then H.sock.SL_SOCK_DGRAM
          else H.sock.SL_SOCK_RAW) = sl_type at ht ⊢
        generalize (if proto ≥ H.sock.IPPROTO_TLS_1_0 ∧ proto ≤ H.sock.IPPROTO_TLS_1_2 then
            H.sock.SL_SEC_SOCKET
          else if proto = H.sock.IPPROTO_TCP then H.sock.SL_IPPROTO_TCP
          else H.sock.SL_IPPROTO_UDP) = sl_proto at hp ⊢
        simp only [simplelink_socket, hf, ht, hp, sl_Socket, sl_SetSockOpt, sl_Close,
          slcb_SetErrno, World.call]
        generalize N.sl_Socket w.trace sl_family sl_type sl_proto = sd
        split
        · split
          · refine ⟨sd, ?rest1, ?heq1, ?hno1⟩
            case heq1 =>
              refine calls_since_append w _ _ ?_
              simp only [List.append_assoc]
              exact rfl
            case hno1 =>
              intro f t p h hm
              simp at hm
          · rw [calls_since_exit_errno]
            refine ⟨sd, ?rest2, ?heq2, ?hno2⟩
            case heq2 =>
              refine calls_since_append w _ _ ?_
              simp only [List.append_assoc]
              exact rfl
            case hno2 =>
              intro f t p h hm
              simp at hm
        · rw [calls_since_exit_errno]
          refine ⟨sd, [], calls_since_append w _ _ rfl, ?_⟩
          intro f t p h hm
          cases hm

/-- Instance of C25 on the sample state: a TLS 1.2 stream socket over IPv4. -/
theorem socket_argument_validation_witness :
    (∀ p : Int,
      ¬ ((p ≥ Hdr.cc32xx.sock.IPPROTO_TLS_1_0 ∧ p ≤ Hdr.cc32xx.sock.IPPROTO_TLS_1_2) ∧
        (p ≥ Hdr.cc32xx.sock.IPPROTO_DTLS_1_0 ∧ p ≤ Hdr.cc32xx.sock.IPPROTO_DTLS_1_2))) ∧
    ∃ ret rest,
      calls_since World.sample (simplelink_socket Hdr.cc32xx (Env.fixed 3 7 0) World.sample 1 1 258).2
        = Call.sl_Socket 2 1 100 ret :: rest ∧
      ∀ f t p h, Call.sl_Socket f t p h ∉ rest :=
  ⟨fun p h => absurd (le_trans h.2.1 h.1.2) (by decide),
    ((socket_argument_validation Hdr.cc32xx (Env.fixed 3 7 0) World.sample 1 1 258
      (fun p h => absurd (le_trans h.2.1 h.1.2) (by decide))).2 (Or.inl rfl)).2 (Or.inl rfl)
      |>.2 (by decide)⟩

/-- Joining the flag word `O_NONBLOCK` into a zero status gives the flag word. -/
theorem lor_zero_left (x : Int) (h : 0 ≤ x) : Int.lor 0 x = x := by
  obtain ⟨n, rfl⟩ := Int.eq_ofNat_of_zero_le h
  show ((0 ||| n : Nat) : Int) = (n : Int)
  rw [Nat.zero_or]

/-- C26: with the non-blocking option of socket `sd` a stored value (set calls
succeed and store, get calls succeed and read it back), `simplelink_fcntl` with
`F_SETFL` and argument `a` followed by `F_GETFL` returns `O_NONBLOCK` when `a`
has the `O_NONBLOCK` bit set and 0 otherwise; every command other than
`F_GETFL` and `F_SETFL` returns -1 with `errno` set to `EINVAL` and makes no
call. The two commands are distinct and `O_NONBLOCK` is not negative. -/
theorem fcntl_round_trip (H : Hdr) (N : Env) (w : World) (sd a init : Int)
    (hne : H.sock.F_SETFL ≠ H.sock.F_GETFL) (hO : 0 ≤ H.sock.O_NONBLOCK)
    (hset : ∀ trace v, N.sl_SetSockOpt trace sd H.sock.SL_SOL_SOCKET H.sock.SL_SO_NONBLOCKING v
      H.sock.sizeof_SlSockNonblocking_t = 0)
    (hget : ∀ trace, N.sl_GetSockOpt trace sd H.sock.SL_SOL_SOCKET H.sock.SL_SO_NONBLOCKING
      H.sock.sizeof_SlSockNonblocking_t = (0, nonblocking_after H sd init trace)) :
    (simplelink_fcntl H N w sd H.sock.F_SETFL [a]).1 = 0 ∧
    (simplelink_fcntl H N (simplelink_fcntl H N w sd H.sock.F_SETFL [a]).2 sd
        H.sock.F_GETFL []).1
      = (if Int.land a H.sock.O_NONBLOCK ≠ 0 then H.sock.O_NONBLOCK else 0) ∧
    (∀ cmd args, cmd ≠ H.sock.F_GETFL → cmd ≠ H.sock.F_SETFL →
      (simplelink_fcntl H N w sd cmd args).1 = -1 ∧
      (simplelink_fcntl H N w sd cmd args).2.errno = H.err.EINVAL ∧
      calls_since w (simplelink_fcntl H N w sd cmd args).2 = []) := by
  have hsetfl : simplelink_fcntl H N w sd H.sock.F_SETFL [a]
      = (0, w.call (Call.sl_SetSockOpt sd H.sock.SL_SOL_SOCKET H.sock.SL_SO_NONBLOCKING
          (if Int.land a H.sock.O_NONBLOCK ≠ 0 then 1 else 0)
          H.sock.sizeof_SlSockNonblocking_t 0)) := by
    unfold simplelink_fcntl
    rw [if_neg hne, if_pos rfl]
    simp only [sl_SetSockOpt, hset, List.headD_cons, exit_errno]
    rfl
  refine ⟨by rw [hsetfl], ?_, ?_⟩
  · rw [hsetfl]
    unfold simplelink_fcntl
    rw [if_pos rfl]
    simp only [sl_GetSockOpt, hget, World.call, nonblocking_after_append, List.foldl_cons,
      List.foldl_nil, nonblocking_step, and_self, if_true, if_pos]
    by_cases hbit : Int.land a H.sock.O_NONBLOCK ≠ 0
    · simp only [if_pos hbit, lor_zero_left _ hO]
      have h1 : (1 : Int) ≠ 0 := by decide
      simp only [ne_eq, h1, not_false_eq_true, if_true]
      exact (exit_errno_spec H _ _).2.2.2 hO
    · simp only [if_neg hbit, ne_eq, not_true_eq_false, if_false]
      exact (exit_errno_spec H _ _).2.2.2 (le_refl 0)
  · intro cmd args h1 h2
    unfold simplelink_fcntl
    rw [if_neg h1, if_neg h2]
    simp [slcb_SetErrno, calls_since]

/-- Instance of C26 on the sample state: handle 7 is made non-blocking and the
flags are read back. -/
theorem fcntl_round_trip_witness :
    Hdr.cc32xx.sock.F_SETFL ≠ Hdr.cc32xx.sock.F_GETFL ∧ 0 ≤ Hdr.cc32xx.sock.O_NONBLOCK ∧
    (simplelink_fcntl Hdr.cc32xx (Env.stored 0 0) World.sample 7 Hdr.cc32xx.sock.F_SETFL
      [16384]).1 = 0 ∧
    (simplelink_fcntl Hdr.cc32xx (Env.stored 0 0)
        (simplelink_fcntl Hdr.cc32xx (Env.stored 0 0) World.sample 7 Hdr.cc32xx.sock.F_SETFL
          [16384]).2 7 Hdr.cc32xx.sock.F_GETFL []).1
      = (if Int.land 16384 Hdr.cc32xx.sock.O_NONBLOCK ≠ 0 then Hdr.cc32xx.sock.O_NONBLOCK
          else 0) ∧
    (∀ cmd args, cmd ≠ Hdr.cc32xx.sock.F_GETFL → cmd ≠ Hdr.cc32xx.sock.F_SETFL →
      (simplelink_fcntl Hdr.cc32xx (Env.stored 0 0) World.sample 7 cmd args).1 = -1 ∧
      (simplelink_fcntl Hdr.cc32xx (Env.stored 0 0) World.sample 7 cmd args).2.errno
        = Hdr.cc32xx.err.EINVAL ∧
      calls_since World.sample
        (simplelink_fcntl Hdr.cc32xx (Env.stored 0 0) World.sample 7 cmd args).2 = []) :=
  ⟨by decide, by decide,
    fcntl_round_trip Hdr.cc32xx (Env.stored 0 0) World.sample 7 16384 0 (by decide) (by decide)
      (fun _ _ => rfl) (fun _ => rfl)⟩

/-! ## Power policy: theorems -/

/-- With at most two sleep states the loop of `sys_pm_policy_next_state` ends
with `SYS_POWER_STATE_ACTIVE`, with state 0 and idle allowed, or with state 1
and standby allowed. -/
theorem next_state_loop_allowed (P : PowerHdr) (constraints : Nat) (enabled : Int → Bool)
    (n : Nat) (hn : n ≤ 2) (ticks : Int) (calls : List PmCall) :
    (next_state_loop P constraints enabled n ticks calls).1 = P.SYS_POWER_STATE_ACTIVE ∨
    ((next_state_loop P constraints enabled n ticks calls).1 = 0 ∧
      constraints &&& (1 <<< P.PowerCC26XX_DISALLOW_IDLE) = 0) ∨
    ((next_state_loop P constraints enabled n ticks calls).1 = 1 ∧
      constraints &&& (1 <<< P.PowerCC26XX_DISALLOW_STANDBY) = 0) := by
  induction n generalizing ticks calls with
  | zero => exact Or.inl rfl
  | succ i ih =>
    have hi : i ≤ 2 := by omega
    rw [next_state_loop]
    simp only []
    split_ifs with h1 h2 h3 h4 h5 h6 h7 h8 h9
    all_goals first
      | exact ih hi _ _
      | exact Or.inr (Or.inl ⟨by simp [h4], not_not.1 h5⟩)
      | exact Or.inr (Or.inr ⟨by simp [h8], not_not.1 h9⟩)
      | exact absurd hn (by omega)

/-- C27: with both sleep states configured (index 0 idle, index 1 standby), for
every `ticks` and every constraint mask, `sys_pm_policy_next_state` returns
`SYS_POWER_STATE_ACTIVE` or a state whose disallow bit is clear in the mask: it
never returns state 0 when `PowerCC26XX_DISALLOW_IDLE` is set, and never state 1
when `PowerCC26XX_DISALLOW_STANDBY` is set. `SYS_POWER_STATE_ACTIVE` is neither
0 nor 1. -/
theorem policy_respects_constraints (P : PowerHdr) (constraints : Nat) (enabled : Int → Bool)
    (ticks : Int) (hlen : P.pm_min_residency.length = 2)
    (hact : P.SYS_POWER_STATE_ACTIVE ≠ 0 ∧ P.SYS_POWER_STATE_ACTIVE ≠ 1) :
    ((sys_pm_policy_next_state P constraints enabled ticks).1 = P.SYS_POWER_STATE_ACTIVE ∨
      ((sys_pm_policy_next_state P constraints enabled ticks).1 = 0 ∧
        constraints &&& (1 <<< P.PowerCC26XX_DISALLOW_IDLE) = 0) ∨
      ((sys_pm_policy_next_state P constraints enabled ticks).1 = 1 ∧
        constraints &&& (1 <<< P.PowerCC26XX_DISALLOW_STANDBY) = 0)) ∧
    (constraints &&& (1 <<< P.PowerCC26XX_DISALLOW_IDLE) ≠ 0 →
      (sys_pm_policy_next_state P constraints enabled ticks).1 ≠ 0) ∧
    (constraints &&& (1 <<< P.PowerCC26XX_DISALLOW_STANDBY) ≠ 0 →
      (sys_pm_policy_next_state P constraints enabled ticks).1 ≠ 1) := by
  have key : (sys_pm_policy_next_state P constraints enabled ticks).1
        = P.SYS_POWER_STATE_ACTIVE ∨
      ((sys_pm_policy_next_state P constraints enabled ticks).1 = 0 ∧
        constraints &&& (1 <<< P.PowerCC26XX_DISALLOW_IDLE) = 0) ∨
      ((sys_pm_policy_next_state P constraints enabled ticks).1 = 1 ∧
        constraints &&& (1 <<< P.PowerCC26XX_DISALLOW_STANDBY) = 0) := by
    unfold sys_pm_policy_next_state
    split_ifs
    · exact Or.inl rfl
    · rw [hlen]
      exact next_state_loop_allowed P constraints enabled 2 (le_refl 2) _ _
  refine ⟨key, ?_, ?_⟩
  · intro hset hzero
    rcases key with h | ⟨-, h⟩ | ⟨h, -⟩
    · exact hact.1 (h.symm.trans hzero)
    · exact hset h
    · rw [hzero] at h
      exact absurd h (by decide)
  · intro hset hone
    rcases key with h | ⟨h, -⟩ | ⟨-, h⟩
    · exact hact.2 (h.symm.trans hone)
    · rw [hone] at h
      exact absurd h (by decide)
    · exact hset h

/-- Instance of C27 on the sample configuration: standby is disallowed (bit 2 of
the mask) and `ticks` is 100. -/
theorem policy_respects_constraints_witness :
    PowerHdr.cc26x2.pm_min_residency.length = 2 ∧
    (PowerHdr.cc26x2.SYS_POWER_STATE_ACTIVE ≠ 0 ∧ PowerHdr.cc26x2.SYS_POWER_STATE_ACTIVE ≠ 1) ∧
    4 &&& (1 <<< PowerHdr.cc26x2.PowerCC26XX_DISALLOW_STANDBY) ≠ 0 ∧
    (sys_pm_policy_next_state PowerHdr.cc26x2 4 (fun _ => true) 100).1 ≠ 1 :=
  ⟨by decide, by decide, by decide,
    (policy_respects_constraints PowerHdr.cc26x2 4 (fun _ => true) 100 (by decide)
      (by decide)).2.2 (by decide)⟩

/-- For `ticks` that is not negative, differs from `K_FOREVER` and is below
`pm_min_residency[0]`, `sys_pm_policy_next_state` returns
`SYS_POWER_STATE_ACTIVE` before the loop and programs no timeout. -/
theorem policy_active_below_residency (P : PowerHdr) (constraints : Nat)
    (enabled : Int → Bool) (ticks : Int) (h0 : 0 ≤ ticks) (h31 : ticks < 2 ^ 31)
    (hne : ticks ≠ P.K_FOREVER) (hlt : ticks < (P.pm_min_residency.getD 0 0 : Nat)) :
    sys_pm_policy_next_state P constraints enabled ticks
      = (P.SYS_POWER_STATE_ACTIVE, [PmCall.SysCtrl_DCDC_VoltageConditionalControl,
          PmCall.Power_getConstraintMask constraints]) := by
  unfold sys_pm_policy_next_state
  have hu : to_u32 ticks < P.pm_min_residency.getD 0 0 := by
    unfold to_u32
    rw [Int.emod_eq_of_lt h0 (by omega)]
    omega
  rw [if_pos ⟨hne, hu⟩]

/-- C28 (evaluation at the failing input): with minimum residencies of 32 and 65
ticks, no constraint set and every state enabled, `ticks = -5` is not
`K_FOREVER` and is below `pm_min_residency[0]` as an integer, yet
`sys_pm_policy_next_state` returns state 1 (standby) and programs the wake-up
timeout with -12 as an unsigned word: the comparison with the unsigned table
entry converts `ticks` to 4294967291. -/
theorem policy_negative_ticks_select_standby :
    (-5 : Int) ≠ PowerHdr.cc26x2.K_FOREVER
    ∧ (-5 : Int) < (PowerHdr.cc26x2.pm_min_residency.getD 0 0 : Nat)
    ∧ to_u32 (-5) = 4294967291
    ∧ sys_pm_policy_next_state PowerHdr.cc26x2 0 (fun _ => true) (-5)
      = (1, [PmCall.SysCtrl_DCDC_VoltageConditionalControl, PmCall.Power_getConstraintMask 0,
          PmCall.sys_pm_ctrl_is_state_enabled 1 true, PmCall.ClockP_setTimeout 4294967284])
    ∧ PowerHdr.cc26x2.SYS_POWER_STATE_ACTIVE = -1 := by
  decide

/-! ## GPIO driver: theorems -/

/-- A union of two words that are clear of a mask is clear of it. -/
theorem lor_land_zero (a b m : Nat) (ha : a &&& m = 0) (hb : b &&& m = 0) :
    (a ||| b) &&& m = 0 := by
  apply Nat.eq_of_testBit_eq
  intro i
  have h1 : (a &&& m).testBit i = false := by rw [ha]; exact Nat.zero_testBit i
  have h2 : (b &&& m).testBit i = false := by rw [hb]; exact Nat.zero_testBit i
  rw [Nat.testBit_and] at h1 h2
  rw [Nat.testBit_and, Nat.testBit_or, Nat.zero_testBit]
  cases hA : a.testBit i <;> cases hB : b.testBit i <;> cases hM : m.testBit i <;> simp_all

/-- Joining words that are clear of a mask with the masked part of a register
value leaves, under the mask, the masked part. -/
theorem masked_join (c b p m : Nat) (hc : c &&& m = 0) (hp : p &&& m = 0) :
    ((c ||| (b &&& m)) ||| p) &&& m = b &&& m := by
  apply Nat.eq_of_testBit_eq
  intro i
  have h1 : (c &&& m).testBit i = false := by rw [hc]; exact Nat.zero_testBit i
  have h2 : (p &&& m).testBit i = false := by rw [hp]; exact Nat.zero_testBit i
  rw [Nat.testBit_and] at h1 h2
  simp only [Nat.testBit_and, Nat.testBit_or]
  cases hC : c.testBit i <;> cases hB : b.testBit i <;> cases hP : p.testBit i <;>
    cases hM : m.testBit i <;> simp_all

/-- The pull word chosen by `gpio_cc13xx_cc26xx_config` is one of the three pull
words of the driver library. -/
theorem pud_config_some (G : GpioHdr) (flags pull : Nat) (h : pud_config G flags = some pull) :
    pull = G.IOC_NO_IOPULL ∨ pull = G.IOC_IOPULL_UP ∨ pull = G.IOC_IOPULL_DOWN := by
  unfold pud_config at h
  split_ifs at h <;> simp_all

/-- The macro `BIT` for a bit of a 32-bit word. -/
theorem BIT_eq (n : Nat) (h : n < 32) : BIT n = 2 ^ n := by
  unfold BIT
  rw [Nat.one_shiftLeft]
  exact Nat.mod_eq_of_lt (Nat.pow_lt_pow_right (by decide) h)

/-- The macro `WRITE_BIT` on a bit of a 32-bit word changes that bit alone, and
makes it the value given. -/
theorem WRITE_BIT_spec (v bit : Nat) (set : Bool) (h : bit < 32) :
    (∀ i, i < 32 → i ≠ bit → (WRITE_BIT v bit set).testBit i = v.testBit i) ∧
    (WRITE_BIT v bit set).testBit bit = set := by
  unfold WRITE_BIT not_u32
  rw [BIT_eq bit h]
  cases set with
  | true =>
    simp only [if_true]
    refine ⟨fun i _ hne => ?_, ?_⟩
    · rw [Nat.testBit_or, Nat.testBit_two_pow]
      simp [Ne.symm hne]
    · rw [Nat.testBit_or, Nat.testBit_two_pow_self]
      simp
  | false =>
    simp only [Bool.false_eq_true, if_false]
    refine ⟨fun i hi hne => ?_, ?_⟩
    · rw [Nat.testBit_and, Nat.testBit_xor, Nat.testBit_two_pow_sub_one, Nat.testBit_two_pow]
      simp [hi, Ne.symm hne]
    · rw [Nat.testBit_and, Nat.testBit_xor, Nat.testBit_two_pow_sub_one, Nat.testBit_two_pow_self]
      simp [h]

/-- C29 (counterexample): pin 5 holds an enabled rising-edge interrupt (bits 17
and 18 of its IOCFG register). `gpio_cc13xx_cc26xx_config` with flags equal to
`GPIO_DISCONNECTED` returns 0 and leaves the interrupt-setting bits of the
register at 0. -/
theorem config_disconnected_clears_interrupt_bits :
    GpioHdr.cc26x2.GPIO_DISCONNECTED = 0
    ∧ (gpio_cc13xx_cc26xx_config GpioHdr.cc26x2 ErrHdr.cc32xx GpioState.sample 0 5 0).1 = 0
    ∧ GpioState.sample.iocfg 5 &&& IOCFG_INT_MASK = 0x60000
    ∧ (gpio_cc13xx_cc26xx_config GpioHdr.cc26x2 ErrHdr.cc32xx GpioState.sample 0 5 0).2.iocfg 5
        &&& IOCFG_INT_MASK = 0 := by
  decide

/-- C29 (amended): `gpio_cc13xx_cc26xx_config` returns 0, `-ENOTSUP` or
`-EINVAL`. For every pin, every prior IOCFG register value and every flags
value other than `GPIO_DISCONNECTED` for which it returns 0, the
interrupt-setting bits of the pin's IOCFG register (`IOCFG_INT_MASK`) after the
call equal those before the call; with flags equal to `GPIO_DISCONNECTED` a
call that returns 0 stores the port identifier alone, so that the
interrupt-setting bits are cleared; and a call that does not return 0 writes
nothing. The configuration words joined by the function hold no
interrupt-setting bit and `ENOTSUP` is not 0. -/
theorem config_preserves_interrupt_bits (G : GpioHdr) (E : ErrHdr) (s : GpioState)
    (access_op : Int) (pin flags : Nat) (hgen : G.general_words_clear_of_int)
    (hE : E.ENOTSUP ≠ 0) :
    ((gpio_cc13xx_cc26xx_config G E s access_op pin flags).1 = 0 ∨
      (gpio_cc13xx_cc26xx_config G E s access_op pin flags).1 = -E.ENOTSUP ∨
      (gpio_cc13xx_cc26xx_config G E s access_op pin flags).1 = -E.EINVAL) ∧
    ((gpio_cc13xx_cc26xx_config G E s access_op pin flags).1 ≠ 0 →
      (gpio_cc13xx_cc26xx_config G E s access_op pin flags).2 = s) ∧
    ((gpio_cc13xx_cc26xx_config G E s access_op pin flags).1 = 0 →
      flags ≠ G.GPIO_DISCONNECTED →
      (gpio_cc13xx_cc26xx_config G E s access_op pin flags).2.iocfg pin &&& IOCFG_INT_MASK
        = s.iocfg pin &&& IOCFG_INT_MASK) ∧
    ((gpio_cc13xx_cc26xx_config G E s access_op pin flags).1 = 0 →
      flags = G.GPIO_DISCONNECTED →
      (gpio_cc13xx_cc26xx_config G E s access_op pin flags).2.iocfg pin = 0 ||| G.IOC_PORT_GPIO ∧
      (gpio_cc13xx_cc26xx_config G E s access_op pin flags).2.iocfg pin &&& IOCFG_INT_MASK
        = 0) := by
  obtain ⟨hport, h2ma, hauto, hslew, hwake, hhe, hhd, hie, hid, hnp, hup, hdown⟩ := hgen
  have hneg : -E.ENOTSUP ≠ 0 := fun h => hE (neg_eq_zero.1 h)
  unfold gpio_cc13xx_cc26xx_config
  by_cases h1 : access_op ≠ G.GPIO_ACCESS_BY_PIN
  · rw [if_pos h1]
    exact ⟨Or.inr (Or.inl rfl), fun _ => rfl, fun _ _ => rfl, fun h => absurd h hneg⟩
  · rw [if_neg h1]
    by_cases h2 : flags &&& G.GPIO_INPUT ≠ 0 ∧ flags &&& G.GPIO_OUTPUT ≠ 0
    · rw [if_pos h2]
      exact ⟨Or.inr (Or.inl rfl), fun _ => rfl, fun _ _ => rfl, fun h => absurd h hneg⟩
    · rw [if_neg h2]
      by_cases h3 : flags = G.GPIO_DISCONNECTED
      · rw [if_pos h3]
        refine ⟨Or.inl rfl, fun h => absurd rfl h, fun _ h => absurd h3 h, fun _ _ => ?_⟩
        have hreg : (GPIO_setOutputEnableDio (IOCPortConfigureSet s pin G.IOC_PORT_GPIO 0) pin
            G.GPIO_OUTPUT_DISABLE).iocfg pin = 0 ||| G.IOC_PORT_GPIO := by
          simp [GPIO_setOutputEnableDio, IOCPortConfigureSet]
        refine ⟨hreg, ?_⟩
        rw [hreg, Nat.zero_or]
        exact hport
      · rw [if_neg h3]
        have hhyst : (if flags &&& G.GPIO_INT_DEBOUNCE ≠ 0 then G.IOC_HYST_ENABLE
            else G.IOC_HYST_DISABLE) &&& IOCFG_INT_MASK = 0 := by
          split_ifs <;> assumption
        have hinp : (if flags &&& G.GPIO_INPUT ≠ 0 then G.IOC_INPUT_ENABLE
            else G.IOC_INPUT_DISABLE) &&& IOCFG_INT_MASK = 0 := by
          split_ifs <;> assumption
        generalize (if flags &&& G.GPIO_INT_DEBOUNCE ≠ 0 then G.IOC_HYST_ENABLE
            else G.IOC_HYST_DISABLE) = hyst at hhyst ⊢
        generalize (if flags &&& G.GPIO_INPUT ≠ 0 then G.IOC_INPUT_ENABLE
            else G.IOC_INPUT_DISABLE) = inp at hinp ⊢
        cases hp : pud_config G flags with
        | none =>
          exact ⟨Or.inr (Or.inr rfl), fun _ => rfl, fun _ _ => rfl, fun _ h => absurd h h3⟩
        | some pull =>
          have hpull : pull &&& IOCFG_INT_MASK = 0 := by
            rcases pud_config_some G flags pull hp with h | h | h <;> rw [h] <;> assumption
          have hall := lor_land_zero _ _ _ (lor_land_zero _ _ _ (lor_land_zero _ _ _
            (lor_land_zero _ _ _ (lor_land_zero _ _ _ (lor_land_zero _ _ _ h2ma hauto) hslew)
              hwake) hhyst) hinp) hpull
          have hjoin := masked_join _ (s.iocfg pin) _ _ hall hport
          refine ⟨Or.inl ?_, fun h => absurd ?_ h, fun _ _ => ?_, fun _ h => absurd h h3⟩
          · simp only []
            split_ifs <;> rfl
          · simp only []
            split_ifs <;> rfl
          · simp only []
            split_ifs <;>
              simpa [GPIO_setOutputEnableDio, IOCPortConfigureSet, IOCPortConfigureGet,
                gpio_cc13xx_cc26xx_port_set_bits_raw, gpio_cc13xx_cc26xx_port_clear_bits_raw,
                GPIO_setMultiDio, GPIO_clearMultiDio] using hjoin

/-- Instance of C29 (amended) on the sample state: pin 5 is made an output that
starts high, and its interrupt-setting bits stay as they were. -/
theorem config_preserves_interrupt_bits_witness :
    GpioHdr.cc26x2.general_words_clear_of_int ∧ ErrHdr.cc32xx.ENOTSUP ≠ 0 ∧
    (gpio_cc13xx_cc26xx_config GpioHdr.cc26x2 ErrHdr.cc32xx GpioState.sample 0 5 0xA00).1 = 0 ∧
    (0xA00 : Nat) ≠ GpioHdr.cc26x2.GPIO_DISCONNECTED ∧
    (gpio_cc13xx_cc26xx_config GpioHdr.cc26x2 ErrHdr.cc32xx GpioState.sample 0 5 0xA00).2.iocfg 5
        &&& IOCFG_INT_MASK
      = GpioState.sample.iocfg 5 &&& IOCFG_INT_MASK :=
  ⟨by unfold GpioHdr.general_words_clear_of_int; decide, by decide, by decide, by decide,
    (config_preserves_interrupt_bits GpioHdr.cc26x2 ErrHdr.cc32xx GpioState.sample 0 5 0xA00
      (by unfold GpioHdr.general_words_clear_of_int; decide) (by decide)).2.2.1
      (by decide) (by decide)⟩

/-- C30: for every pin below 32, every prior IOCFG register value and every
`mode` and `trig` with `mode` equal to `GPIO_INT_MODE_DISABLED` or
`GPIO_INT_MODE_EDGE`, `gpio_cc13xx_cc26xx_pin_interrupt_configure` returns 0,
leaves every IOCFG bit outside `IOCFG_INT_MASK` unchanged, and changes
`pin_callback_enables` only in bit `pin`, which becomes 1 exactly when `mode`
is not `GPIO_INT_MODE_DISABLED`; for every other mode it returns `-ENOTSUP` and
changes nothing. The interrupt words and the port identifier hold no bit outside
`IOCFG_INT_MASK`. -/
theorem pin_interrupt_configure_frame (G : GpioHdr) (E : ErrHdr) (s : GpioState) (pin : Nat)
    (mode trig : Int) (hpin : pin < 32) (hint : G.interrupt_words_within_int) :
    (mode = G.GPIO_INT_MODE_DISABLED ∨ mode = G.GPIO_INT_MODE_EDGE →
      (gpio_cc13xx_cc26xx_pin_interrupt_configure G E s pin mode trig).1 = 0 ∧
      (gpio_cc13xx_cc26xx_pin_interrupt_configure G E s pin mode trig).2.iocfg pin
          &&& IOCFG_GEN_MASK
        = s.iocfg pin &&& IOCFG_GEN_MASK ∧
      (∀ q, q ≠ pin →
        (gpio_cc13xx_cc26xx_pin_interrupt_configure G E s pin mode trig).2.iocfg q
          = s.iocfg q) ∧
      (∀ i, i < 32 → i ≠ pin →
        (gpio_cc13xx_cc26xx_pin_interrupt_configure G E s pin mode trig).2.pin_callback_enables.testBit i
          = s.pin_callback_enables.testBit i) ∧
      ((gpio_cc13xx_cc26xx_pin_interrupt_configure G E s pin mode trig).2.pin_callback_enables.testBit pin
          = true ↔ mode ≠ G.GPIO_INT_MODE_DISABLED)) ∧
    (mode ≠ G.GPIO_INT_MODE_DISABLED → mode ≠ G.GPIO_INT_MODE_EDGE →
      gpio_cc13xx_cc26xx_pin_interrupt_configure G E s pin mode trig = (-E.ENOTSUP, s)) := by
  obtain ⟨hport, hboth, hrise, hfall, hen, hdis, hnone⟩ := hint
  have hzero : (0 : Nat) &&& IOCFG_GEN_MASK = 0 := Nat.zero_and _
  refine ⟨fun hmode => ?_, fun h1 h2 => ?_⟩
  · have hcfg : ∃ config0, interrupt_config G mode trig = some config0
        ∧ config0 &&& IOCFG_GEN_MASK = 0 := by
      unfold interrupt_config
      by_cases hd : mode ≠ G.GPIO_INT_MODE_DISABLED
      · rw [if_pos hd, if_pos (hmode.resolve_left hd)]
        refine ⟨_, rfl, ?_⟩
        refine lor_land_zero _ _ _ (lor_land_zero _ _ _ hzero ?_) hen
        split_ifs <;> assumption
      · rw [if_neg hd]
        exact ⟨_, rfl, lor_land_zero _ _ _ hzero (lor_land_zero _ _ _ hdis hnone)⟩
    obtain ⟨config0, hc, hclear⟩ := hcfg
    obtain ⟨hother, hbit⟩ := WRITE_BIT_spec s.pin_callback_enables pin
      (decide (mode ≠ G.GPIO_INT_MODE_DISABLED)) hpin
    unfold gpio_cc13xx_cc26xx_pin_interrupt_configure
    rw [hc]
    refine ⟨rfl, ?_, ?_, ?_, ?_⟩
    · simpa [IOCPortConfigureSet, IOCPortConfigureGet] using
        masked_join config0 (s.iocfg pin) G.IOC_PORT_GPIO IOCFG_GEN_MASK hclear hport
    · intro q hq
      simp [IOCPortConfigureSet, hq]
    · intro i hi hne
      simpa [IOCPortConfigureSet] using hother i hi hne
    · have hb : (WRITE_BIT s.pin_callback_enables pin
          (decide (mode ≠ G.GPIO_INT_MODE_DISABLED))).testBit pin = true
          ↔ mode ≠ G.GPIO_INT_MODE_DISABLED := by
        rw [hbit]
        exact decide_eq_true_iff
      simpa [IOCPortConfigureSet] using hb
  · unfold gpio_cc13xx_cc26xx_pin_interrupt_configure interrupt_config
    rw [if_pos h1, if_neg h2]

/-- Instance of C30 on the sample state: the interrupt of pin 5 is disabled. -/
theorem pin_interrupt_configure_frame_witness :
    (5 : Nat) < 32 ∧ GpioHdr.cc26x2.interrupt_words_within_int ∧
    (0x2000 : Int) = GpioHdr.cc26x2.GPIO_INT_MODE_DISABLED ∧
    (gpio_cc13xx_cc26xx_pin_interrupt_configure GpioHdr.cc26x2 ErrHdr.cc32xx GpioState.sample 5
      0x2000 0).1 = 0 ∧
    (gpio_cc13xx_cc26xx_pin_interrupt_configure GpioHdr.cc26x2 ErrHdr.cc32xx GpioState.sample 5
        0x2000 0).2.iocfg 5 &&& IOCFG_GEN_MASK
      = GpioState.sample.iocfg 5 &&& IOCFG_GEN_MASK :=
  ⟨by decide, by unfold GpioHdr.interrupt_words_within_int; decide, by decide,
    ((pin_interrupt_configure_frame GpioHdr.cc26x2 ErrHdr.cc32xx GpioState.sample 5 0x2000 0
      (by decide) (by unfold GpioHdr.interrupt_words_within_int; decide)).1
        (Or.inl (by decide))).1,
    ((pin_interrupt_configure_frame GpioHdr.cc26x2 ErrHdr.cc32xx GpioState.sample 5 0x2000 0
      (by decide) (by unfold GpioHdr.interrupt_words_within_int; decide)).1
        (Or.inl (by decide))).2.1⟩

end Simplelink
